import Mathlib

/-!
Verification of the Istanbul rules engine.

This file is a shallow embedding, in Lean 4, of the core of the
`istanbul_game` Python package: the constants (`constants.py`), the
per-facility state machines (`tiles.py`), the per-player record
(`player.py`), the turn/phase state machine (`turn.py`) and the central
action dispatcher (`game.py`).  Python `assert` failures, `KeyError`s and
other exceptions are modelled by `Option`: an operation returns `none`
exactly when the Python code raises.  A caller that receives `none` gets
no new state, so "reachable" below means reachable through successful
calls of the dispatcher, which is the intended reading of the engine's
contract (the engine front-loads validation and callers are expected to
supply only legal actions).

Python `Counter` objects are embedded as association lists
`List (κ × Nat)` so that key-iteration order and the distinction between
an absent key and a key with count 0 are preserved (this distinction is
load-bearing for the sultan's palace check).  Python `set` /
`OrderedSet` values are embedded as duplicate-free lists in insertion
order; `set.remove` (which raises on a missing element) is modelled by a
membership test followed by `List.erase`, and `set.add` by an
append-if-absent.  Python `int` fields that can become negative (`lira`,
wainwright `extensions`, tea-house `call`) are `Int`; fields that the
code keeps non-negative by guarded decrements are `Nat`.
-/

namespace Istanbul

/-- `Good` enumeration from `constants.py`. -/
inductive Good where
  | red
  | blue
  | green
  | yellow
deriving DecidableEq, Repr

/-- `Card` enumeration from `constants.py`. -/
inductive Card where
  | oneGood
  | fiveLira
  | extraMove
  | noMove
  | returnAssistant
  | arrestFamily
  | sellAny
  | doubleSultan
  | doublePO
  | doubleDealer
deriving DecidableEq, Repr

/-- `Player` enumeration from `constants.py`. -/
inductive Player where
  | red
  | green
  | blue
  | yellow
  | white
deriving DecidableEq, Repr

/-- `Tile` enumeration from `constants.py`. -/
inductive Tile where
  | greatMosque
  | postOffice
  | fabricWarehouse
  | smallMosque
  | fruitWarehouse
  | policeStation
  | fountain
  | spiceWarehouse
  | blackMarket
  | caravansary
  | smallMarket
  | teaHouse
  | sultansPalace
  | largeMarket
  | wainwright
  | gemstoneDealer
deriving DecidableEq, Repr

/-- Locations are plain integers (`Location = NewType('Location', int)`). -/
abbrev Location := Nat

/-- A two-die roll `Roll = Tuple[_Roll, _Roll]`.  The `Literal[1..6]` type
annotation is not enforced at runtime, so the components are plain `Nat`. -/
abbrev Roll := Nat × Nat

/-- `ROLL_LOCATIONS` from `constants.py`, restricted to the keys that
`sum(roll)` can produce (the dispatcher looks the sum of two dice up in
this table; a missing key is a `KeyError`). -/
def rollLocations (n : Nat) : Option Tile :=
  match n with
  | 1 => some Tile.wainwright
  | 2 => some Tile.fabricWarehouse
  | 3 => some Tile.spiceWarehouse
  | 4 => some Tile.fruitWarehouse
  | 5 => some Tile.postOffice
  | 6 => some Tile.caravansary
  | 7 => some Tile.fountain
  | 8 => some Tile.blackMarket
  | 9 => some Tile.teaHouse
  | 10 => some Tile.largeMarket
  | 11 => some Tile.smallMarket
  | 12 => some Tile.policeStation
  | 13 => some Tile.sultansPalace
  | 14 => some Tile.smallMosque
  | 15 => some Tile.greatMosque
  | 16 => some Tile.gemstoneDealer
  | _ => none

/-- `taxicab_dist` from `game.py`: both locations are embedded on a 4x4
grid by `(row, col) = divmod(loc - 1, 4)`. -/
def taxicabDist (loc1 loc2 : Location) : Nat :=
  let r1 := (loc1 - 1) / 4
  let c1 := (loc1 - 1) % 4
  let r2 := (loc2 - 1) / 4
  let c2 := (loc2 - 1) % 4
  (max r1 r2 - min r1 r2) + (max c1 c2 - min c1 c2)

/-! ### Counters (association lists mirroring Python `Counter`) -/

/-- `counter[k]`: a `Counter` lookup returns 0 for a missing key. -/
def cget [BEq κ] (xs : List (κ × Nat)) (k : κ) : Nat :=
  match xs.find? (fun e => e.1 == k) with
  | some e => e.2
  | none => 0

/-- `sum(counter.values())`. -/
def ctotal (xs : List (κ × Nat)) : Nat :=
  (xs.map (fun e => e.2)).sum

/-- `counter[k] += n`: update in place if the key is present, otherwise
append it (Python dicts keep insertion order). -/
def cinc [BEq κ] (xs : List (κ × Nat)) (k : κ) (n : Nat) : List (κ × Nat) :=
  match xs with
  | [] => [(k, n)]
  | e :: rest =>
    if e.1 == k then (e.1, e.2 + n) :: rest else e :: cinc rest k n

/-! ### Duplicate-free lists mirroring Python sets -/

/-- `set.add` / `OrderedSet.add`: no-op when already present, else append. -/
def setAdd [DecidableEq α] (xs : List α) (a : α) : List α :=
  if a ∈ xs then xs else xs ++ [a]

/-- `set.remove` / `MutableSet.remove`: `KeyError` when absent. -/
def setRemove [DecidableEq α] (xs : List α) (a : α) : Option (List α) :=
  if a ∈ xs then some (xs.erase a) else none

/-! ### Facility state machines (`tiles.py`) -/

/-- Specialised per-facility state, one variant per `TileState` subclass. -/
inductive TileExtra where
  | generic
  | mosque (availableTiles : List (Good × Nat))
  | postOffice (position : Nat)
  | caravansary (discardPile : List Card) (awaitingDiscard : Bool)
  | market (oneCost : Nat) (expectingDemand : Bool) (demand : Option (List (Good × Nat)))
  | sultansPalace (requiredCount : Nat)
  | wainwright (extensions : Int)
  | gemstoneDealer (cost : Option Int)
deriving DecidableEq, Repr

/-- Base fields of `TileState` (present on every facility) plus the
specialised part. -/
structure TileState where
  governor : Bool
  smuggler : Bool
  assistants : List Player
  familyMembers : List Player
  players : List Player
  extra : TileExtra
deriving DecidableEq, Repr

/-- A fresh `TileState` around a given specialised part. -/
def freshTileState (extra : TileExtra) : TileState :=
  { governor := false, smuggler := false, assistants := [], familyMembers := [],
    players := [], extra := extra }

/-- `MosqueTileState.take_action(good)`: the good must still be on the
price ladder; below 5 the price rises by one, at 5 the slot is deleted. -/
def mosqueTakeAction (avail : List (Good × Nat)) (g : Good) :
    Option (List (Good × Nat)) :=
  match avail.find? (fun e => e.1 == g) with
  | none => none
  | some e =>
    if e.2 < 5 then
      some (avail.map (fun x => if x.1 == g then (x.1, x.2 + 1) else x))
    else
      some (avail.filter (fun x => x.1 != g))

/-- `PostOfficeTileState.available()`: the two mail slots are
`MailSlot(RED, GREEN, 2, 1)` and `MailSlot(BLUE, YELLOW, 2, 1)`; a slot
uses its early values once `position` has passed its index. -/
def poAvailable (position : Nat) : List Good × Int :=
  let slot0 : Good × Int := if position > 0 then (Good.red, 2) else (Good.green, 1)
  let slot1 : Good × Int := if position > 1 then (Good.blue, 2) else (Good.yellow, 1)
  ([slot0.1, slot1.1], slot0.2 + slot1.2)

/-- `PostOfficeTileState.take_action()`: returns what is available and
advances `position = (position + 1) % 5`. -/
def poTakeAction (position : Nat) : (List Good × Int) × Nat :=
  (poAvailable position, (position + 1) % 5)

/-- `CaravansaryTileState.discard_onto(card)`: push onto the discard pile
and clear the awaiting flag. -/
def carDiscardOnto (pile : List Card) (card : Card) : List Card × Bool :=
  (pile ++ [card], false)

/-- `CaravansaryTileState.take_action(count)`: result is
`(cards drawn, new pile, new awaiting flag)`; `none` models the asserts
(already awaiting, `count > 2`, pile too small). -/
def carTakeAction (pile : List Card) (awaiting : Bool) (count : Nat) :
    Option (List Card × List Card × Bool) :=
  if awaiting then none
  else if count > 2 then none
  else if count == 0 then some ([], pile, true)
  else if pile.length < count then none
  else some (pile.drop (pile.length - count), pile.take (pile.length - count), true)

/-- `MarketTileState.set_demand(demand)`: demand must total exactly 5. -/
def marketSetDemand (demand : List (Good × Nat)) :
    Option (Option (List (Good × Nat)) × Bool) :=
  if ctotal demand == 5 then some (some demand, false) else none

/-- `MarketTileState.take_action(payment)`: requires demand to be set,
checks each key of the payment against the demand, flips back to
expecting demand and pays `sum(range(one_cost, one_cost + count))`. -/
def marketTakeAction (oneCost : Nat) (expectingDemand : Bool)
    (demand : Option (List (Good × Nat))) (payment : List (Good × Nat)) :
    Option (Nat × Bool) :=
  if expectingDemand then none
  else
    match demand with
    | none => none
    | some d =>
      if payment.all (fun e => cget payment e.1 ≤ cget d e.1) then
        some (((List.range (ctotal payment)).map (fun i => oneCost + i)).sum, true)
      else
        none

/-- `SultansPalaceTileState.GOOD_CYCLE`, with `none` as the wildcard. -/
def goodCycle (i : Nat) : Option Good :=
  match i with
  | 0 => some Good.blue
  | 1 => some Good.red
  | 2 => some Good.green
  | 3 => some Good.yellow
  | _ => none

/-- `SultansPalaceTileState.required()`: `none` for the assert
`required_count >= 4`, `some none` once sold out (`required_count > 10`),
else the goods counter built by cycling `GOOD_CYCLE`. -/
def paRequired (requiredCount : Nat) : Option (Option (List (Option Good × Nat))) :=
  if requiredCount < 4 then none
  else if requiredCount > 10 then some none
  else
    some (some ((List.range requiredCount).foldl
      (fun acc i => cinc acc (goodCycle (i % 5)) 1) [((none : Option Good), 0)]))

/-- `SultansPalaceTileState.take_action(payment)`: totals must match and
each key *of the payment* must meet its requirement; returns the new
`required_count`. -/
def paTakeAction (requiredCount : Nat) (payment : List (Good × Nat)) : Option Nat :=
  match paRequired requiredCount with
  | none => none
  | some none => none
  | some (some required) =>
    if ctotal required == ctotal payment then
      if payment.all (fun e => cget payment e.1 ≥ cget required (some e.1)) then
        some (requiredCount + 1)
      else none
    else none

/-- `WainwrightTileState.take_action()`: decrement, then the decremented
value must still be non-negative. -/
def wainTakeAction (extensions : Int) : Option Int :=
  if extensions - 1 ≥ 0 then some (extensions - 1) else none

/-- `GemstoneDealerTileState.take_action()`: requires a current price;
the price rises by one and becomes `none` (sold out) once it exceeds 24. -/
def dealerTakeAction (cost : Option Int) : Option (Option Int) :=
  match cost with
  | none => none
  | some c => some (if c + 1 > 24 then none else some (c + 1))

/-- `initial_tile_state(tile, player_count)` from `tiles.py`. -/
def initialTileState (tile : Tile) (playerCount : Nat) : TileState :=
  freshTileState
    (match tile with
     | Tile.greatMosque => TileExtra.mosque [(Good.blue, 2), (Good.yellow, 2)]
     | Tile.smallMosque => TileExtra.mosque [(Good.red, 2), (Good.green, 2)]
     | Tile.postOffice => TileExtra.postOffice 0
     | Tile.caravansary => TileExtra.caravansary [] false
     | Tile.smallMarket => TileExtra.market 2 true none
     | Tile.largeMarket => TileExtra.market 3 true none
     | Tile.sultansPalace => TileExtra.sultansPalace (if playerCount < 4 then 5 else 4)
     | Tile.wainwright => TileExtra.wainwright (3 * (playerCount : Int))
     | Tile.gemstoneDealer =>
       TileExtra.gemstoneDealer
         (some (if playerCount == 2 then 15 else if playerCount == 3 then 14 else 12))
     | _ => TileExtra.generic)

end Istanbul

namespace Istanbul

/-! ### Player state (`player.py`) -/

/-- `PlayerState.__init__`: fields and their initial values. -/
structure PlayerState where
  hand : Card → Nat
  lira : Int
  rubies : Nat
  cartMax : Nat
  cartContents : Good → Nat
  stackSize : Nat
  tiles : List Good
  location : Location
  assistantLocations : List Location
  familyLocation : Location

/-- A freshly constructed `PlayerState(color, hand, lira, fountain,
police_station)`. -/
def initialPlayerState (hand : Card) (lira : Int) (fountainLoc policeLoc : Location) :
    PlayerState :=
  { hand := fun c => if c = hand then 1 else 0
    lira := lira
    rubies := 0
    cartMax := 2
    cartContents := fun _ => 0
    stackSize := 4
    tiles := []
    location := fountainLoc
    assistantLocations := []
    familyLocation := policeLoc }

/-! ### Actions (`actions.py`) -/

/-- `ChooseReward` payload: 3 lira or one card. -/
inductive RewardChoice where
  | lira
  | card (c : Card)
deriving DecidableEq, Repr

/-- Cost of an `EncounterGovernor`: pay 2 lira or discard a card. -/
inductive PayOrCard where
  | pay
  | card (c : Card)
deriving DecidableEq, Repr

/-- Cost of an `EncounterSmuggler`: pay 2 lira or give up a good. -/
inductive PayOrGood where
  | pay
  | good (g : Good)
deriving DecidableEq, Repr

/-- One gain slot of a `CaravansaryAction`: a named card or the top of the
discard pile. -/
inductive CarGain where
  | discardTop
  | card (c : Card)
deriving DecidableEq, Repr

/-- A roll argument that may be a plain two-die roll or a `RedTileAction`
override (`toFour = true` for the change-a-die-to-four method). -/
inductive RollArg where
  | dice (roll : Roll)
  | redTile (initialRoll finalRoll : Roll) (toFour : Bool)
deriving DecidableEq, Repr

/-- The closed set of `PlayerAction` variants. -/
inductive PAction where
  | yieldTurn
  | move (tile : Location) (skipAssistant : Bool)
  | pay
  | chooseReward (choice : RewardChoice)
  | encounterSmuggler (gain : Good) (cost : PayOrGood) (roll : Roll)
  | encounterGovernor (gain : Card) (cost : PayOrCard) (roll : Roll)
  | skipTile
  | genericTile
  | greenTile (good : Good)
  | redTileAct (initialRoll finalRoll : Roll) (toFour : Bool)
  | yellowTile (fromTile : Location)
  | caravansary (gain1 gain2 : CarGain) (cost : Card)
  | blackMarket (good : Good) (roll : RollArg)
  | teaHouse (call : Int) (roll : RollArg)
  | market (goods : List (Good × Nat)) (newDemand : List (Good × Nat))
  | doubleCard (card : Card) (action1 action2 : PAction)
  | sellAny (goods : List (Good × Nat)) (newDemand : List (Good × Nat))
  | policeStation (location : Location) (action : PAction)
  | sultansPalace (goods : List (Good × Nat))
  | mosque (goodColor : Good)
  | fountain (assistantLocations : List Location)
  | oneGoodCard (good : Good)
  | extraMoveCard (tile : Location) (skipAssistant : Bool)
  | noMoveCard (skipAssistant : Bool)
  | fiveLiraCard
  | returnAssistantCard (fromTile : Location)
  | arrestFamilyCard (reward : RewardChoice)
deriving DecidableEq, Repr

/-! ### Game state (`game.py`) and turn state (`turn.py`) -/

/-- `GameState` fields (with the `TurnState` fields inlined; the turn
state shares the player tuple with the game). -/
structure GameState where
  players : List Player
  victoryThreshold : Nat
  locMap : Location → Option Tile
  locInv : Tile → Option Location
  tileStates : Tile → TileState
  playerStates : Player → PlayerState
  turnIdx : Nat
  phase : Nat
  yieldRequired : Bool
  outstandingRewardChoices : Nat
  familyMemberActing : Bool
  completed : Bool

/-- Point update of one tile state. -/
def updTile (s : GameState) (t : Tile) (f : TileState → TileState) : GameState :=
  { s with tileStates := fun t2 => if t2 = t then f (s.tileStates t2) else s.tileStates t2 }

/-- Point update of one player state. -/
def updPlayer (s : GameState) (p : Player) (f : PlayerState → PlayerState) : GameState :=
  { s with playerStates := fun p2 => if p2 = p then f (s.playerStates p2) else s.playerStates p2 }

/-- `turn_state.current_player` (`players[current_player_idx]`; the index
is always in range in reachable states, the default totalises the
function). -/
def currentPlayer (s : GameState) : Player :=
  s.players.getD s.turnIdx Player.red

/-- The acting player's state. -/
def currentPS (s : GameState) : PlayerState :=
  s.playerStates (currentPlayer s)

/-- `TurnState.valid_action` from `turn.py`, with the `isinstance` class
tests expanded over the closed action type (`PlaceTileAction` covers the
generic, caravansary, black-market, tea-house, market, police-station,
sultan's-palace, mosque and fountain actions). -/
def validAction (s : GameState) (a : PAction) : Bool :=
  if s.yieldRequired then
    match a with
    | .yieldTurn | .oneGoodCard _ | .fiveLiraCard | .arrestFamilyCard _ | .yellowTile _ => true
    | _ => false
  else
    match a with
    | .yieldTurn => s.phase == 2 || s.phase == 4
    | .move _ _ | .extraMoveCard _ _ | .noMoveCard _ | .returnAssistantCard _ => s.phase == 1
    | .pay => s.phase == 2
    | .genericTile | .caravansary _ _ _ | .blackMarket _ _ | .teaHouse _ _
    | .market _ _ | .policeStation _ _ | .sultansPalace _ | .mosque _ | .fountain _
    | .skipTile | .doubleCard _ _ _ | .sellAny _ _ | .greenTile _ => s.phase == 3
    | .chooseReward _ | .encounterGovernor _ _ _ | .encounterSmuggler _ _ _ => s.phase == 4
    | _ => true

/-- `TurnState.take_action` from `turn.py`: checks legality, then applies
the phase transition keyed on the action's class. -/
def turnTakeAction (s : GameState) (a : PAction) : Option GameState :=
  if validAction s a then
    some (match a with
      | .yieldTurn =>
        { s with turnIdx := (s.turnIdx + 1) % s.players.length, phase := 1,
                 yieldRequired := false }
      | .move _ skip | .extraMoveCard _ skip | .noMoveCard skip =>
        { s with phase := 2, yieldRequired := if skip then true else s.yieldRequired }
      | .pay => { s with phase := 3 }
      | .genericTile | .caravansary _ _ _ | .blackMarket _ _ | .teaHouse _ _
      | .market _ _ | .sultansPalace _ | .mosque _ | .fountain _
      | .skipTile | .doubleCard _ _ _ | .sellAny _ _ | .greenTile _ =>
        { s with phase := 4 }
      | _ => s)
  else none

/-- `TurnState.skip_phase_2`. -/
def skipPhase2 (s : GameState) : Option GameState :=
  if s.phase == 2 then some { s with phase := 3 } else none

/-- `GameState._check_completed`: only when the current player is the last
player in turn order, and some player has reached the victory threshold,
set the completed flag. -/
def checkCompleted (s : GameState) : GameState :=
  if currentPlayer s ≠ s.players.getLastD Player.red then s
  else if s.players.any (fun p => decide (s.victoryThreshold ≤ (s.playerStates p).rubies)) then
    { s with completed := true }
  else s

/-! ### Dispatcher helpers (`game.py` private methods) -/

/-- `GameState._discard(card)`: the current player must hold the card; it
leaves the hand and is pushed onto the caravansary discard pile
(`discard_onto` also clears the awaiting flag). -/
def gsDiscard (s : GameState) (card : Card) : Option GameState :=
  let p := currentPlayer s
  if (s.playerStates p).hand card ≥ 1 then
    let s1 := updPlayer s p (fun ps =>
      { ps with hand := fun c => if c = card then ps.hand c - 1 else ps.hand c })
    match (s1.tileStates Tile.caravansary).extra with
    | TileExtra.caravansary pile _ =>
      some (updTile s1 Tile.caravansary (fun ts =>
        { ts with extra := TileExtra.caravansary (carDiscardOnto pile card).1
                             (carDiscardOnto pile card).2 }))
    | _ => none
  else none

/-- `GameState._spend(lira)`. -/
def gsSpend (s : GameState) (lira : Int) : Option GameState :=
  let p := currentPlayer s
  if lira ≤ (s.playerStates p).lira then
    some (updPlayer s p (fun ps => { ps with lira := ps.lira - lira }))
  else none

/-- `GameState._acquire(good)`: silently capped at `cart_max`. -/
def gsAcquire (s : GameState) (good : Good) : GameState :=
  let p := currentPlayer s
  let ps := s.playerStates p
  if ps.cartContents good == ps.cartMax then s
  else updPlayer s p (fun ps =>
    { ps with cartContents := fun g => if g = good then ps.cartContents g + 1 else ps.cartContents g })

/-- `GameState._max_cart(good)`: fills one good to `cart_max` (never
jewelry). -/
def gsMaxCart (s : GameState) (good : Good) : Option GameState :=
  if good = Good.blue then none
  else some (updPlayer s (currentPlayer s) (fun ps =>
    { ps with cartContents := fun g => if g = good then ps.cartMax else ps.cartContents g }))

/-- The loop of `GameState._trade`: each requested amount must be in the
cart and is removed. -/
def tradeList (cart : Good → Nat) : List (Good × Nat) → Option (Good → Nat)
  | [] => some cart
  | (g, amount) :: rest =>
    if amount ≤ cart g then
      tradeList (fun g2 => if g2 = g then cart g2 - amount else cart g2) rest
    else none

/-- `GameState._trade(goods)`. -/
def gsTrade (s : GameState) (goods : List (Good × Nat)) : Option GameState :=
  let p := currentPlayer s
  match tradeList (s.playerStates p).cartContents goods with
  | some cart2 => some (updPlayer s p (fun ps => { ps with cartContents := cart2 }))
  | none => none

/-- `GameState._choose_reward(choice)`: 3 lira or one card, and one fewer
outstanding reward choice. -/
def gsChooseReward (s : GameState) (choice : RewardChoice) : GameState :=
  let p := currentPlayer s
  let s1 :=
    match choice with
    | RewardChoice.lira => updPlayer s p (fun ps => { ps with lira := ps.lira + 3 })
    | RewardChoice.card c =>
      updPlayer s p (fun ps =>
        { ps with hand := fun c2 => if c2 = c then ps.hand c2 + 1 else ps.hand c2 })
  { s1 with outstandingRewardChoices := s1.outstandingRewardChoices - 1 }

/-- `GameState._encounter_family_members`: unless a family member is the
acting party or the current facility is the police station, every other
player's family member here is captured to the police station and one
reward choice is queued per capture. -/
def encounterFamilyMembers (s : GameState) : Option GameState :=
  if s.familyMemberActing then some s
  else
    match s.locMap (currentPS s).location with
    | none => none
    | some t =>
      if t = Tile.policeStation then some s
      else
        match s.locInv Tile.policeStation with
        | none => none
        | some policeLoc =>
          let p := currentPlayer s
          let captured := (s.tileStates t).familyMembers.filter (fun q => q ≠ p)
          let s1 := { s with outstandingRewardChoices :=
                        s.outstandingRewardChoices + captured.length }
          let s2 := updTile s1 t (fun ts =>
            { ts with familyMembers := ts.familyMembers.filter (fun q => ¬ (q ∈ captured)) })
          let s3 := updTile s2 Tile.policeStation (fun ts =>
            { ts with familyMembers := captured.foldl setAdd ts.familyMembers })
          some (captured.foldl
            (fun st q => updPlayer st q (fun ps => { ps with familyLocation := policeLoc })) s3)

/-- `GameState._location_from_roll(roll)`. -/
def locationFromRoll (s : GameState) (roll : Roll) : Option Location :=
  match rollLocations (roll.1 + roll.2) with
  | none => none
  | some t => s.locInv t

/-- `GameState._check_roll(roll)`: a plain roll is summed; a
`RedTileAction` needs the red mosque tile and, for the to-four method,
mutually consistent reported rolls. -/
def gsCheckRoll (s : GameState) (roll : RollArg) : Option Nat :=
  match roll with
  | RollArg.dice r => some (r.1 + r.2)
  | RollArg.redTile ir fr toFour =>
    if Good.red ∈ (currentPS s).tiles then
      if toFour then
        if (ir.1 = fr.1 ∧ fr.2 = 4) ∨ (ir.2 = fr.2 ∧ fr.1 = 4)
            ∨ (ir.1 = fr.2 ∧ fr.1 = 4) ∨ (ir.2 = fr.1 ∧ fr.2 = 4) then
          some (fr.1 + fr.2)
        else none
      else some (fr.1 + fr.2)
    else none

/-- `GameState._move_to(location)`: leave the old tile's occupant set,
update the location, join the new tile's occupant set. -/
def gsMoveTo (s : GameState) (dest : Location) : Option GameState :=
  let p := currentPlayer s
  match s.locMap (s.playerStates p).location with
  | none => none
  | some tOld =>
    match setRemove (s.tileStates tOld).players p with
    | none => none
    | some occ2 =>
      let s1 := updTile s tOld (fun ts => { ts with players := occ2 })
      let s2 := updPlayer s1 p (fun ps => { ps with location := dest })
      match s2.locMap dest with
      | none => none
      | some tNew =>
        some (updTile s2 tNew (fun ts => { ts with players := setAdd ts.players p }))

/-- The payment loop of the `Pay` branch: every co-occupant other than the
payer gains 2 lira, the payer loses 2 per recipient. -/
def payLoop (p : Player) (s : GameState) : List Player → GameState
  | [] => s
  | q :: rest =>
    if q = p then payLoop p s rest
    else
      let s1 := updPlayer s q (fun ps => { ps with lira := ps.lira + 2 })
      let s2 := updPlayer s1 p (fun ps => { ps with lira := ps.lira - 2 })
      payLoop p s2 rest

/-- The shared assistant step after a `Move`, `ExtraMoveCardAction` or
`NoMoveCardAction` (lines 306-333 of `game.py`): pick the assistant back
up if one is here, else place one from the stack, else the tile must be
the fountain; finally phase 2 is skipped when the player is alone or at
the fountain. -/
def assistantBlock (s : GameState) (skipAssistant : Bool) : Option GameState :=
  let p := currentPlayer s
  let ps := s.playerStates p
  match s.locMap ps.location with
  | none => none
  | some t =>
    let ts := s.tileStates t
    let afterOpt : Option GameState :=
      if skipAssistant then some s
      else if p ∈ ts.assistants then
        let s1 := updTile s t (fun x => { x with assistants := x.assistants.erase p })
        let s2 := updPlayer s1 p (fun x => { x with stackSize := x.stackSize + 1 })
        match setRemove (s2.playerStates p).assistantLocations ps.location with
        | none => none
        | some locs2 =>
          some (updPlayer s2 p (fun x => { x with assistantLocations := locs2 }))
      else if ps.stackSize > 0 then
        let s1 := updPlayer s p (fun x =>
          { x with stackSize := x.stackSize - 1,
                   assistantLocations := setAdd x.assistantLocations ps.location })
        some (updTile s1 t (fun x => { x with assistants := setAdd x.assistants p }))
      else if t = Tile.fountain then some s
      else none
    match afterOpt with
    | none => none
    | some s2 =>
      if ts.players.length == 1 || t = Tile.fountain then skipPhase2 s2 else some s2

/-- `GameState._handle_mosque_action`: one ruby-pair step of the loop over
`((BLUE, YELLOW), (RED, GREEN))`.  Acquiring the partner of an owned tile
grants a ruby; the bought colour is (re-)added to the owned set. -/
def pairStep (s : GameState) (p : Player) (g : Good) (pair : Good × Good) : GameState :=
  let ps := s.playerStates p
  let s1 :=
    if (g = pair.1 ∧ pair.2 ∈ ps.tiles) ∨ (g = pair.2 ∧ pair.1 ∈ ps.tiles) then
      updPlayer s p (fun x => { x with rubies := x.rubies + 1 })
    else s
  updPlayer s1 p (fun x => { x with tiles := setAdd x.tiles g })

/-- `GameState._handle_mosque_action`: trade the tile's current price in
its own colour, advance the mosque ladder, gain a stack assistant for the
blue tile, then run the ruby-pair loop. -/
def handleMosque (s : GameState) (goodColor : Good) : Option GameState :=
  let p := currentPlayer s
  let ps := s.playerStates p
  match s.locMap ps.location with
  | none => none
  | some t =>
    match (s.tileStates t).extra with
    | TileExtra.mosque avail =>
      if goodColor ∈ ps.tiles then none
      else
        match avail.find? (fun e => e.1 == goodColor) with
        | none => none
        | some e =>
          match gsTrade s [(goodColor, e.2)] with
          | none => none
          | some s1 =>
            match mosqueTakeAction avail goodColor with
            | none => none
            | some avail2 =>
              let s2 := updTile s1 t (fun x => { x with extra := TileExtra.mosque avail2 })
              let s3 :=
                if goodColor = Good.blue then
                  updPlayer s2 p (fun x => { x with stackSize := x.stackSize + 1 })
                else s2
              let s4 := pairStep s3 p goodColor (Good.blue, Good.yellow)
              some (pairStep s4 p goodColor (Good.red, Good.green))
    | _ => none

/-- `GameState._handle_post_office_action`. -/
def handlePostOffice (s : GameState) : Option GameState :=
  let p := currentPlayer s
  match s.locMap (s.playerStates p).location with
  | none => none
  | some t =>
    if t = Tile.postOffice then
      match (s.tileStates Tile.postOffice).extra with
      | TileExtra.postOffice pos =>
        let r := poTakeAction pos
        let s1 := updTile s Tile.postOffice (fun x => { x with extra := TileExtra.postOffice r.2 })
        let s2 := r.1.1.foldl gsAcquire s1
        some (updPlayer s2 p (fun x => { x with lira := x.lira + r.1.2 }))
      | _ => none
    else none

/-- The retrieval loop of `GameState._handle_fountain_action`: for each
location, one assistant returns to the stack and leaves both the player's
location set and the tile's assistant set. -/
def fountainLoop (p : Player) (s : GameState) : List Location → Option GameState
  | [] => some s
  | loc :: rest =>
    let s1 := updPlayer s p (fun x => { x with stackSize := x.stackSize + 1 })
    match setRemove (s1.playerStates p).assistantLocations loc with
    | none => none
    | some locs2 =>
      let s2 := updPlayer s1 p (fun x => { x with assistantLocations := locs2 })
      match s2.locMap loc with
      | none => none
      | some t =>
        match setRemove (s2.tileStates t).assistants p with
        | none => none
        | some asst2 =>
          fountainLoop p (updTile s2 t (fun x => { x with assistants := asst2 })) rest

/-- `GameState._handle_fountain_action(action)`: `none` for the generic
form (all placed assistants), or an explicit subset of them
(`FountainAction` carries a `frozenset`, hence the `dedup`). -/
def handleFountain (s : GameState) (locsOpt : Option (List Location)) : Option GameState :=
  let p := currentPlayer s
  let available := (s.playerStates p).assistantLocations
  match locsOpt with
  | some ls =>
    let ls2 := ls.dedup
    if ls2.all (fun l => decide (l ∈ available)) then fountainLoop p s ls2 else none
  | none => fountainLoop p s available

/-- `GameState._handle_black_market_action`: one chosen good, then 0-3
jewelry depending on the (possibly red-tile-overridden) roll total. -/
def handleBlackMarket (s : GameState) (good : Good) (roll : RollArg) : Option GameState :=
  match s.locMap (currentPS s).location with
  | none => none
  | some t =>
    if t = Tile.blackMarket then
      let s1 := gsAcquire s good
      match gsCheckRoll s1 roll with
      | none => none
      | some total =>
        let times := if total ≥ 11 then 3 else if total ≥ 9 then 2 else if total ≥ 7 then 1 else 0
        some ((List.range times).foldl (fun st _ => gsAcquire st Good.blue) s1)
    else none

/-- `GameState._handle_caravansary_action`: direct card gains enter the
hand, discard-top gains are drawn from the pile, then the cost card is
discarded (which also clears the awaiting flag). -/
def handleCaravansary (s : GameState) (gain1 gain2 : CarGain) (cost : Card) :
    Option GameState :=
  let p := currentPlayer s
  match s.locMap (s.playerStates p).location with
  | none => none
  | some t =>
    match (s.tileStates t).extra with
    | TileExtra.caravansary pile awaiting =>
      if t = Tile.caravansary then
        let step := fun (acc : Nat × GameState) (gain : CarGain) =>
          match gain with
          | CarGain.discardTop => (acc.1 + 1, acc.2)
          | CarGain.card c =>
            (acc.1, updPlayer acc.2 p (fun x =>
              { x with hand := fun c2 => if c2 = c then x.hand c2 + 1 else x.hand c2 }))
        let acc := step (step (0, s) gain1) gain2
        match carTakeAction pile awaiting acc.1 with
        | none => none
        | some r =>
          let s2 := updTile acc.2 Tile.caravansary (fun x =>
            { x with extra := TileExtra.caravansary r.2.1 r.2.2 })
          let s3 := r.1.foldl (fun st c => updPlayer st p (fun x =>
            { x with hand := fun c2 => if c2 = c then x.hand c2 + 1 else x.hand c2 })) s2
          gsDiscard s3 cost
      else none
    | _ => none

/-- `GameState._handle_market_action`: trade the goods away, earn the
market payout, then install the externally supplied new demand. -/
def handleMarket (s : GameState) (goods newDemand : List (Good × Nat)) :
    Option GameState :=
  let p := currentPlayer s
  match s.locMap (s.playerStates p).location with
  | none => none
  | some t =>
    match (s.tileStates t).extra with
    | TileExtra.market oneCost expecting demand =>
      match gsTrade s goods with
      | none => none
      | some s1 =>
        match marketTakeAction oneCost expecting demand goods with
        | none => none
        | some r =>
          let s2 := updTile s1 t (fun x => { x with extra := TileExtra.market oneCost r.2 demand })
          let s3 := updPlayer s2 p (fun x => { x with lira := x.lira + (r.1 : Int) })
          match marketSetDemand newDemand with
          | none => none
          | some d2 =>
            some (updTile s3 t (fun x => { x with extra := TileExtra.market oneCost d2.2 d2.1 }))
    | _ => none

/-- `GameState._handle_tea_house_action`: win the called amount when the
roll reaches it, otherwise the consolation 2 lira. -/
def handleTeaHouse (s : GameState) (call : Int) (roll : RollArg) : Option GameState :=
  let p := currentPlayer s
  match s.locMap (s.playerStates p).location with
  | none => none
  | some t =>
    if t = Tile.teaHouse then
      match gsCheckRoll s roll with
      | none => none
      | some total =>
        some (updPlayer s p (fun x =>
          { x with lira := x.lira + (if call ≤ (total : Int) then call else 2) }))
    else none

/-- `GameState._handle_sultans_palace_action`: trade the payment away,
advance the palace requirement, gain a ruby. -/
def handleSultansPalace (s : GameState) (goods : List (Good × Nat)) : Option GameState :=
  let p := currentPlayer s
  match s.locMap (s.playerStates p).location with
  | none => none
  | some t =>
    if t = Tile.sultansPalace then
      match gsTrade s goods with
      | none => none
      | some s1 =>
        match (s1.tileStates Tile.sultansPalace).extra with
        | TileExtra.sultansPalace rc =>
          match paTakeAction rc goods with
          | none => none
          | some rc2 =>
            let s2 := updTile s1 Tile.sultansPalace (fun x =>
              { x with extra := TileExtra.sultansPalace rc2 })
            some (updPlayer s2 p (fun x => { x with rubies := x.rubies + 1 }))
        | _ => none
    else none

/-- `GameState._handle_wainwright_action`: requires `cart_max <= 5`, costs
7 lira and one remaining extension, raises `cart_max` by one and grants a
ruby on reaching 5. -/
def handleWainwright (s : GameState) : Option GameState :=
  let p := currentPlayer s
  if (s.playerStates p).cartMax ≤ 5 then
    match gsSpend s 7 with
    | none => none
    | some s1 =>
      match (s1.tileStates Tile.wainwright).extra with
      | TileExtra.wainwright ext =>
        match wainTakeAction ext with
        | none => none
        | some ext2 =>
          let s2 := updTile s1 Tile.wainwright (fun x =>
            { x with extra := TileExtra.wainwright ext2 })
          let s3 := updPlayer s2 p (fun x => { x with cartMax := x.cartMax + 1 })
          if (s3.playerStates p).cartMax = 5 then
            some (updPlayer s3 p (fun x => { x with rubies := x.rubies + 1 }))
          else some s3
      | _ => none
  else none

/-- `GameState._handle_gemstone_dealer_action`: must be at the dealer with
a price still on offer; pay it, advance the price, gain a ruby. -/
def handleGemstoneDealer (s : GameState) : Option GameState :=
  let p := currentPlayer s
  match s.locMap (s.playerStates p).location with
  | none => none
  | some t =>
    if t = Tile.gemstoneDealer then
      match (s.tileStates Tile.gemstoneDealer).extra with
      | TileExtra.gemstoneDealer costOpt =>
        match costOpt with
        | none => none
        | some c =>
          match gsSpend s c with
          | none => none
          | some s1 =>
            match dealerTakeAction (some c) with
            | none => none
            | some cost2 =>
              let s2 := updTile s1 Tile.gemstoneDealer (fun x =>
                { x with extra := TileExtra.gemstoneDealer cost2 })
              some (updPlayer s2 p (fun x => { x with rubies := x.rubies + 1 }))
      | _ => none
    else none

/-- The warehouse each `GreenTileAction` tops up. -/
def warehouseGood (t : Tile) : Option Good :=
  match t with
  | Tile.fabricWarehouse => some Good.red
  | Tile.spiceWarehouse => some Good.green
  | Tile.fruitWarehouse => some Good.yellow
  | _ => none

/-- The shared retrieval step of `YellowTileAction` and
`ReturnAssistantCardAction` (`game.py` lines 399-401): the acting
player's assistant leaves the named tile and its location set and rejoins
the stack. -/
def retrieveAssistant (s1 : GameState) (fromTile : Location) : Option GameState :=
  let p := currentPlayer s1
  match s1.locMap fromTile with
  | none => none
  | some t2 =>
    match setRemove (s1.tileStates t2).assistants p with
    | none => none
    | some asst2 =>
      let s2 := updTile s1 t2 (fun x => { x with assistants := asst2 })
      let s3 := updPlayer s2 p (fun x => { x with stackSize := x.stackSize + 1 })
      match setRemove (s3.playerStates p).assistantLocations fromTile with
      | none => none
      | some locs2 =>
        some (updPlayer s3 p (fun x => { x with assistantLocations := locs2 }))

/-- The movement part of a `Move` / `ExtraMoveCardAction`: the taxicab
distance must be one of the two allowed values (`(1, 2)` for a plain
move, `(3, 4)` with the extra-move card), then the player relocates and
the shared assistant step runs. -/
def moveFlow (s0 : GameState) (dest : Location) (skip : Bool) (lo hi : Nat) :
    Option GameState :=
  let d := taxicabDist (currentPS s0).location dest
  if d = lo ∨ d = hi then
    match gsMoveTo s0 dest with
    | none => none
    | some s1 => assistantBlock s1 skip
  else none

/-- `GameState.take_action(action)`, the single public mutating entry
point of the dispatcher.  The branches follow `game.py` top to bottom:
completed guard, pending-reward guard against yields, immediate reward
choice, yield with victory evaluation, then turn-machine transition
followed by the action-specific effect (with the family-member capture
post-condition after phase-3 effects).  The police-station branch
recursively dispatches the delegated action with the player temporarily
relocated and the family-member-acting flag set. -/
def takeAction (s : GameState) (a : PAction) : Option GameState :=
  if s.completed then none
  else if s.outstandingRewardChoices ≠ 0 ∧ a = PAction.yieldTurn then none
  else
    match a with
    | .chooseReward choice =>
      if s.outstandingRewardChoices ≠ 0 then some (gsChooseReward s choice) else none
    | .yieldTurn => turnTakeAction (checkCompleted s) PAction.yieldTurn
    | .move dest skip =>
      match turnTakeAction s (.move dest skip) with
      | none => none
      | some s0 => moveFlow s0 dest skip 1 2
    | .extraMoveCard dest skip =>
      match turnTakeAction s (.extraMoveCard dest skip) with
      | none => none
      | some s0 =>
        match gsDiscard s0 Card.extraMove with
        | none => none
        | some sd => moveFlow sd dest skip 3 4
    | .noMoveCard skip =>
      match turnTakeAction s (.noMoveCard skip) with
      | none => none
      | some s0 =>
        match gsDiscard s0 Card.noMove with
        | none => none
        | some sd => assistantBlock sd skip
    | .pay =>
      match turnTakeAction s PAction.pay with
      | none => none
      | some s0 =>
        let p := currentPlayer s0
        let ps := s0.playerStates p
        match s0.locMap ps.location with
        | none => none
        | some t =>
          let ts := s0.tileStates t
          let cost : Int := ((ts.players.length : Int) - 1) * 2
          if 0 < cost ∧ cost ≤ ps.lira then some (payLoop p s0 ts.players) else none
    | .skipTile =>
      match turnTakeAction s PAction.skipTile with
      | none => none
      | some s0 =>
        match s0.locMap (currentPS s0).location with
        | none => none
        | some _ => encounterFamilyMembers s0
    | .encounterGovernor gain cost roll =>
      match turnTakeAction s (.encounterGovernor gain cost roll) with
      | none => none
      | some s0 =>
        let p := currentPlayer s0
        match s0.locMap (s0.playerStates p).location with
        | none => none
        | some t =>
          if (s0.tileStates t).governor then
            let s1 := updPlayer s0 p (fun x =>
              { x with hand := fun c => if c = gain then x.hand c + 1 else x.hand c })
            let s2Opt :=
              match cost with
              | PayOrCard.pay => gsSpend s1 2
              | PayOrCard.card c => gsDiscard s1 c
            match s2Opt with
            | none => none
            | some s2 =>
              let s3 := updTile s2 t (fun x => { x with governor := false })
              match locationFromRoll s3 roll with
              | none => none
              | some loc2 =>
                match s3.locMap loc2 with
                | none => none
                | some t2 =>
                  some (updTile s3 t2 (fun x => { x with governor := true }))
          else none
    | .encounterSmuggler gain cost roll =>
      match turnTakeAction s (.encounterSmuggler gain cost roll) with
      | none => none
      | some s0 =>
        let p := currentPlayer s0
        match s0.locMap (s0.playerStates p).location with
        | none => none
        | some t =>
          if (s0.tileStates t).smuggler then
            let s1 := updPlayer s0 p (fun x =>
              { x with cartContents := fun g =>
                  if g = gain then min (x.cartContents g + 1) x.cartMax else x.cartContents g })
            let s2Opt :=
              match cost with
              | PayOrGood.pay => gsSpend s1 2
              | PayOrGood.good g => gsTrade s1 [(g, 1)]
            match s2Opt with
            | none => none
            | some s2 =>
              let s3 := updTile s2 t (fun x => { x with smuggler := false })
              match locationFromRoll s3 roll with
              | none => none
              | some loc2 =>
                match s3.locMap loc2 with
                | none => none
                | some t2 =>
                  some (updTile s3 t2 (fun x => { x with smuggler := true }))
          else none
    | .oneGoodCard good =>
      match turnTakeAction s (.oneGoodCard good) with
      | none => none
      | some s0 =>
        match s0.locMap (currentPS s0).location with
        | none => none
        | some _ =>
          match gsDiscard s0 Card.oneGood with
          | none => none
          | some s1 => some (gsAcquire s1 good)
    | .fiveLiraCard =>
      match turnTakeAction s PAction.fiveLiraCard with
      | none => none
      | some s0 =>
        match s0.locMap (currentPS s0).location with
        | none => none
        | some _ =>
          match gsDiscard s0 Card.fiveLira with
          | none => none
          | some s1 =>
            some (updPlayer s1 (currentPlayer s1) (fun x => { x with lira := x.lira + 5 }))
    | .arrestFamilyCard reward =>
      match turnTakeAction s (.arrestFamilyCard reward) with
      | none => none
      | some s0 =>
        let p := currentPlayer s0
        match s0.locMap (s0.playerStates p).location with
        | none => none
        | some _ =>
          match s0.locInv Tile.policeStation with
          | none => none
          | some policeLoc =>
            if (s0.playerStates p).familyLocation = policeLoc then none
            else
              match gsDiscard s0 Card.arrestFamily with
              | none => none
              | some s1 =>
                match s1.locMap (s1.playerStates p).familyLocation with
                | none => none
                | some tFam =>
                  match setRemove (s1.tileStates tFam).familyMembers p with
                  | none => none
                  | some fm2 =>
                    let s2 := updTile s1 tFam (fun x => { x with familyMembers := fm2 })
                    let s3 := updTile s2 Tile.policeStation (fun x =>
                      { x with familyMembers := setAdd x.familyMembers p })
                    let s4 := updPlayer s3 p (fun x => { x with familyLocation := policeLoc })
                    let s5 := { s4 with outstandingRewardChoices :=
                                  s4.outstandingRewardChoices + 1 }
                    some (gsChooseReward s5 reward)
    | .yellowTile fromTile =>
      match turnTakeAction s (.yellowTile fromTile) with
      | none => none
      | some s0 =>
        let p := currentPlayer s0
        match s0.locMap (s0.playerStates p).location with
        | none => none
        | some _ =>
          if Good.yellow ∈ (s0.playerStates p).tiles then
            match gsSpend s0 2 with
            | none => none
            | some s1 => retrieveAssistant s1 fromTile
          else none
    | .returnAssistantCard fromTile =>
      match turnTakeAction s (.returnAssistantCard fromTile) with
      | none => none
      | some s0 =>
        let p := currentPlayer s0
        match s0.locMap (s0.playerStates p).location with
        | none => none
        | some _ =>
          match gsDiscard s0 Card.returnAssistant with
          | none => none
          | some s1 => retrieveAssistant s1 fromTile
    | .doubleCard card a1 a2 =>
      match turnTakeAction s (.doubleCard card a1 a2) with
      | none => none
      | some s0 =>
        match s0.locMap (currentPS s0).location with
        | none => none
        | some _ =>
          match gsDiscard s0 card with
          | none => none
          | some s1 =>
            if card = Card.doubleSultan then
              match a1 with
              | .sultansPalace goods1 =>
                match handleSultansPalace s1 goods1 with
                | none => none
                | some s2 =>
                  match a2 with
                  | .sultansPalace goods2 =>
                    match handleSultansPalace s2 goods2 with
                    | none => none
                    | some s3 => encounterFamilyMembers s3
                  | _ => none
              | _ => none
            else
              match a1, a2 with
              | .genericTile, .genericTile =>
                match card with
                | Card.doublePO =>
                  match handlePostOffice s1 with
                  | none => none
                  | some s2 =>
                    match handlePostOffice s2 with
                    | none => none
                    | some s3 => encounterFamilyMembers s3
                | Card.doubleDealer =>
                  match handleGemstoneDealer s1 with
                  | none => none
                  | some s2 =>
                    match handleGemstoneDealer s2 with
                    | none => none
                    | some s3 => encounterFamilyMembers s3
                | _ => none
              | _, _ => none
    | .sellAny goods newDemand =>
      match turnTakeAction s (.sellAny goods newDemand) with
      | none => none
      | some s0 =>
        let p := currentPlayer s0
        match s0.locMap (s0.playerStates p).location with
        | none => none
        | some t =>
          match gsDiscard s0 Card.sellAny with
          | none => none
          | some s1 =>
            if t = Tile.smallMarket then
              match gsTrade s1 goods with
              | none => none
              | some s2 =>
                let n := ctotal goods
                let gain : Int := (((n + 1) * (n + 2)) / 2 : Nat) - 1
                let s3 := updPlayer s2 p (fun x => { x with lira := x.lira + gain })
                match (s3.tileStates t).extra with
                | TileExtra.market oneCost _ _ =>
                  match marketSetDemand newDemand with
                  | none => none
                  | some d2 =>
                    match updTile s3 t (fun x =>
                        { x with extra := TileExtra.market oneCost d2.2 d2.1 }) with
                    | s4 => encounterFamilyMembers s4
                | _ => none
            else none
    | .greenTile good =>
      match turnTakeAction s (.greenTile good) with
      | none => none
      | some s0 =>
        let p := currentPlayer s0
        match s0.locMap (s0.playerStates p).location with
        | none => none
        | some t =>
          if Good.green ∈ (s0.playerStates p).tiles then
            match warehouseGood t with
            | none => none
            | some wgood =>
              match gsMaxCart s0 wgood with
              | none => none
              | some s1 =>
                match gsSpend s1 2 with
                | none => none
                | some s2 => encounterFamilyMembers (gsAcquire s2 good)
          else none
    | .genericTile =>
      match turnTakeAction s PAction.genericTile with
      | none => none
      | some s0 =>
        match s0.locMap (currentPS s0).location with
        | none => none
        | some t =>
          let effect :=
            match t with
            | Tile.postOffice => handlePostOffice s0
            | Tile.fabricWarehouse => gsMaxCart s0 Good.red
            | Tile.fruitWarehouse => gsMaxCart s0 Good.yellow
            | Tile.fountain => handleFountain s0 none
            | Tile.spiceWarehouse => gsMaxCart s0 Good.green
            | Tile.wainwright => handleWainwright s0
            | Tile.gemstoneDealer => handleGemstoneDealer s0
            | _ => none
          match effect with
          | none => none
          | some s1 => encounterFamilyMembers s1
    | .mosque goodColor =>
      match turnTakeAction s (.mosque goodColor) with
      | none => none
      | some s0 =>
        match s0.locMap (currentPS s0).location with
        | none => none
        | some _ =>
          match handleMosque s0 goodColor with
          | none => none
          | some s1 => encounterFamilyMembers s1
    | .fountain locs =>
      match turnTakeAction s (.fountain locs) with
      | none => none
      | some s0 =>
        match s0.locMap (currentPS s0).location with
        | none => none
        | some _ =>
          match handleFountain s0 (some locs) with
          | none => none
          | some s1 => encounterFamilyMembers s1
    | .blackMarket good roll =>
      match turnTakeAction s (.blackMarket good roll) with
      | none => none
      | some s0 =>
        match handleBlackMarket s0 good roll with
        | none => none
        | some s1 => encounterFamilyMembers s1
    | .caravansary gain1 gain2 cost =>
      match turnTakeAction s (.caravansary gain1 gain2 cost) with
      | none => none
      | some s0 =>
        match handleCaravansary s0 gain1 gain2 cost with
        | none => none
        | some s1 => encounterFamilyMembers s1
    | .market goods newDemand =>
      match turnTakeAction s (.market goods newDemand) with
      | none => none
      | some s0 =>
        match handleMarket s0 goods newDemand with
        | none => none
        | some s1 => encounterFamilyMembers s1
    | .teaHouse call roll =>
      match turnTakeAction s (.teaHouse call roll) with
      | none => none
      | some s0 =>
        match handleTeaHouse s0 call roll with
        | none => none
        | some s1 => encounterFamilyMembers s1
    | .sultansPalace goods =>
      match turnTakeAction s (.sultansPalace goods) with
      | none => none
      | some s0 =>
        match handleSultansPalace s0 goods with
        | none => none
        | some s1 => encounterFamilyMembers s1
    | .policeStation dest act =>
      match turnTakeAction s (.policeStation dest act) with
      | none => none
      | some s0 =>
        let p := currentPlayer s0
        let ps := s0.playerStates p
        match s0.locMap ps.location with
        | none => none
        | some t =>
          if t = Tile.policeStation then
            if p ∈ (s0.tileStates t).familyMembers then
              if ps.location = dest then none
              else
                let s1 := updTile s0 Tile.policeStation (fun x =>
                  { x with familyMembers := x.familyMembers.erase p })
                match s1.locMap dest with
                | none => none
                | some tDest =>
                  let s2 := updTile s1 tDest (fun x =>
                    { x with familyMembers := setAdd x.familyMembers p })
                  let s3 := updPlayer s2 p (fun x => { x with familyLocation := dest })
                  match setRemove (s3.tileStates Tile.policeStation).players p with
                  | none => none
                  | some occ2 =>
                    let s4 := updTile s3 Tile.policeStation (fun x => { x with players := occ2 })
                    let s5 := updTile s4 tDest (fun x => { x with players := setAdd x.players p })
                    let s6 := updPlayer s5 p (fun x => { x with location := dest })
                    let s7 := { s6 with familyMemberActing := true }
                    match takeAction s7 act with
                    | none => none
                    | some s8 =>
                      let s9 := { s8 with familyMemberActing := false }
                      match setRemove (s9.tileStates tDest).players p with
                      | none => none
                      | some occ3 =>
                        let s10 := updTile s9 tDest (fun x => { x with players := occ3 })
                        let s11 := updTile s10 Tile.policeStation (fun x =>
                          { x with players := setAdd x.players p })
                        match s11.locInv Tile.policeStation with
                        | none => none
                        | some psLoc =>
                          let s12 := updPlayer s11 p (fun x => { x with location := psLoc })
                          encounterFamilyMembers s12
            else none
          else none
    | .redTileAct ir fr m =>
      match turnTakeAction s (.redTileAct ir fr m) with
      | none => none
      | some _ => none

/-! ### Game construction (`GameState.__init__`) and reachability -/

/-- The construction arguments of `GameState.__init__` (the
location-to-tile mapping is given as the pair list the
`ImmutableInvertibleMapping` is built from). -/
structure Setup where
  players : List Player
  locPairs : List (Location × Tile)
  smallDemand : List (Good × Nat)
  largeDemand : List (Good × Nat)
  governorLocation : Location
  smugglerLocation : Location
  playerHands : Player → Card

/-- Forward lookup of the location map. -/
def mkLocMap (pairs : List (Location × Tile)) : Location → Option Tile :=
  fun l => (pairs.find? (fun e => e.1 == l)).map (fun e => e.2)

/-- Inverse lookup of the location map (built lazily in the Python lib,
and total over the mapping's values). -/
def mkLocInv (pairs : List (Location × Tile)) : Tile → Option Location :=
  fun t => (pairs.find? (fun e => e.2 == t)).map (fun e => e.1)

/-- `MarketTileState.set_demand` applied to a tile state (asserts the tile
is a market, mirroring `get_market_state`). -/
def setMarketDemandTS (ts : TileState) (d : List (Good × Nat)) : Option TileState :=
  match ts.extra with
  | TileExtra.market oneCost _ _ =>
    match marketSetDemand d with
    | none => none
    | some r => some { ts with extra := TileExtra.market oneCost r.2 r.1 }
  | _ => none

/-- Point update of a tile-state table. -/
def updT (f : Tile → TileState) (t : Tile) (g : TileState → TileState) :
    Tile → TileState :=
  fun t2 => if t2 = t then g (f t2) else f t2

/-- `GameState.__init__`: validates the player count, requires the
location mapping to have unique locations and unique tiles (the
`ImmutableInvertibleMapping` constructor rejects non-injective maps, and
a Python dict cannot hold duplicate keys), installs the market demands,
puts every family member at the police station and every player at the
fountain, places the governor and smuggler, and deals the players their
starting lira (`2 + turn index`) and starting card.  Lookups that would
be `KeyError`s in Python (fountain, police station, markets, governor and
smuggler locations missing from the mapping) make the construction fail. -/
def mkInitial (su : Setup) : Option GameState :=
  let n := su.players.length
  if 2 ≤ n ∧ n ≤ 5 then
    if (su.locPairs.map (fun e => e.1)).Nodup ∧ (su.locPairs.map (fun e => e.2)).Nodup then
      let locMap := mkLocMap su.locPairs
      let locInv := mkLocInv su.locPairs
      match locMap su.governorLocation, locMap su.smugglerLocation,
            locInv Tile.fountain, locInv Tile.policeStation with
      | some govTile, some smugTile, some fountainLoc, some policeLoc =>
        let ts0 : Tile → TileState := fun t => initialTileState t n
        match setMarketDemandTS (ts0 Tile.smallMarket) su.smallDemand,
              setMarketDemandTS (ts0 Tile.largeMarket) su.largeDemand,
              locInv Tile.smallMarket, locInv Tile.largeMarket with
        | some smTS, some lgTS, some _, some _ =>
          let ts1 := updT (updT ts0 Tile.smallMarket (fun _ => smTS)) Tile.largeMarket
                       (fun _ => lgTS)
          let ts2 := updT ts1 Tile.policeStation (fun ts =>
            { ts with familyMembers := su.players.foldl setAdd ts.familyMembers })
          let ts3 := updT ts2 Tile.fountain (fun ts =>
            { ts with players := su.players.foldl setAdd ts.players })
          let ts4 := updT ts3 govTile (fun ts => { ts with governor := true })
          let ts5 := updT ts4 smugTile (fun ts => { ts with smuggler := true })
          let base : Player → PlayerState :=
            fun p => initialPlayerState (su.playerHands p) 2 fountainLoc policeLoc
          let pstates := su.players.enum.foldl
            (fun f e => fun p =>
              if p = e.2 then
                initialPlayerState (su.playerHands e.2) (2 + (e.1 : Int)) fountainLoc policeLoc
              else f p)
            base
          some
            { players := su.players
              victoryThreshold := if n = 2 then 6 else 5
              locMap := locMap
              locInv := locInv
              tileStates := ts5
              playerStates := pstates
              turnIdx := 0
              phase := 1
              yieldRequired := false
              outstandingRewardChoices := 0
              familyMemberActing := false
              completed := false }
        | _, _, _, _ => none
      | _, _, _, _ => none
    else none
  else none

/-- Run a list of actions through the dispatcher. -/
def runActions (s : GameState) : List PAction → Option GameState
  | [] => some s
  | a :: rest =>
    match takeAction s a with
    | none => none
    | some s2 => runActions s2 rest

/-- A game state is reachable when it arises from a successful
construction followed by any sequence of successful dispatcher calls. -/
inductive Reachable : GameState → Prop where
  | init (su : Setup) (s : GameState) : mkInitial su = some s → Reachable s
  | step (s : GameState) (a : PAction) (s2 : GameState) :
      Reachable s → takeAction s a = some s2 → Reachable s2

/-- Reachability is preserved by running an action list. -/
theorem reachable_runActions (s : GameState) (acts : List PAction) (s2 : GameState)
    (hs : Reachable s) (h : runActions s acts = some s2) : Reachable s2 := by
  induction acts generalizing s with
  | nil =>
    simp only [runActions, Option.some.injEq] at h
    exact h ▸ hs
  | cons a rest ih =>
    rw [runActions] at h
    cases hstep : takeAction s a with
    | none => rw [hstep] at h; exact absurd h (by simp)
    | some smid =>
      rw [hstep] at h
      exact ih smid (Reachable.step s a smid hs hstep) h

/-! ### A concrete game (used for witnesses and counterexamples) -/

/-- A syntactically valid fallback state (only used to totalise `getD`). -/
def emptyGame : GameState :=
  { players := []
    victoryThreshold := 5
    locMap := fun _ => none
    locInv := fun _ => none
    tileStates := fun t => initialTileState t 2
    playerStates := fun _ => initialPlayerState Card.oneGood 2 1 1
    turnIdx := 0
    phase := 1
    yieldRequired := false
    outstandingRewardChoices := 0
    familyMemberActing := false
    completed := false }

/-! ### Executable state comparison (used to certify concrete runs) -/

/-- All goods. -/
def allGoods : List Good := [Good.red, Good.blue, Good.green, Good.yellow]

/-- All cards. -/
def allCards : List Card :=
  [Card.oneGood, Card.fiveLira, Card.extraMove, Card.noMove, Card.returnAssistant,
   Card.arrestFamily, Card.sellAny, Card.doubleSultan, Card.doublePO, Card.doubleDealer]

/-- All players. -/
def allPlayers : List Player :=
  [Player.red, Player.green, Player.blue, Player.yellow, Player.white]

/-- All tiles. -/
def allTiles : List Tile :=
  [Tile.greatMosque, Tile.postOffice, Tile.fabricWarehouse, Tile.smallMosque,
   Tile.fruitWarehouse, Tile.policeStation, Tile.fountain, Tile.spiceWarehouse,
   Tile.blackMarket, Tile.caravansary, Tile.smallMarket, Tile.teaHouse,
   Tile.sultansPalace, Tile.largeMarket, Tile.wainwright, Tile.gemstoneDealer]

/-- Boolean equality of player states (hands and carts compared on every
card and good). -/
def beqPS (a b : PlayerState) : Bool :=
  allCards.all (fun c => a.hand c == b.hand c) && a.lira == b.lira &&
  a.rubies == b.rubies && a.cartMax == b.cartMax &&
  allGoods.all (fun g => a.cartContents g == b.cartContents g) &&
  a.stackSize == b.stackSize && a.tiles == b.tiles && a.location == b.location &&
  a.assistantLocations == b.assistantLocations && a.familyLocation == b.familyLocation

/-- Boolean equality of game states on every component except the
(static) location maps. -/
def beqGS (a b : GameState) : Bool :=
  a.players == b.players && a.victoryThreshold == b.victoryThreshold &&
  allTiles.all (fun t => a.tileStates t == b.tileStates t) &&
  allPlayers.all (fun p => beqPS (a.playerStates p) (b.playerStates p)) &&
  a.turnIdx == b.turnIdx && a.phase == b.phase && a.yieldRequired == b.yieldRequired &&
  a.outstandingRewardChoices == b.outstandingRewardChoices &&
  a.familyMemberActing == b.familyMemberActing && a.completed == b.completed

theorem eq_of_beqPS (a b : PlayerState) (h : beqPS a b = true) : a = b := by
  unfold beqPS at h
  simp only [Bool.and_eq_true, List.all_eq_true, beq_iff_eq] at h
  obtain ⟨⟨⟨⟨⟨⟨⟨⟨⟨hh, hl⟩, hr⟩, hcm⟩, hcc⟩, hs⟩, ht⟩, hloc⟩, hal⟩, hfl⟩ := h
  cases a
  cases b
  simp only [PlayerState.mk.injEq]
  refine ⟨funext fun c => ?_, hl, hr, hcm, funext fun g => ?_, hs, ht, hloc, hal, hfl⟩
  · cases c <;> exact hh _ (by simp [allCards])
  · cases g <;> exact hcc _ (by simp [allGoods])

theorem eq_of_beqGS (a b : GameState) (h : beqGS a b = true)
    (hm : a.locMap = b.locMap) (hi : a.locInv = b.locInv) : a = b := by
  unfold beqGS at h
  simp only [Bool.and_eq_true, List.all_eq_true, beq_iff_eq] at h
  obtain ⟨⟨⟨⟨⟨⟨⟨⟨⟨hp, hv⟩, hts⟩, hps⟩, hti⟩, hph⟩, hy⟩, ho⟩, hf⟩, hc⟩ := h
  cases a
  cases b
  simp only [GameState.mk.injEq]
  refine ⟨hp, hv, hm, hi, funext fun t => ?_, funext fun p => ?_, hti, hph, hy, ho, hf, hc⟩
  · cases t <;> exact hts _ (by simp [allTiles])
  · cases p <;> exact eq_of_beqPS _ _ (hps _ (by simp [allPlayers]))

/-- Certify one dispatcher step against an explicitly given result state:
the step must succeed, agree with the result on the comparator, and on
the location maps. -/
theorem takeAction_eq_of_checks (s s2 : GameState) (a : PAction)
    (h1 : (takeAction s a).isSome = true)
    (h2 : beqGS ((takeAction s a).getD emptyGame) s2 = true)
    (h3 : ((takeAction s a).getD emptyGame).locMap = s2.locMap)
    (h4 : ((takeAction s a).getD emptyGame).locInv = s2.locInv) :
    takeAction s a = some s2 := by
  cases hx : takeAction s a with
  | none => rw [hx] at h1; cases h1
  | some v =>
    have hv : (takeAction s a).getD emptyGame = v := by rw [hx]; rfl
    rw [hv] at h2 h3 h4
    exact congrArg some (eq_of_beqGS v s2 h2 h3 h4)

/-- Certify a game construction against an explicitly given initial
state. -/
theorem mkInitial_eq_of_checks (su : Setup) (s2 : GameState)
    (h1 : (mkInitial su).isSome = true)
    (h2 : beqGS ((mkInitial su).getD emptyGame) s2 = true)
    (h3 : ((mkInitial su).getD emptyGame).locMap = s2.locMap)
    (h4 : ((mkInitial su).getD emptyGame).locInv = s2.locInv) :
    mkInitial su = some s2 := by
  cases hx : mkInitial su with
  | none => rw [hx] at h1; cases h1
  | some v =>
    have hv : (mkInitial su).getD emptyGame = v := by rw [hx]; rfl
    rw [hv] at h2 h3 h4
    exact congrArg some (eq_of_beqGS v s2 h2 h3 h4)


/-- A two-player setup over a custom (legal) location permutation:
fountain at 1, tea house at 2, wainwright at 3, black market at 5, great
mosque at 6, police station at 7. -/
def exSetup : Setup :=
  { players := [Player.red, Player.green]
    locPairs := [(1, Tile.fountain), (2, Tile.teaHouse), (3, Tile.wainwright),
      (4, Tile.gemstoneDealer), (5, Tile.blackMarket), (6, Tile.greatMosque),
      (7, Tile.policeStation), (8, Tile.postOffice), (9, Tile.fabricWarehouse),
      (10, Tile.smallMosque), (11, Tile.fruitWarehouse), (12, Tile.spiceWarehouse),
      (13, Tile.caravansary), (14, Tile.smallMarket), (15, Tile.sultansPalace),
      (16, Tile.largeMarket)]
    smallDemand := [(Good.red, 5)]
    largeDemand := [(Good.red, 5)]
    governorLocation := 16
    smugglerLocation := 15
    playerHands := fun _ => Card.oneGood }

/-- The initial state of the two-player example game, written out
explicitly (certified against `mkInitial` below). -/
def initEx : GameState :=
  { players := [Istanbul.Player.red, Istanbul.Player.green]
    victoryThreshold := 6
    locMap := Istanbul.mkLocMap Istanbul.exSetup.locPairs
    locInv := Istanbul.mkLocInv Istanbul.exSetup.locPairs
    tileStates := fun t => match t with
      | Istanbul.Tile.greatMosque => { governor := false, smuggler := false, assistants := [], familyMembers := [], players := [], extra := Istanbul.TileExtra.mosque [(Istanbul.Good.blue, 2), (Istanbul.Good.yellow, 2)] }
      | Istanbul.Tile.postOffice => { governor := false, smuggler := false, assistants := [], familyMembers := [], players := [], extra := Istanbul.TileExtra.postOffice 0 }
      | Istanbul.Tile.fabricWarehouse => { governor := false, smuggler := false, assistants := [], familyMembers := [], players := [], extra := Istanbul.TileExtra.generic }
      | Istanbul.Tile.smallMosque => { governor := false, smuggler := false, assistants := [], familyMembers := [], players := [], extra := Istanbul.TileExtra.mosque [(Istanbul.Good.red, 2), (Istanbul.Good.green, 2)] }
      | Istanbul.Tile.fruitWarehouse => { governor := false, smuggler := false, assistants := [], familyMembers := [], players := [], extra := Istanbul.TileExtra.generic }
      | Istanbul.Tile.policeStation => { governor := false, smuggler := false, assistants := [], familyMembers := [Istanbul.Player.red, Istanbul.Player.green], players := [], extra := Istanbul.TileExtra.generic }
      | Istanbul.Tile.fountain => { governor := false, smuggler := false, assistants := [], familyMembers := [], players := [Istanbul.Player.red, Istanbul.Player.green], extra := Istanbul.TileExtra.generic }
      | Istanbul.Tile.spiceWarehouse => { governor := false, smuggler := false, assistants := [], familyMembers := [], players := [], extra := Istanbul.TileExtra.generic }
      | Istanbul.Tile.blackMarket => { governor := false, smuggler := false, assistants := [], familyMembers := [], players := [], extra := Istanbul.TileExtra.generic }
      | Istanbul.Tile.caravansary => { governor := false, smuggler := false, assistants := [], familyMembers := [], players := [], extra := Istanbul.TileExtra.caravansary [] false }
      | Istanbul.Tile.smallMarket => { governor := false, smuggler := false, assistants := [], familyMembers := [], players := [], extra := Istanbul.TileExtra.market 2 false (some [(Istanbul.Good.red, 5)]) }
      | Istanbul.Tile.teaHouse => { governor := false, smuggler := false, assistants := [], familyMembers := [], players := [], extra := Istanbul.TileExtra.generic }
      | Istanbul.Tile.sultansPalace => { governor := false, smuggler := true, assistants := [], familyMembers := [], players := [], extra := Istanbul.TileExtra.sultansPalace 5 }
      | Istanbul.Tile.largeMarket => { governor := true, smuggler := false, assistants := [], familyMembers := [], players := [], extra := Istanbul.TileExtra.market 3 false (some [(Istanbul.Good.red, 5)]) }
      | Istanbul.Tile.wainwright => { governor := false, smuggler := false, assistants := [], familyMembers := [], players := [], extra := Istanbul.TileExtra.wainwright (6 : Int) }
      | Istanbul.Tile.gemstoneDealer => { governor := false, smuggler := false, assistants := [], familyMembers := [], players := [], extra := Istanbul.TileExtra.gemstoneDealer (some (15 : Int)) }
    playerStates := fun p => match p with
      | Istanbul.Player.red => { hand := fun x => if x = Istanbul.Card.oneGood then 1 else 0, lira := (2 : Int), rubies := 0, cartMax := 2, cartContents := fun _ => 0, stackSize := 4, tiles := [], location := 1, assistantLocations := [], familyLocation := 7 }
      | Istanbul.Player.green => { hand := fun x => if x = Istanbul.Card.oneGood then 1 else 0, lira := (3 : Int), rubies := 0, cartMax := 2, cartContents := fun _ => 0, stackSize := 4, tiles := [], location := 1, assistantLocations := [], familyLocation := 7 }
      | Istanbul.Player.blue => { hand := fun x => if x = Istanbul.Card.oneGood then 1 else 0, lira := (2 : Int), rubies := 0, cartMax := 2, cartContents := fun _ => 0, stackSize := 4, tiles := [], location := 1, assistantLocations := [], familyLocation := 7 }
      | Istanbul.Player.yellow => { hand := fun x => if x = Istanbul.Card.oneGood then 1 else 0, lira := (2 : Int), rubies := 0, cartMax := 2, cartContents := fun _ => 0, stackSize := 4, tiles := [], location := 1, assistantLocations := [], familyLocation := 7 }
      | Istanbul.Player.white => { hand := fun x => if x = Istanbul.Card.oneGood then 1 else 0, lira := (2 : Int), rubies := 0, cartMax := 2, cartContents := fun _ => 0, stackSize := 4, tiles := [], location := 1, assistantLocations := [], familyLocation := 7 }
    turnIdx := 0
    phase := 1
    yieldRequired := false
    outstandingRewardChoices := 0
    familyMemberActing := false
    completed := false }

theorem mkInitial_exSetup : mkInitial exSetup = some initEx :=
  mkInitial_eq_of_checks _ _ (by decide) (by decide) rfl rfl

/-! ### A certified play: red buys the blue mosque tile -/

/-- After step 1: red moves from the fountain to the black market (placing an assistant). -/
def blueStep1 : GameState :=
  { players := [Istanbul.Player.red, Istanbul.Player.green]
    victoryThreshold := 6
    locMap := Istanbul.mkLocMap Istanbul.exSetup.locPairs
    locInv := Istanbul.mkLocInv Istanbul.exSetup.locPairs
    tileStates := fun t => match t with
      | Istanbul.Tile.greatMosque => { governor := false, smuggler := false, assistants := [], familyMembers := [], players := [], extra := Istanbul.TileExtra.mosque [(Istanbul.Good.blue, 2), (Istanbul.Good.yellow, 2)] }
      | Istanbul.Tile.postOffice => { governor := false, smuggler := false, assistants := [], familyMembers := [], players := [], extra := Istanbul.TileExtra.postOffice 0 }
      | Istanbul.Tile.fabricWarehouse => { governor := false, smuggler := false, assistants := [], familyMembers := [], players := [], extra := Istanbul.TileExtra.generic }
      | Istanbul.Tile.smallMosque => { governor := false, smuggler := false, assistants := [], familyMembers := [], players := [], extra := Istanbul.TileExtra.mosque [(Istanbul.Good.red, 2), (Istanbul.Good.green, 2)] }
      | Istanbul.Tile.fruitWarehouse => { governor := false, smuggler := false, assistants := [], familyMembers := [], players := [], extra := Istanbul.TileExtra.generic }
      | Istanbul.Tile.policeStation => { governor := false, smuggler := false, assistants := [], familyMembers := [Istanbul.Player.red, Istanbul.Player.green], players := [], extra := Istanbul.TileExtra.generic }
      | Istanbul.Tile.fountain => { governor := false, smuggler := false, assistants := [], familyMembers := [], players := [Istanbul.Player.green], extra := Istanbul.TileExtra.generic }
      | Istanbul.Tile.spiceWarehouse => { governor := false, smuggler := false, assistants := [], familyMembers := [], players := [], extra := Istanbul.TileExtra.generic }
      | Istanbul.Tile.blackMarket => { governor := false, smuggler := false, assistants := [Istanbul.Player.red], familyMembers := [], players := [Istanbul.Player.red], extra := Istanbul.TileExtra.generic }
      | Istanbul.Tile.caravansary => { governor := false, smuggler := false, assistants := [], familyMembers := [], players := [], extra := Istanbul.TileExtra.caravansary [] false }
      | Istanbul.Tile.smallMarket => { governor := false, smuggler := false, assistants := [], familyMembers := [], players := [], extra := Istanbul.TileExtra.market 2 false (some [(Istanbul.Good.red, 5)]) }
      | Istanbul.Tile.teaHouse => { governor := false, smuggler := false, assistants := [], familyMembers := [], players := [], extra := Istanbul.TileExtra.generic }
      | Istanbul.Tile.sultansPalace => { governor := false, smuggler := true, assistants := [], familyMembers := [], players := [], extra := Istanbul.TileExtra.sultansPalace 5 }
      | Istanbul.Tile.largeMarket => { governor := true, smuggler := false, assistants := [], familyMembers := [], players := [], extra := Istanbul.TileExtra.market 3 false (some [(Istanbul.Good.red, 5)]) }
      | Istanbul.Tile.wainwright => { governor := false, smuggler := false, assistants := [], familyMembers := [], players := [], extra := Istanbul.TileExtra.wainwright (6 : Int) }
      | Istanbul.Tile.gemstoneDealer => { governor := false, smuggler := false, assistants := [], familyMembers := [], players := [], extra := Istanbul.TileExtra.gemstoneDealer (some (15 : Int)) }
    playerStates := fun p => match p with
      | Istanbul.Player.red => { hand := fun x => if x = Istanbul.Card.oneGood then 1 else 0, lira := (2 : Int), rubies := 0, cartMax := 2, cartContents := fun _ => 0, stackSize := 3, tiles := [], location := 5, assistantLocations := [5], familyLocation := 7 }
      | Istanbul.Player.green => { hand := fun x => if x = Istanbul.Card.oneGood then 1 else 0, lira := (3 : Int), rubies := 0, cartMax := 2, cartContents := fun _ => 0, stackSize := 4, tiles := [], location := 1, assistantLocations := [], familyLocation := 7 }
      | Istanbul.Player.blue => { hand := fun x => if x = Istanbul.Card.oneGood then 1 else 0, lira := (2 : Int), rubies := 0, cartMax := 2, cartContents := fun _ => 0, stackSize := 4, tiles := [], location := 1, assistantLocations := [], familyLocation := 7 }
      | Istanbul.Player.yellow => { hand := fun x => if x = Istanbul.Card.oneGood then 1 else 0, lira := (2 : Int), rubies := 0, cartMax := 2, cartContents := fun _ => 0, stackSize := 4, tiles := [], location := 1, assistantLocations := [], familyLocation := 7 }
      | Istanbul.Player.white => { hand := fun x => if x = Istanbul.Card.oneGood then 1 else 0, lira := (2 : Int), rubies := 0, cartMax := 2, cartContents := fun _ => 0, stackSize := 4, tiles := [], location := 1, assistantLocations := [], familyLocation := 7 }
    turnIdx := 0
    phase := 3
    yieldRequired := false
    outstandingRewardChoices := 0
    familyMemberActing := false
    completed := false }

theorem takeAction_blueStep1 : takeAction initEx (PAction.move 5 false) = some blueStep1 :=
  takeAction_eq_of_checks _ _ _ (by decide) (by decide) rfl rfl

/-- After step 2: red buys one fabric and, with a 12 roll, fills the cart with jewelry. -/
def blueStep2 : GameState :=
  { players := [Istanbul.Player.red, Istanbul.Player.green]
    victoryThreshold := 6
    locMap := Istanbul.mkLocMap Istanbul.exSetup.locPairs
    locInv := Istanbul.mkLocInv Istanbul.exSetup.locPairs
    tileStates := fun t => match t with
      | Istanbul.Tile.greatMosque => { governor := false, smuggler := false, assistants := [], familyMembers := [], players := [], extra := Istanbul.TileExtra.mosque [(Istanbul.Good.blue, 2), (Istanbul.Good.yellow, 2)] }
      | Istanbul.Tile.postOffice => { governor := false, smuggler := false, assistants := [], familyMembers := [], players := [], extra := Istanbul.TileExtra.postOffice 0 }
      | Istanbul.Tile.fabricWarehouse => { governor := false, smuggler := false, assistants := [], familyMembers := [], players := [], extra := Istanbul.TileExtra.generic }
      | Istanbul.Tile.smallMosque => { governor := false, smuggler := false, assistants := [], familyMembers := [], players := [], extra := Istanbul.TileExtra.mosque [(Istanbul.Good.red, 2), (Istanbul.Good.green, 2)] }
      | Istanbul.Tile.fruitWarehouse => { governor := false, smuggler := false, assistants := [], familyMembers := [], players := [], extra := Istanbul.TileExtra.generic }
      | Istanbul.Tile.policeStation => { governor := false, smuggler := false, assistants := [], familyMembers := [Istanbul.Player.red, Istanbul.Player.green], players := [], extra := Istanbul.TileExtra.generic }
      | Istanbul.Tile.fountain => { governor := false, smuggler := false, assistants := [], familyMembers := [], players := [Istanbul.Player.green], extra := Istanbul.TileExtra.generic }
      | Istanbul.Tile.spiceWarehouse => { governor := false, smuggler := false, assistants := [], familyMembers := [], players := [], extra := Istanbul.TileExtra.generic }
      | Istanbul.Tile.blackMarket => { governor := false, smuggler := false, assistants := [Istanbul.Player.red], familyMembers := [], players := [Istanbul.Player.red], extra := Istanbul.TileExtra.generic }
      | Istanbul.Tile.caravansary => { governor := false, smuggler := false, assistants := [], familyMembers := [], players := [], extra := Istanbul.TileExtra.caravansary [] false }
      | Istanbul.Tile.smallMarket => { governor := false, smuggler := false, assistants := [], familyMembers := [], players := [], extra := Istanbul.TileExtra.market 2 false (some [(Istanbul.Good.red, 5)]) }
      | Istanbul.Tile.teaHouse => { governor := false, smuggler := false, assistants := [], familyMembers := [], players := [], extra := Istanbul.TileExtra.generic }
      | Istanbul.Tile.sultansPalace => { governor := false, smuggler := true, assistants := [], familyMembers := [], players := [], extra := Istanbul.TileExtra.sultansPalace 5 }
      | Istanbul.Tile.largeMarket => { governor := true, smuggler := false, assistants := [], familyMembers := [], players := [], extra := Istanbul.TileExtra.market 3 false (some [(Istanbul.Good.red, 5)]) }
      | Istanbul.Tile.wainwright => { governor := false, smuggler := false, assistants := [], familyMembers := [], players := [], extra := Istanbul.TileExtra.wainwright (6 : Int) }
      | Istanbul.Tile.gemstoneDealer => { governor := false, smuggler := false, assistants := [], familyMembers := [], players := [], extra := Istanbul.TileExtra.gemstoneDealer (some (15 : Int)) }
    playerStates := fun p => match p with
      | Istanbul.Player.red => { hand := fun x => if x = Istanbul.Card.oneGood then 1 else 0, lira := (2 : Int), rubies := 0, cartMax := 2, cartContents := fun x => if x = Istanbul.Good.red then 1 else if x = Istanbul.Good.blue then 2 else 0, stackSize := 3, tiles := [], location := 5, assistantLocations := [5], familyLocation := 7 }
      | Istanbul.Player.green => { hand := fun x => if x = Istanbul.Card.oneGood then 1 else 0, lira := (3 : Int), rubies := 0, cartMax := 2, cartContents := fun _ => 0, stackSize := 4, tiles := [], location := 1, assistantLocations := [], familyLocation := 7 }
      | Istanbul.Player.blue => { hand := fun x => if x = Istanbul.Card.oneGood then 1 else 0, lira := (2 : Int), rubies := 0, cartMax := 2, cartContents := fun _ => 0, stackSize := 4, tiles := [], location := 1, assistantLocations := [], familyLocation := 7 }
      | Istanbul.Player.yellow => { hand := fun x => if x = Istanbul.Card.oneGood then 1 else 0, lira := (2 : Int), rubies := 0, cartMax := 2, cartContents := fun _ => 0, stackSize := 4, tiles := [], location := 1, assistantLocations := [], familyLocation := 7 }
      | Istanbul.Player.white => { hand := fun x => if x = Istanbul.Card.oneGood then 1 else 0, lira := (2 : Int), rubies := 0, cartMax := 2, cartContents := fun _ => 0, stackSize := 4, tiles := [], location := 1, assistantLocations := [], familyLocation := 7 }
    turnIdx := 0
    phase := 4
    yieldRequired := false
    outstandingRewardChoices := 0
    familyMemberActing := false
    completed := false }

theorem takeAction_blueStep2 : takeAction blueStep1 (PAction.blackMarket Good.red (RollArg.dice (6, 6))) = some blueStep2 :=
  takeAction_eq_of_checks _ _ _ (by decide) (by decide) rfl rfl

/-- After step 3: red yields; green is up. -/
def blueStep3 : GameState :=
  { players := [Istanbul.Player.red, Istanbul.Player.green]
    victoryThreshold := 6
    locMap := Istanbul.mkLocMap Istanbul.exSetup.locPairs
    locInv := Istanbul.mkLocInv Istanbul.exSetup.locPairs
    tileStates := fun t => match t with
      | Istanbul.Tile.greatMosque => { governor := false, smuggler := false, assistants := [], familyMembers := [], players := [], extra := Istanbul.TileExtra.mosque [(Istanbul.Good.blue, 2), (Istanbul.Good.yellow, 2)] }
      | Istanbul.Tile.postOffice => { governor := false, smuggler := false, assistants := [], familyMembers := [], players := [], extra := Istanbul.TileExtra.postOffice 0 }
      | Istanbul.Tile.fabricWarehouse => { governor := false, smuggler := false, assistants := [], familyMembers := [], players := [], extra := Istanbul.TileExtra.generic }
      | Istanbul.Tile.smallMosque => { governor := false, smuggler := false, assistants := [], familyMembers := [], players := [], extra := Istanbul.TileExtra.mosque [(Istanbul.Good.red, 2), (Istanbul.Good.green, 2)] }
      | Istanbul.Tile.fruitWarehouse => { governor := false, smuggler := false, assistants := [], familyMembers := [], players := [], extra := Istanbul.TileExtra.generic }
      | Istanbul.Tile.policeStation => { governor := false, smuggler := false, assistants := [], familyMembers := [Istanbul.Player.red, Istanbul.Player.green], players := [], extra := Istanbul.TileExtra.generic }
      | Istanbul.Tile.fountain => { governor := false, smuggler := false, assistants := [], familyMembers := [], players := [Istanbul.Player.green], extra := Istanbul.TileExtra.generic }
      | Istanbul.Tile.spiceWarehouse => { governor := false, smuggler := false, assistants := [], familyMembers := [], players := [], extra := Istanbul.TileExtra.generic }
      | Istanbul.Tile.blackMarket => { governor := false, smuggler := false, assistants := [Istanbul.Player.red], familyMembers := [], players := [Istanbul.Player.red], extra := Istanbul.TileExtra.generic }
      | Istanbul.Tile.caravansary => { governor := false, smuggler := false, assistants := [], familyMembers := [], players := [], extra := Istanbul.TileExtra.caravansary [] false }
      | Istanbul.Tile.smallMarket => { governor := false, smuggler := false, assistants := [], familyMembers := [], players := [], extra := Istanbul.TileExtra.market 2 false (some [(Istanbul.Good.red, 5)]) }
      | Istanbul.Tile.teaHouse => { governor := false, smuggler := false, assistants := [], familyMembers := [], players := [], extra := Istanbul.TileExtra.generic }
      | Istanbul.Tile.sultansPalace => { governor := false, smuggler := true, assistants := [], familyMembers := [], players := [], extra := Istanbul.TileExtra.sultansPalace 5 }
      | Istanbul.Tile.largeMarket => { governor := true, smuggler := false, assistants := [], familyMembers := [], players := [], extra := Istanbul.TileExtra.market 3 false (some [(Istanbul.Good.red, 5)]) }
      | Istanbul.Tile.wainwright => { governor := false, smuggler := false, assistants := [], familyMembers := [], players := [], extra := Istanbul.TileExtra.wainwright (6 : Int) }
      | Istanbul.Tile.gemstoneDealer => { governor := false, smuggler := false, assistants := [], familyMembers := [], players := [], extra := Istanbul.TileExtra.gemstoneDealer (some (15 : Int)) }
    playerStates := fun p => match p with
      | Istanbul.Player.red => { hand := fun x => if x = Istanbul.Card.oneGood then 1 else 0, lira := (2 : Int), rubies := 0, cartMax := 2, cartContents := fun x => if x = Istanbul.Good.red then 1 else if x = Istanbul.Good.blue then 2 else 0, stackSize := 3, tiles := [], location := 5, assistantLocations := [5], familyLocation := 7 }
      | Istanbul.Player.green => { hand := fun x => if x = Istanbul.Card.oneGood then 1 else 0, lira := (3 : Int), rubies := 0, cartMax := 2, cartContents := fun _ => 0, stackSize := 4, tiles := [], location := 1, assistantLocations := [], familyLocation := 7 }
      | Istanbul.Player.blue => { hand := fun x => if x = Istanbul.Card.oneGood then 1 else 0, lira := (2 : Int), rubies := 0, cartMax := 2, cartContents := fun _ => 0, stackSize := 4, tiles := [], location := 1, assistantLocations := [], familyLocation := 7 }
      | Istanbul.Player.yellow => { hand := fun x => if x = Istanbul.Card.oneGood then 1 else 0, lira := (2 : Int), rubies := 0, cartMax := 2, cartContents := fun _ => 0, stackSize := 4, tiles := [], location := 1, assistantLocations := [], familyLocation := 7 }
      | Istanbul.Player.white => { hand := fun x => if x = Istanbul.Card.oneGood then 1 else 0, lira := (2 : Int), rubies := 0, cartMax := 2, cartContents := fun _ => 0, stackSize := 4, tiles := [], location := 1, assistantLocations := [], familyLocation := 7 }
    turnIdx := 1
    phase := 1
    yieldRequired := false
    outstandingRewardChoices := 0
    familyMemberActing := false
    completed := false }

theorem takeAction_blueStep3 : takeAction blueStep2 (PAction.yieldTurn) = some blueStep3 :=
  takeAction_eq_of_checks _ _ _ (by decide) (by decide) rfl rfl

/-- After step 4: green moves from the fountain to the tea house (placing an assistant). -/
def blueStep4 : GameState :=
  { players := [Istanbul.Player.red, Istanbul.Player.green]
    victoryThreshold := 6
    locMap := Istanbul.mkLocMap Istanbul.exSetup.locPairs
    locInv := Istanbul.mkLocInv Istanbul.exSetup.locPairs
    tileStates := fun t => match t with
      | Istanbul.Tile.greatMosque => { governor := false, smuggler := false, assistants := [], familyMembers := [], players := [], extra := Istanbul.TileExtra.mosque [(Istanbul.Good.blue, 2), (Istanbul.Good.yellow, 2)] }
      | Istanbul.Tile.postOffice => { governor := false, smuggler := false, assistants := [], familyMembers := [], players := [], extra := Istanbul.TileExtra.postOffice 0 }
      | Istanbul.Tile.fabricWarehouse => { governor := false, smuggler := false, assistants := [], familyMembers := [], players := [], extra := Istanbul.TileExtra.generic }
      | Istanbul.Tile.smallMosque => { governor := false, smuggler := false, assistants := [], familyMembers := [], players := [], extra := Istanbul.TileExtra.mosque [(Istanbul.Good.red, 2), (Istanbul.Good.green, 2)] }
      | Istanbul.Tile.fruitWarehouse => { governor := false, smuggler := false, assistants := [], familyMembers := [], players := [], extra := Istanbul.TileExtra.generic }
      | Istanbul.Tile.policeStation => { governor := false, smuggler := false, assistants := [], familyMembers := [Istanbul.Player.red, Istanbul.Player.green], players := [], extra := Istanbul.TileExtra.generic }
      | Istanbul.Tile.fountain => { governor := false, smuggler := false, assistants := [], familyMembers := [], players := [], extra := Istanbul.TileExtra.generic }
      | Istanbul.Tile.spiceWarehouse => { governor := false, smuggler := false, assistants := [], familyMembers := [], players := [], extra := Istanbul.TileExtra.generic }
      | Istanbul.Tile.blackMarket => { governor := false, smuggler := false, assistants := [Istanbul.Player.red], familyMembers := [], players := [Istanbul.Player.red], extra := Istanbul.TileExtra.generic }
      | Istanbul.Tile.caravansary => { governor := false, smuggler := false, assistants := [], familyMembers := [], players := [], extra := Istanbul.TileExtra.caravansary [] false }
      | Istanbul.Tile.smallMarket => { governor := false, smuggler := false, assistants := [], familyMembers := [], players := [], extra := Istanbul.TileExtra.market 2 false (some [(Istanbul.Good.red, 5)]) }
      | Istanbul.Tile.teaHouse => { governor := false, smuggler := false, assistants := [Istanbul.Player.green], familyMembers := [], players := [Istanbul.Player.green], extra := Istanbul.TileExtra.generic }
      | Istanbul.Tile.sultansPalace => { governor := false, smuggler := true, assistants := [], familyMembers := [], players := [], extra := Istanbul.TileExtra.sultansPalace 5 }
      | Istanbul.Tile.largeMarket => { governor := true, smuggler := false, assistants := [], familyMembers := [], players := [], extra := Istanbul.TileExtra.market 3 false (some [(Istanbul.Good.red, 5)]) }
      | Istanbul.Tile.wainwright => { governor := false, smuggler := false, assistants := [], familyMembers := [], players := [], extra := Istanbul.TileExtra.wainwright (6 : Int) }
      | Istanbul.Tile.gemstoneDealer => { governor := false, smuggler := false, assistants := [], familyMembers := [], players := [], extra := Istanbul.TileExtra.gemstoneDealer (some (15 : Int)) }
    playerStates := fun p => match p with
      | Istanbul.Player.red => { hand := fun x => if x = Istanbul.Card.oneGood then 1 else 0, lira := (2 : Int), rubies := 0, cartMax := 2, cartContents := fun x => if x = Istanbul.Good.red then 1 else if x = Istanbul.Good.blue then 2 else 0, stackSize := 3, tiles := [], location := 5, assistantLocations := [5], familyLocation := 7 }
      | Istanbul.Player.green => { hand := fun x => if x = Istanbul.Card.oneGood then 1 else 0, lira := (3 : Int), rubies := 0, cartMax := 2, cartContents := fun _ => 0, stackSize := 3, tiles := [], location := 2, assistantLocations := [2], familyLocation := 7 }
      | Istanbul.Player.blue => { hand := fun x => if x = Istanbul.Card.oneGood then 1 else 0, lira := (2 : Int), rubies := 0, cartMax := 2, cartContents := fun _ => 0, stackSize := 4, tiles := [], location := 1, assistantLocations := [], familyLocation := 7 }
      | Istanbul.Player.yellow => { hand := fun x => if x = Istanbul.Card.oneGood then 1 else 0, lira := (2 : Int), rubies := 0, cartMax := 2, cartContents := fun _ => 0, stackSize := 4, tiles := [], location := 1, assistantLocations := [], familyLocation := 7 }
      | Istanbul.Player.white => { hand := fun x => if x = Istanbul.Card.oneGood then 1 else 0, lira := (2 : Int), rubies := 0, cartMax := 2, cartContents := fun _ => 0, stackSize := 4, tiles := [], location := 1, assistantLocations := [], familyLocation := 7 }
    turnIdx := 1
    phase := 3
    yieldRequired := false
    outstandingRewardChoices := 0
    familyMemberActing := false
    completed := false }

theorem takeAction_blueStep4 : takeAction blueStep3 (PAction.move 2 false) = some blueStep4 :=
  takeAction_eq_of_checks _ _ _ (by decide) (by decide) rfl rfl

/-- After step 5: green skips the tile action. -/
def blueStep5 : GameState :=
  { players := [Istanbul.Player.red, Istanbul.Player.green]
    victoryThreshold := 6
    locMap := Istanbul.mkLocMap Istanbul.exSetup.locPairs
    locInv := Istanbul.mkLocInv Istanbul.exSetup.locPairs
    tileStates := fun t => match t with
      | Istanbul.Tile.greatMosque => { governor := false, smuggler := false, assistants := [], familyMembers := [], players := [], extra := Istanbul.TileExtra.mosque [(Istanbul.Good.blue, 2), (Istanbul.Good.yellow, 2)] }
      | Istanbul.Tile.postOffice => { governor := false, smuggler := false, assistants := [], familyMembers := [], players := [], extra := Istanbul.TileExtra.postOffice 0 }
      | Istanbul.Tile.fabricWarehouse => { governor := false, smuggler := false, assistants := [], familyMembers := [], players := [], extra := Istanbul.TileExtra.generic }
      | Istanbul.Tile.smallMosque => { governor := false, smuggler := false, assistants := [], familyMembers := [], players := [], extra := Istanbul.TileExtra.mosque [(Istanbul.Good.red, 2), (Istanbul.Good.green, 2)] }
      | Istanbul.Tile.fruitWarehouse => { governor := false, smuggler := false, assistants := [], familyMembers := [], players := [], extra := Istanbul.TileExtra.generic }
      | Istanbul.Tile.policeStation => { governor := false, smuggler := false, assistants := [], familyMembers := [Istanbul.Player.red, Istanbul.Player.green], players := [], extra := Istanbul.TileExtra.generic }
      | Istanbul.Tile.fountain => { governor := false, smuggler := false, assistants := [], familyMembers := [], players := [], extra := Istanbul.TileExtra.generic }
      | Istanbul.Tile.spiceWarehouse => { governor := false, smuggler := false, assistants := [], familyMembers := [], players := [], extra := Istanbul.TileExtra.generic }
      | Istanbul.Tile.blackMarket => { governor := false, smuggler := false, assistants := [Istanbul.Player.red], familyMembers := [], players := [Istanbul.Player.red], extra := Istanbul.TileExtra.generic }
      | Istanbul.Tile.caravansary => { governor := false, smuggler := false, assistants := [], familyMembers := [], players := [], extra := Istanbul.TileExtra.caravansary [] false }
      | Istanbul.Tile.smallMarket => { governor := false, smuggler := false, assistants := [], familyMembers := [], players := [], extra := Istanbul.TileExtra.market 2 false (some [(Istanbul.Good.red, 5)]) }
      | Istanbul.Tile.teaHouse => { governor := false, smuggler := false, assistants := [Istanbul.Player.green], familyMembers := [], players := [Istanbul.Player.green], extra := Istanbul.TileExtra.generic }
      | Istanbul.Tile.sultansPalace => { governor := false, smuggler := true, assistants := [], familyMembers := [], players := [], extra := Istanbul.TileExtra.sultansPalace 5 }
      | Istanbul.Tile.largeMarket => { governor := true, smuggler := false, assistants := [], familyMembers := [], players := [], extra := Istanbul.TileExtra.market 3 false (some [(Istanbul.Good.red, 5)]) }
      | Istanbul.Tile.wainwright => { governor := false, smuggler := false, assistants := [], familyMembers := [], players := [], extra := Istanbul.TileExtra.wainwright (6 : Int) }
      | Istanbul.Tile.gemstoneDealer => { governor := false, smuggler := false, assistants := [], familyMembers := [], players := [], extra := Istanbul.TileExtra.gemstoneDealer (some (15 : Int)) }
    playerStates := fun p => match p with
      | Istanbul.Player.red => { hand := fun x => if x = Istanbul.Card.oneGood then 1 else 0, lira := (2 : Int), rubies := 0, cartMax := 2, cartContents := fun x => if x = Istanbul.Good.red then 1 else if x = Istanbul.Good.blue then 2 else 0, stackSize := 3, tiles := [], location := 5, assistantLocations := [5], familyLocation := 7 }
      | Istanbul.Player.green => { hand := fun x => if x = Istanbul.Card.oneGood then 1 else 0, lira := (3 : Int), rubies := 0, cartMax := 2, cartContents := fun _ => 0, stackSize := 3, tiles := [], location := 2, assistantLocations := [2], familyLocation := 7 }
      | Istanbul.Player.blue => { hand := fun x => if x = Istanbul.Card.oneGood then 1 else 0, lira := (2 : Int), rubies := 0, cartMax := 2, cartContents := fun _ => 0, stackSize := 4, tiles := [], location := 1, assistantLocations := [], familyLocation := 7 }
      | Istanbul.Player.yellow => { hand := fun x => if x = Istanbul.Card.oneGood then 1 else 0, lira := (2 : Int), rubies := 0, cartMax := 2, cartContents := fun _ => 0, stackSize := 4, tiles := [], location := 1, assistantLocations := [], familyLocation := 7 }
      | Istanbul.Player.white => { hand := fun x => if x = Istanbul.Card.oneGood then 1 else 0, lira := (2 : Int), rubies := 0, cartMax := 2, cartContents := fun _ => 0, stackSize := 4, tiles := [], location := 1, assistantLocations := [], familyLocation := 7 }
    turnIdx := 1
    phase := 4
    yieldRequired := false
    outstandingRewardChoices := 0
    familyMemberActing := false
    completed := false }

theorem takeAction_blueStep5 : takeAction blueStep4 (PAction.skipTile) = some blueStep5 :=
  takeAction_eq_of_checks _ _ _ (by decide) (by decide) rfl rfl

/-- After step 6: green yields; red is up again. -/
def blueStep6 : GameState :=
  { players := [Istanbul.Player.red, Istanbul.Player.green]
    victoryThreshold := 6
    locMap := Istanbul.mkLocMap Istanbul.exSetup.locPairs
    locInv := Istanbul.mkLocInv Istanbul.exSetup.locPairs
    tileStates := fun t => match t with
      | Istanbul.Tile.greatMosque => { governor := false, smuggler := false, assistants := [], familyMembers := [], players := [], extra := Istanbul.TileExtra.mosque [(Istanbul.Good.blue, 2), (Istanbul.Good.yellow, 2)] }
      | Istanbul.Tile.postOffice => { governor := false, smuggler := false, assistants := [], familyMembers := [], players := [], extra := Istanbul.TileExtra.postOffice 0 }
      | Istanbul.Tile.fabricWarehouse => { governor := false, smuggler := false, assistants := [], familyMembers := [], players := [], extra := Istanbul.TileExtra.generic }
      | Istanbul.Tile.smallMosque => { governor := false, smuggler := false, assistants := [], familyMembers := [], players := [], extra := Istanbul.TileExtra.mosque [(Istanbul.Good.red, 2), (Istanbul.Good.green, 2)] }
      | Istanbul.Tile.fruitWarehouse => { governor := false, smuggler := false, assistants := [], familyMembers := [], players := [], extra := Istanbul.TileExtra.generic }
      | Istanbul.Tile.policeStation => { governor := false, smuggler := false, assistants := [], familyMembers := [Istanbul.Player.red, Istanbul.Player.green], players := [], extra := Istanbul.TileExtra.generic }
      | Istanbul.Tile.fountain => { governor := false, smuggler := false, assistants := [], familyMembers := [], players := [], extra := Istanbul.TileExtra.generic }
      | Istanbul.Tile.spiceWarehouse => { governor := false, smuggler := false, assistants := [], familyMembers := [], players := [], extra := Istanbul.TileExtra.generic }
      | Istanbul.Tile.blackMarket => { governor := false, smuggler := false, assistants := [Istanbul.Player.red], familyMembers := [], players := [Istanbul.Player.red], extra := Istanbul.TileExtra.generic }
      | Istanbul.Tile.caravansary => { governor := false, smuggler := false, assistants := [], familyMembers := [], players := [], extra := Istanbul.TileExtra.caravansary [] false }
      | Istanbul.Tile.smallMarket => { governor := false, smuggler := false, assistants := [], familyMembers := [], players := [], extra := Istanbul.TileExtra.market 2 false (some [(Istanbul.Good.red, 5)]) }
      | Istanbul.Tile.teaHouse => { governor := false, smuggler := false, assistants := [Istanbul.Player.green], familyMembers := [], players := [Istanbul.Player.green], extra := Istanbul.TileExtra.generic }
      | Istanbul.Tile.sultansPalace => { governor := false, smuggler := true, assistants := [], familyMembers := [], players := [], extra := Istanbul.TileExtra.sultansPalace 5 }
      | Istanbul.Tile.largeMarket => { governor := true, smuggler := false, assistants := [], familyMembers := [], players := [], extra := Istanbul.TileExtra.market 3 false (some [(Istanbul.Good.red, 5)]) }
      | Istanbul.Tile.wainwright => { governor := false, smuggler := false, assistants := [], familyMembers := [], players := [], extra := Istanbul.TileExtra.wainwright (6 : Int) }
      | Istanbul.Tile.gemstoneDealer => { governor := false, smuggler := false, assistants := [], familyMembers := [], players := [], extra := Istanbul.TileExtra.gemstoneDealer (some (15 : Int)) }
    playerStates := fun p => match p with
      | Istanbul.Player.red => { hand := fun x => if x = Istanbul.Card.oneGood then 1 else 0, lira := (2 : Int), rubies := 0, cartMax := 2, cartContents := fun x => if x = Istanbul.Good.red then 1 else if x = Istanbul.Good.blue then 2 else 0, stackSize := 3, tiles := [], location := 5, assistantLocations := [5], familyLocation := 7 }
      | Istanbul.Player.green => { hand := fun x => if x = Istanbul.Card.oneGood then 1 else 0, lira := (3 : Int), rubies := 0, cartMax := 2, cartContents := fun _ => 0, stackSize := 3, tiles := [], location := 2, assistantLocations := [2], familyLocation := 7 }
      | Istanbul.Player.blue => { hand := fun x => if x = Istanbul.Card.oneGood then 1 else 0, lira := (2 : Int), rubies := 0, cartMax := 2, cartContents := fun _ => 0, stackSize := 4, tiles := [], location := 1, assistantLocations := [], familyLocation := 7 }
      | Istanbul.Player.yellow => { hand := fun x => if x = Istanbul.Card.oneGood then 1 else 0, lira := (2 : Int), rubies := 0, cartMax := 2, cartContents := fun _ => 0, stackSize := 4, tiles := [], location := 1, assistantLocations := [], familyLocation := 7 }
      | Istanbul.Player.white => { hand := fun x => if x = Istanbul.Card.oneGood then 1 else 0, lira := (2 : Int), rubies := 0, cartMax := 2, cartContents := fun _ => 0, stackSize := 4, tiles := [], location := 1, assistantLocations := [], familyLocation := 7 }
    turnIdx := 0
    phase := 1
    yieldRequired := false
    outstandingRewardChoices := 0
    familyMemberActing := false
    completed := false }

theorem takeAction_blueStep6 : takeAction blueStep5 (PAction.yieldTurn) = some blueStep6 :=
  takeAction_eq_of_checks _ _ _ (by decide) (by decide) rfl rfl

/-- After step 7: red moves from the black market to the great mosque (placing an assistant). -/
def blueStep7 : GameState :=
  { players := [Istanbul.Player.red, Istanbul.Player.green]
    victoryThreshold := 6
    locMap := Istanbul.mkLocMap Istanbul.exSetup.locPairs
    locInv := Istanbul.mkLocInv Istanbul.exSetup.locPairs
    tileStates := fun t => match t with
      | Istanbul.Tile.greatMosque => { governor := false, smuggler := false, assistants := [Istanbul.Player.red], familyMembers := [], players := [Istanbul.Player.red], extra := Istanbul.TileExtra.mosque [(Istanbul.Good.blue, 2), (Istanbul.Good.yellow, 2)] }
      | Istanbul.Tile.postOffice => { governor := false, smuggler := false, assistants := [], familyMembers := [], players := [], extra := Istanbul.TileExtra.postOffice 0 }
      | Istanbul.Tile.fabricWarehouse => { governor := false, smuggler := false, assistants := [], familyMembers := [], players := [], extra := Istanbul.TileExtra.generic }
      | Istanbul.Tile.smallMosque => { governor := false, smuggler := false, assistants := [], familyMembers := [], players := [], extra := Istanbul.TileExtra.mosque [(Istanbul.Good.red, 2), (Istanbul.Good.green, 2)] }
      | Istanbul.Tile.fruitWarehouse => { governor := false, smuggler := false, assistants := [], familyMembers := [], players := [], extra := Istanbul.TileExtra.generic }
      | Istanbul.Tile.policeStation => { governor := false, smuggler := false, assistants := [], familyMembers := [Istanbul.Player.red, Istanbul.Player.green], players := [], extra := Istanbul.TileExtra.generic }
      | Istanbul.Tile.fountain => { governor := false, smuggler := false, assistants := [], familyMembers := [], players := [], extra := Istanbul.TileExtra.generic }
      | Istanbul.Tile.spiceWarehouse => { governor := false, smuggler := false, assistants := [], familyMembers := [], players := [], extra := Istanbul.TileExtra.generic }
      | Istanbul.Tile.blackMarket => { governor := false, smuggler := false, assistants := [Istanbul.Player.red], familyMembers := [], players := [], extra := Istanbul.TileExtra.generic }
      | Istanbul.Tile.caravansary => { governor := false, smuggler := false, assistants := [], familyMembers := [], players := [], extra := Istanbul.TileExtra.caravansary [] false }
      | Istanbul.Tile.smallMarket => { governor := false, smuggler := false, assistants := [], familyMembers := [], players := [], extra := Istanbul.TileExtra.market 2 false (some [(Istanbul.Good.red, 5)]) }
      | Istanbul.Tile.teaHouse => { governor := false, smuggler := false, assistants := [Istanbul.Player.green], familyMembers := [], players := [Istanbul.Player.green], extra := Istanbul.TileExtra.generic }
      | Istanbul.Tile.sultansPalace => { governor := false, smuggler := true, assistants := [], familyMembers := [], players := [], extra := Istanbul.TileExtra.sultansPalace 5 }
      | Istanbul.Tile.largeMarket => { governor := true, smuggler := false, assistants := [], familyMembers := [], players := [], extra := Istanbul.TileExtra.market 3 false (some [(Istanbul.Good.red, 5)]) }
      | Istanbul.Tile.wainwright => { governor := false, smuggler := false, assistants := [], familyMembers := [], players := [], extra := Istanbul.TileExtra.wainwright (6 : Int) }
      | Istanbul.Tile.gemstoneDealer => { governor := false, smuggler := false, assistants := [], familyMembers := [], players := [], extra := Istanbul.TileExtra.gemstoneDealer (some (15 : Int)) }
    playerStates := fun p => match p with
      | Istanbul.Player.red => { hand := fun x => if x = Istanbul.Card.oneGood then 1 else 0, lira := (2 : Int), rubies := 0, cartMax := 2, cartContents := fun x => if x = Istanbul.Good.red then 1 else if x = Istanbul.Good.blue then 2 else 0, stackSize := 2, tiles := [], location := 6, assistantLocations := [5, 6], familyLocation := 7 }
      | Istanbul.Player.green => { hand := fun x => if x = Istanbul.Card.oneGood then 1 else 0, lira := (3 : Int), rubies := 0, cartMax := 2, cartContents := fun _ => 0, stackSize := 3, tiles := [], location := 2, assistantLocations := [2], familyLocation := 7 }
      | Istanbul.Player.blue => { hand := fun x => if x = Istanbul.Card.oneGood then 1 else 0, lira := (2 : Int), rubies := 0, cartMax := 2, cartContents := fun _ => 0, stackSize := 4, tiles := [], location := 1, assistantLocations := [], familyLocation := 7 }
      | Istanbul.Player.yellow => { hand := fun x => if x = Istanbul.Card.oneGood then 1 else 0, lira := (2 : Int), rubies := 0, cartMax := 2, cartContents := fun _ => 0, stackSize := 4, tiles := [], location := 1, assistantLocations := [], familyLocation := 7 }
      | Istanbul.Player.white => { hand := fun x => if x = Istanbul.Card.oneGood then 1 else 0, lira := (2 : Int), rubies := 0, cartMax := 2, cartContents := fun _ => 0, stackSize := 4, tiles := [], location := 1, assistantLocations := [], familyLocation := 7 }
    turnIdx := 0
    phase := 3
    yieldRequired := false
    outstandingRewardChoices := 0
    familyMemberActing := false
    completed := false }

theorem takeAction_blueStep7 : takeAction blueStep6 (PAction.move 6 false) = some blueStep7 :=
  takeAction_eq_of_checks _ _ _ (by decide) (by decide) rfl rfl

/-- After step 8: red pays two jewelry for the blue mosque tile, gaining a fifth stack assistant. -/
def blueStep8 : GameState :=
  { players := [Istanbul.Player.red, Istanbul.Player.green]
    victoryThreshold := 6
    locMap := Istanbul.mkLocMap Istanbul.exSetup.locPairs
    locInv := Istanbul.mkLocInv Istanbul.exSetup.locPairs
    tileStates := fun t => match t with
      | Istanbul.Tile.greatMosque => { governor := false, smuggler := false, assistants := [Istanbul.Player.red], familyMembers := [], players := [Istanbul.Player.red], extra := Istanbul.TileExtra.mosque [(Istanbul.Good.blue, 3), (Istanbul.Good.yellow, 2)] }
      | Istanbul.Tile.postOffice => { governor := false, smuggler := false, assistants := [], familyMembers := [], players := [], extra := Istanbul.TileExtra.postOffice 0 }
      | Istanbul.Tile.fabricWarehouse => { governor := false, smuggler := false, assistants := [], familyMembers := [], players := [], extra := Istanbul.TileExtra.generic }
      | Istanbul.Tile.smallMosque => { governor := false, smuggler := false, assistants := [], familyMembers := [], players := [], extra := Istanbul.TileExtra.mosque [(Istanbul.Good.red, 2), (Istanbul.Good.green, 2)] }
      | Istanbul.Tile.fruitWarehouse => { governor := false, smuggler := false, assistants := [], familyMembers := [], players := [], extra := Istanbul.TileExtra.generic }
      | Istanbul.Tile.policeStation => { governor := false, smuggler := false, assistants := [], familyMembers := [Istanbul.Player.red, Istanbul.Player.green], players := [], extra := Istanbul.TileExtra.generic }
      | Istanbul.Tile.fountain => { governor := false, smuggler := false, assistants := [], familyMembers := [], players := [], extra := Istanbul.TileExtra.generic }
      | Istanbul.Tile.spiceWarehouse => { governor := false, smuggler := false, assistants := [], familyMembers := [], players := [], extra := Istanbul.TileExtra.generic }
      | Istanbul.Tile.blackMarket => { governor := false, smuggler := false, assistants := [Istanbul.Player.red], familyMembers := [], players := [], extra := Istanbul.TileExtra.generic }
      | Istanbul.Tile.caravansary => { governor := false, smuggler := false, assistants := [], familyMembers := [], players := [], extra := Istanbul.TileExtra.caravansary [] false }
      | Istanbul.Tile.smallMarket => { governor := false, smuggler := false, assistants := [], familyMembers := [], players := [], extra := Istanbul.TileExtra.market 2 false (some [(Istanbul.Good.red, 5)]) }
      | Istanbul.Tile.teaHouse => { governor := false, smuggler := false, assistants := [Istanbul.Player.green], familyMembers := [], players := [Istanbul.Player.green], extra := Istanbul.TileExtra.generic }
      | Istanbul.Tile.sultansPalace => { governor := false, smuggler := true, assistants := [], familyMembers := [], players := [], extra := Istanbul.TileExtra.sultansPalace 5 }
      | Istanbul.Tile.largeMarket => { governor := true, smuggler := false, assistants := [], familyMembers := [], players := [], extra := Istanbul.TileExtra.market 3 false (some [(Istanbul.Good.red, 5)]) }
      | Istanbul.Tile.wainwright => { governor := false, smuggler := false, assistants := [], familyMembers := [], players := [], extra := Istanbul.TileExtra.wainwright (6 : Int) }
      | Istanbul.Tile.gemstoneDealer => { governor := false, smuggler := false, assistants := [], familyMembers := [], players := [], extra := Istanbul.TileExtra.gemstoneDealer (some (15 : Int)) }
    playerStates := fun p => match p with
      | Istanbul.Player.red => { hand := fun x => if x = Istanbul.Card.oneGood then 1 else 0, lira := (2 : Int), rubies := 0, cartMax := 2, cartContents := fun x => if x = Istanbul.Good.red then 1 else 0, stackSize := 3, tiles := [Istanbul.Good.blue], location := 6, assistantLocations := [5, 6], familyLocation := 7 }
      | Istanbul.Player.green => { hand := fun x => if x = Istanbul.Card.oneGood then 1 else 0, lira := (3 : Int), rubies := 0, cartMax := 2, cartContents := fun _ => 0, stackSize := 3, tiles := [], location := 2, assistantLocations := [2], familyLocation := 7 }
      | Istanbul.Player.blue => { hand := fun x => if x = Istanbul.Card.oneGood then 1 else 0, lira := (2 : Int), rubies := 0, cartMax := 2, cartContents := fun _ => 0, stackSize := 4, tiles := [], location := 1, assistantLocations := [], familyLocation := 7 }
      | Istanbul.Player.yellow => { hand := fun x => if x = Istanbul.Card.oneGood then 1 else 0, lira := (2 : Int), rubies := 0, cartMax := 2, cartContents := fun _ => 0, stackSize := 4, tiles := [], location := 1, assistantLocations := [], familyLocation := 7 }
      | Istanbul.Player.white => { hand := fun x => if x = Istanbul.Card.oneGood then 1 else 0, lira := (2 : Int), rubies := 0, cartMax := 2, cartContents := fun _ => 0, stackSize := 4, tiles := [], location := 1, assistantLocations := [], familyLocation := 7 }
    turnIdx := 0
    phase := 4
    yieldRequired := false
    outstandingRewardChoices := 0
    familyMemberActing := false
    completed := false }

theorem takeAction_blueStep8 : takeAction blueStep7 (PAction.mosque Good.blue) = some blueStep8 :=
  takeAction_eq_of_checks _ _ _ (by decide) (by decide) rfl rfl

/-- The state after the blue-tile purchase is reachable. -/
theorem reachable_blueStep8 : Reachable blueStep8 :=
  Reachable.step _ _ _
    (Reachable.step _ _ _
      (Reachable.step _ _ _
        (Reachable.step _ _ _
          (Reachable.step _ _ _
            (Reachable.step _ _ _
              (Reachable.step _ _ _
                (Reachable.step _ _ _
                  (Reachable.init exSetup initEx mkInitial_exSetup)
                  takeAction_blueStep1)
                takeAction_blueStep2)
              takeAction_blueStep3)
            takeAction_blueStep4)
          takeAction_blueStep5)
        takeAction_blueStep6)
      takeAction_blueStep7)
    takeAction_blueStep8

/-! ### C3: sultan's palace payment validation -/

/-- C3: the code accepts a payment of four jewelry against the initial
requirement of one each of jewelry, fabric, spice and fruit: the coverage
loop iterates over the payment's keys, so a required good entirely absent
from the payment is never checked.  With `required_count = 4`, fabric is
required once, the payment holds none of it, the totals match, and
`take_action` succeeds and advances `required_count` to 5 — where the
claim demands a validation error. -/
theorem sultans_palace_uncovered_good_accepted :
    paTakeAction 4 [(Good.blue, 4)] = some 5 ∧
    cget [(Good.blue, 4)] Good.red = 0 ∧
    (paRequired 4).map (fun r => r.map (fun req => cget req (some Good.red))) =
      some (some 1) := by
  refine ⟨by decide, by decide, by decide⟩

/-! ### C9: caravansary draw -/

/-- C9 counterexample: with `ONE_GOOD` discarded first and `FIVE_LIRA`
discarded most recently, drawing two returns
`[ONE_GOOD, FIVE_LIRA]` — most-recently-discarded *last*, not first as
the claim states. -/
theorem caravansary_order_counterexample :
    carTakeAction [Card.oneGood, Card.fiveLira] false 2 =
      some ([Card.oneGood, Card.fiveLira], [], true) ∧
    [Card.oneGood, Card.fiveLira] ≠ [Card.fiveLira, Card.oneGood] := by
  refine ⟨by decide, by decide⟩

/-- C9 amended: `take_action(count)` with `count ≤ 2`, not already
awaiting a discard and a big enough pile removes the top `count` cards
and returns them in pile order (most-recently-discarded last); it errors
when already awaiting, when `count > 2` or when the pile is short; the
awaiting flag it sets is cleared by `discard_onto`. -/
theorem caravansary_take_action_spec :
    (∀ (pile : List Card) (count : Nat), count ≤ 2 → count ≤ pile.length →
      carTakeAction pile false count =
        some (pile.drop (pile.length - count), pile.take (pile.length - count), true)) ∧
    (∀ (pile : List Card) (count : Nat), carTakeAction pile true count = none) ∧
    (∀ (pile : List Card) (count : Nat), 2 < count → carTakeAction pile false count = none) ∧
    (∀ (pile : List Card) (count : Nat), count ≠ 0 → pile.length < count →
      carTakeAction pile false count = none) ∧
    (∀ (pile : List Card) (card : Card), carDiscardOnto pile card = (pile ++ [card], false)) := by
  refine ⟨?_, ?_, ?_, ?_, ?_⟩
  · intro pile count hle hlen
    unfold carTakeAction
    have h2 : ¬ (count > 2) := by omega
    by_cases h0 : count = 0
    · subst h0
      simp
    · have hlt : ¬ (pile.length < count) := by omega
      simp [h2, h0, hlt]
  · intro pile count
    unfold carTakeAction
    simp
  · intro pile count h
    unfold carTakeAction
    simp [h]
  · intro pile count h0 hlen
    unfold carTakeAction
    by_cases hc : 2 < count
    · simp [hc]
    · simp [hc, h0, hlen]
  · intro pile card
    rfl

/-- C9 witness: a concrete two-card draw from a three-card pile. -/
theorem caravansary_take_action_witness :
    carTakeAction [Card.oneGood, Card.fiveLira, Card.extraMove] false 2 =
      some ([Card.oneGood, Card.fiveLira, Card.extraMove].drop 1,
            [Card.oneGood, Card.fiveLira, Card.extraMove].take 1, true) :=
  (caravansary_take_action_spec.1 [Card.oneGood, Card.fiveLira, Card.extraMove] 2
    (by decide) (by decide))

/-! ### C8: gemstone dealer price progression -/

/-- C8: `take_action` requires a current price, raises it by one and sets
it to `none` (sold out) once it exceeds 24; with no price every purchase
attempt errors (both at the tile and through the game handler), so the
dealer stays unavailable forever (nothing ever rewrites the price). -/
theorem gemstone_dealer_spec :
    (∀ c : Int, dealerTakeAction (some c) =
      some (if 24 < c + 1 then none else some (c + 1))) ∧
    dealerTakeAction none = none ∧
    (∀ s : GameState, (s.tileStates Tile.gemstoneDealer).extra =
        TileExtra.gemstoneDealer none → handleGemstoneDealer s = none) := by
  refine ⟨?_, rfl, ?_⟩
  · intro c
    unfold dealerTakeAction
    by_cases h : 24 < c + 1 <;> simp [h]
  · intro s h
    unfold handleGemstoneDealer
    cases hl : s.locMap (s.playerStates (currentPlayer s)).location with
    | none => simp [hl]
    | some t =>
      by_cases ht : t = Tile.gemstoneDealer
      · simp [hl, ht, h]
      · simp [hl, ht]

/-- The example game with the gemstone dealer sold out. -/
def soldOutGame : GameState :=
  updTile initEx Tile.gemstoneDealer
    (fun ts => { ts with extra := TileExtra.gemstoneDealer none })

/-- C8 witness: price 24 sells out; price 12 advances to 13; a sold-out
dealer state rejects the game-level purchase. -/
theorem gemstone_dealer_witness :
    dealerTakeAction (some 24) = some (if (24 : Int) < 24 + 1 then none else some (24 + 1)) ∧
    dealerTakeAction (some 12) = some (if (24 : Int) < 12 + 1 then none else some (12 + 1)) ∧
    handleGemstoneDealer soldOutGame = none :=
  ⟨gemstone_dealer_spec.1 24, gemstone_dealer_spec.1 12,
   gemstone_dealer_spec.2.2 soldOutGame (by decide)⟩

/-! ### C10: yield legality by phase -/

/-- C10: with `yield_required` false the turn machine accepts `YieldTurn`
exactly in phases 2 and 4, and any action it deems invalid makes
`take_action` raise (so a yield attempted in phase 1 or 3 is rejected). -/
theorem yield_turn_phase_legality :
    (∀ s : GameState, s.yieldRequired = false →
      (validAction s PAction.yieldTurn = true ↔ s.phase = 2 ∨ s.phase = 4)) ∧
    (∀ (s : GameState) (a : PAction), validAction s a = false →
      turnTakeAction s a = none) := by
  constructor
  · intro s h
    unfold validAction
    rw [h]
    simp
  · intro s a h
    unfold turnTakeAction
    rw [h]
    simp

/-- C10 witness: in the example game moved to phase 3 with no yield
required, `YieldTurn` is illegal and rejected. -/
theorem yield_turn_phase_legality_witness :
    (validAction { initEx with phase := 3 } PAction.yieldTurn = true ↔
      ({ initEx with phase := 3 } : GameState).phase = 2 ∨
      ({ initEx with phase := 3 } : GameState).phase = 4) ∧
    turnTakeAction { initEx with phase := 3 } PAction.yieldTurn = none :=
  ⟨yield_turn_phase_legality.1 { initEx with phase := 3 } (by decide),
   yield_turn_phase_legality.2 { initEx with phase := 3 } PAction.yieldTurn (by decide)⟩

/-! ### C1: the assistant-count invariant -/

/-- C1 counterexample: after the certified play above — a legal game in
which red buys the blue mosque tile — red holds 3 stack assistants and 2
placed assistants: `stack_size + |assistant_locations|` is 5, not 4,
because `_handle_mosque_action` adds a fifth assistant to the stack for
the blue tile without touching `assistant_locations`. -/
theorem assistant_invariant_counterexample :
    Reachable blueStep8 ∧
    (blueStep8.playerStates Player.red).stackSize +
      (blueStep8.playerStates Player.red).assistantLocations.length ≠ 4 ∧
    (blueStep8.playerStates Player.red).stackSize +
      (blueStep8.playerStates Player.red).assistantLocations.length = 5 :=
  ⟨reachable_blueStep8, by decide, by decide⟩

/-! ### C2: cart capacity bounds -/

/-- Every entry of the player-state table built at construction has cart
capacity 2. -/
theorem cartMax_of_enumFold (su : Setup) (fl pl : Location) :
    ∀ (l : List (Nat × Player)) (f0 : Player → PlayerState),
      (∀ p, (f0 p).cartMax = 2) →
      ∀ p, ((l.foldl (fun f e => fun p2 =>
        if p2 = e.2 then initialPlayerState (su.playerHands e.2) (2 + (e.1 : Int)) fl pl
        else f p2) f0) p).cartMax = 2 := by
  intro l
  induction l with
  | nil => intro f0 h p; exact h p
  | cons e rest ih =>
    intro f0 h p
    rw [List.foldl_cons]
    apply ih
    intro q
    by_cases hq : q = e.2
    · simp [hq, initialPlayerState]
    · simp [hq, h q]

/-- A game state at the wainwright with an already fully extended cart
(capacity 5, the maximum; the repository's own tests build such states by
direct assignment) and enough lira for another extension. -/
def wCart5 : GameState :=
  updPlayer { initEx with phase := 3 } Player.red
    (fun ps => { ps with location := 3, cartMax := 5, lira := 10 })

/-- C2: `cart_max` starts at 2 for every player, but the wainwright
handler's guard is `cart_max <= 5`, so a purchase made at capacity 5 is
accepted and raises `cart_max` to 6 — the claim says no sequence of
wainwright purchases can raise it above 5.  The guard contradicts its own
error message ("No room for additional extensions") and the documented
2..5 range. -/
theorem wainwright_cart_max_exceeds_five :
    (∀ (su : Setup) (s0 : GameState), mkInitial su = some s0 →
      ∀ p : Player, (s0.playerStates p).cartMax = 2) ∧
    (wCart5.playerStates Player.red).cartMax = 5 ∧
    (takeAction wCart5 PAction.genericTile).map
      (fun s => (s.playerStates Player.red).cartMax) = some 6 := by
  refine ⟨?_, by decide, by decide⟩
  intro su s0 h p
  simp only [mkInitial] at h
  repeat' split at h
  any_goals exact Option.noConfusion h
  all_goals
    rw [Option.some.injEq] at h
    subst h
    exact cartMax_of_enumFold su _ _ _ _ (fun q => rfl) p

/-! ### C4: market pricing -/

/-- `sum(range(c, c + n))` is the spec's triangular sum
`Σ_{i=1}^{n} (c + i - 1)`. -/
theorem sum_range_c (c n : Nat) :
    ((List.range n).map (fun i => c + i)).sum = ∑ i ∈ Finset.Icc 1 n, (c + i - 1) := by
  induction n with
  | zero => simp
  | succ k ih =>
    rw [List.range_succ, List.map_append, List.sum_append,
        Finset.sum_Icc_succ_top (by omega : 1 ≤ k + 1), ih]
    simp

/-- C4: `Market.take_action(payment)` requires demand to be set (not
expecting new demand) and every good of the payment within its demand
count; it pays `Σ_{i=1}^{n} (one_cost + i - 1)` for `n` goods sold and
flips the market back to expecting new demand — in particular the small
market (`one_cost = 2`) selling 3 goods pays exactly `2 + 3 + 4 = 9`. -/
theorem market_take_action_spec :
    (∀ (oneCost : Nat) (d payment : List (Good × Nat)),
      (∀ e ∈ payment, cget payment e.1 ≤ cget d e.1) →
      marketTakeAction oneCost false (some d) payment =
        some (∑ i ∈ Finset.Icc 1 (ctotal payment), (oneCost + i - 1), true)) ∧
    (∀ (oneCost : Nat) (d : Option (List (Good × Nat))) (payment : List (Good × Nat)),
      marketTakeAction oneCost true d payment = none) ∧
    (∀ (oneCost : Nat) (d payment : List (Good × Nat)) (e : Good × Nat),
      e ∈ payment → cget d e.1 < cget payment e.1 →
      marketTakeAction oneCost false (some d) payment = none) ∧
    marketTakeAction 2 false (some [(Good.red, 3), (Good.green, 2)]) [(Good.red, 3)] =
      some (9, true) ∧
    (9 : Nat) = 2 + 3 + 4 := by
  refine ⟨?_, ?_, ?_, by decide, rfl⟩
  · intro oneCost d payment h
    have hall : payment.all (fun e => cget payment e.1 ≤ cget d e.1) = true := by
      rw [List.all_eq_true]
      intro e he
      exact decide_eq_true (h e he)
    simp [marketTakeAction, hall, sum_range_c]
  · intro oneCost d payment
    simp [marketTakeAction]
  · intro oneCost d payment e he hlt
    have hall : payment.all (fun e2 => cget payment e2.1 ≤ cget d e2.1) = false := by
      rw [Bool.eq_false_iff]
      intro hall
      rw [List.all_eq_true] at hall
      have := hall e he
      rw [decide_eq_true_eq] at this
      omega
    simp [marketTakeAction, hall]

/-- C4 witness: the large market (`one_cost = 3`) selling two spice
against a demand that covers it. -/
theorem market_take_action_witness :
    marketTakeAction 3 false (some [(Good.green, 3), (Good.red, 2)]) [(Good.green, 2)] =
      some (∑ i ∈ Finset.Icc 1 (ctotal [(Good.green, 2)]), (3 + i - 1), true) :=
  market_take_action_spec.1 3 [(Good.green, 3), (Good.red, 2)] [(Good.green, 2)]
    (by decide)

/-! ### C5: yield-turn victory evaluation -/

/-- C5: a successful `YieldTurn` completes the game exactly when the
yielding player is the last player in turn order and some player's rubies
reach the victory threshold; the evaluation uses the pre-yield current
player (the turn machine advances to the next player and phase 1 only
afterwards), and the threshold is 6 for exactly 2 players, 5 otherwise. -/
theorem yield_victory_spec :
    (∀ (s s2 : GameState), takeAction s PAction.yieldTurn = some s2 →
      ((s2.completed = true ↔
        (currentPlayer s = s.players.getLastD Player.red ∧
         ∃ p ∈ s.players, s.victoryThreshold ≤ (s.playerStates p).rubies)) ∧
       s2.turnIdx = (s.turnIdx + 1) % s.players.length ∧ s2.phase = 1)) ∧
    (∀ (su : Setup) (s0 : GameState), mkInitial su = some s0 →
      s0.victoryThreshold = if su.players.length = 2 then 6 else 5) := by
  constructor
  · intro s s2 h
    unfold takeAction at h
    split at h
    · exact Option.noConfusion h
    · split at h
      · exact Option.noConfusion h
      · replace h : (if validAction (checkCompleted s) PAction.yieldTurn then
            some { checkCompleted s with
                   turnIdx := ((checkCompleted s).turnIdx + 1) % (checkCompleted s).players.length,
                   phase := 1, yieldRequired := false }
          else none) = some s2 := h
        split at h
        case isTrue hcompleted houtstanding hvalid =>
          rw [Option.some.injEq] at h
          subst h
          unfold checkCompleted
          split
          case isTrue hne =>
            simp only []
            refine ⟨?_, by trivial, by trivial⟩
            constructor
            · intro hc
              exact absurd hc (by simpa using hcompleted)
            · rintro ⟨hlast, -⟩
              exact absurd hlast hne
          case isFalse hne =>
            split
            case isTrue hany =>
              simp only []
              refine ⟨?_, by trivial, by trivial⟩
              simp only [true_iff]
              refine ⟨by simpa using hne, ?_⟩
              rw [List.any_eq_true] at hany
              obtain ⟨p, hp, hr⟩ := hany
              exact ⟨p, hp, by simpa using hr⟩
            case isFalse hany =>
              simp only []
              refine ⟨?_, by trivial, by trivial⟩
              constructor
              · intro hc
                exact absurd hc (by simpa using hcompleted)
              · rintro ⟨-, p, hp, hr⟩
                exact absurd (List.any_eq_true.mpr ⟨p, hp, by simpa using hr⟩) hany
        case isFalse =>
          exact Option.noConfusion h
  · intro su s0 h
    simp only [mkInitial] at h
    repeat' split at h
    any_goals exact Option.noConfusion h
    all_goals
      rw [Option.some.injEq] at h
      subst h
      simp_all

/-! ### C7: movement distance validation -/

/-- A turn transition for any action other than `YieldTurn` only touches
the phase and yield flag. -/
theorem turnTakeAction_nonYield_fields (s : GameState) (a : PAction) (s0 : GameState)
    (hne : a ≠ PAction.yieldTurn) (h : turnTakeAction s a = some s0) :
    s0.playerStates = s.playerStates ∧ s0.players = s.players ∧
    s0.turnIdx = s.turnIdx ∧ s0.tileStates = s.tileStates ∧
    s0.locMap = s.locMap ∧ s0.locInv = s.locInv ∧
    s0.completed = s.completed ∧
    s0.outstandingRewardChoices = s.outstandingRewardChoices ∧
    s0.familyMemberActing = s.familyMemberActing ∧
    s0.victoryThreshold = s.victoryThreshold := by
  unfold turnTakeAction at h
  split at h
  · rw [Option.some.injEq] at h
    subst h
    cases a <;> simp_all
  · exact Option.noConfusion h

/-- The current player (and their location) is unchanged by a non-yield
turn transition. -/
theorem turnTakeAction_nonYield_currentPS (s : GameState) (a : PAction) (s0 : GameState)
    (hne : a ≠ PAction.yieldTurn) (h : turnTakeAction s a = some s0) :
    currentPS s0 = currentPS s := by
  obtain ⟨h1, h2, h3, -⟩ := turnTakeAction_nonYield_fields s a s0 hne h
  unfold currentPS currentPlayer
  rw [h1, h2, h3]

/-- `_discard` only changes the hand and the caravansary pile. -/
theorem gsDiscard_location (s : GameState) (c : Card) (s2 : GameState)
    (h : gsDiscard s c = some s2) :
    s2.players = s.players ∧ s2.turnIdx = s.turnIdx ∧
    ∀ p, (s2.playerStates p).location = (s.playerStates p).location := by
  simp only [gsDiscard] at h
  split at h
  · split at h
    · rw [Option.some.injEq] at h
      subst h
      refine ⟨rfl, rfl, fun p => ?_⟩
      simp only [updTile, updPlayer]
      split <;> rfl
    · exact Option.noConfusion h
  · exact Option.noConfusion h

/-- A successful `moveFlow` certifies the distance. -/
theorem moveFlow_dist (s0 : GameState) (dest : Location) (skip : Bool) (lo hi : Nat)
    (s2 : GameState) (h : moveFlow s0 dest skip lo hi = some s2) :
    taxicabDist (currentPS s0).location dest = lo ∨
    taxicabDist (currentPS s0).location dest = hi := by
  simp only [moveFlow] at h
  split at h
  · assumption
  · exact Option.noConfusion h

/-- A wrong distance makes `moveFlow` fail. -/
theorem moveFlow_none (s0 : GameState) (dest : Location) (skip : Bool) (lo hi : Nat)
    (h1 : taxicabDist (currentPS s0).location dest ≠ lo)
    (h2 : taxicabDist (currentPS s0).location dest ≠ hi) :
    moveFlow s0 dest skip lo hi = none := by
  simp only [moveFlow]
  rw [if_neg]
  rintro (h | h) <;> [exact h1 h; exact h2 h]

/-- C7: a plain `Move` is accepted only at taxicab distance exactly 1 or
2, a move via the extra-move card only at exactly 3 or 4, and a plain
move of any other distance (0, or 3 and more) is rejected. -/
theorem move_distance_spec :
    (∀ (s : GameState) (dest : Location) (skip : Bool) (s2 : GameState),
      takeAction s (PAction.move dest skip) = some s2 →
      taxicabDist (currentPS s).location dest = 1 ∨
      taxicabDist (currentPS s).location dest = 2) ∧
    (∀ (s : GameState) (dest : Location) (skip : Bool) (s2 : GameState),
      takeAction s (PAction.extraMoveCard dest skip) = some s2 →
      taxicabDist (currentPS s).location dest = 3 ∨
      taxicabDist (currentPS s).location dest = 4) ∧
    (∀ (s : GameState) (dest : Location) (skip : Bool),
      taxicabDist (currentPS s).location dest ≠ 1 →
      taxicabDist (currentPS s).location dest ≠ 2 →
      takeAction s (PAction.move dest skip) = none) := by
  refine ⟨?_, ?_, ?_⟩
  · intro s dest skip s2 h
    unfold takeAction at h
    split at h
    · exact Option.noConfusion h
    · split at h
      · exact Option.noConfusion h
      · replace h : (match turnTakeAction s (PAction.move dest skip) with
            | none => none
            | some s0 => moveFlow s0 dest skip 1 2) = some s2 := h
        cases ht : turnTakeAction s (PAction.move dest skip) with
        | none => rw [ht] at h; exact Option.noConfusion h
        | some s0 =>
          rw [ht] at h
          have hcur := turnTakeAction_nonYield_currentPS s _ s0 (by simp) ht
          rw [← hcur]
          exact moveFlow_dist s0 dest skip 1 2 s2 h
  · intro s dest skip s2 h
    unfold takeAction at h
    split at h
    · exact Option.noConfusion h
    · split at h
      · exact Option.noConfusion h
      · replace h : (match turnTakeAction s (PAction.extraMoveCard dest skip) with
            | none => none
            | some s0 =>
              match gsDiscard s0 Card.extraMove with
              | none => none
              | some sd => moveFlow sd dest skip 3 4) = some s2 := h
        cases ht : turnTakeAction s (PAction.extraMoveCard dest skip) with
        | none => rw [ht] at h; exact Option.noConfusion h
        | some s0 =>
          rw [ht] at h
          simp only [] at h
          cases hd : gsDiscard s0 Card.extraMove with
          | none =>
            rw [hd] at h
            exact Option.noConfusion h
          | some sd =>
            rw [hd] at h
            have hcur := turnTakeAction_nonYield_currentPS s _ s0 (by simp) ht
            have hloc := (gsDiscard_location s0 _ sd hd).2.2
            have hpl := (gsDiscard_location s0 _ sd hd).1
            have hidx := (gsDiscard_location s0 _ sd hd).2.1
            have : (currentPS sd).location = (currentPS s).location := by
              rw [← hcur]
              unfold currentPS currentPlayer
              rw [hpl, hidx]
              exact hloc _
            rw [← this]
            exact moveFlow_dist sd dest skip 3 4 s2 h
  · intro s dest skip h1 h2
    unfold takeAction
    split
    · rfl
    · split
      · rfl
      · show (match turnTakeAction s (PAction.move dest skip) with
            | none => none
            | some s0 => moveFlow s0 dest skip 1 2) = none
        cases ht : turnTakeAction s (PAction.move dest skip) with
        | none => rfl
        | some s0 =>
          have hcur := turnTakeAction_nonYield_currentPS s _ s0 (by simp) ht
          exact moveFlow_none s0 dest skip 1 2 (by rw [hcur]; exact h1) (by rw [hcur]; exact h2)

/-- C7 witness: red's legal opening move to the adjacent black market has
distance 1, and a move from the fountain to the far corner (distance 6)
is rejected. -/
theorem move_distance_witness :
    (taxicabDist (currentPS initEx).location 5 = 1 ∨
     taxicabDist (currentPS initEx).location 5 = 2) ∧
    takeAction initEx (PAction.move 16 false) = none :=
  ⟨move_distance_spec.1 initEx 5 false blueStep1 takeAction_blueStep1,
   move_distance_spec.2.2 initEx 16 false (by decide) (by decide)⟩

/-! ### C6: family-member capture -/

/-- An option known to hold a value equals `some` of its default read. -/
theorem eq_some_getD {α : Type} (o : Option α) (d : α) (h : o.isSome = true) :
    o = some (o.getD d) := by
  cases o
  · cases h
  · rfl

theorem mem_setAdd [DecidableEq α] (xs : List α) (a y : α) :
    y ∈ setAdd xs a ↔ y ∈ xs ∨ y = a := by
  unfold setAdd
  split
  case isTrue h =>
    constructor
    · exact Or.inl
    · rintro (hy | rfl)
      · exact hy
      · exact h
  case isFalse h =>
    simp [List.mem_append]

theorem foldl_setAdd_mem [DecidableEq α] (l : List α) (init : List α) (x : α)
    (h : x ∈ init ∨ x ∈ l) : x ∈ l.foldl setAdd init := by
  induction l generalizing init with
  | nil =>
    rcases h with h | h
    · exact h
    · cases h
  | cons a rest ih =>
    rw [List.foldl_cons]
    apply ih
    rcases h with h | h
    · exact Or.inl ((mem_setAdd init a x).mpr (Or.inl h))
    · rcases List.mem_cons.mp h with rfl | h
      · exact Or.inl ((mem_setAdd init x x).mpr (Or.inr rfl))
      · exact Or.inr h

/-- The family-relocation fold only rewrites the family locations of the
listed players. -/
theorem foldl_updFam_frame (policeLoc : Location) (l : List Player) (s : GameState) :
    (l.foldl (fun st x => updPlayer st x
        (fun ps => { ps with familyLocation := policeLoc })) s).outstandingRewardChoices =
      s.outstandingRewardChoices ∧
    (l.foldl (fun st x => updPlayer st x
        (fun ps => { ps with familyLocation := policeLoc })) s).tileStates = s.tileStates := by
  induction l generalizing s with
  | nil => exact ⟨rfl, rfl⟩
  | cons a rest ih =>
    rw [List.foldl_cons]
    exact ih (updPlayer s a _)

theorem foldl_updFam_notmem (policeLoc : Location) (l : List Player) (s : GameState)
    (q : Player) (hq : q ∉ l) :
    (l.foldl (fun st x => updPlayer st x
        (fun ps => { ps with familyLocation := policeLoc })) s).playerStates q =
      s.playerStates q := by
  induction l generalizing s with
  | nil => rfl
  | cons a rest ih =>
    rw [List.foldl_cons]
    rw [ih _ (fun hmem => hq (List.mem_cons.mpr (Or.inr hmem)))]
    have hne : q ≠ a := fun hqa => hq (List.mem_cons.mpr (Or.inl hqa))
    simp [updPlayer, hne]

theorem foldl_updFam_mem (policeLoc : Location) (l : List Player) (s : GameState)
    (q : Player) (hq : q ∈ l) :
    ((l.foldl (fun st x => updPlayer st x
        (fun ps => { ps with familyLocation := policeLoc })) s).playerStates q).familyLocation =
      policeLoc := by
  induction l generalizing s with
  | nil => cases hq
  | cons a rest ih =>
    rw [List.foldl_cons]
    by_cases hmem : q ∈ rest
    · exact ih _ hmem
    · rcases List.mem_cons.mp hq with rfl | h
      · rw [foldl_updFam_notmem _ _ _ _ hmem]
        simp [updPlayer]
      · exact absurd h hmem

/-- C6: at a facility other than the police station (and with no family
member acting), running the capture post-condition queues exactly one
reward choice per other player's family member present, and each of those
family members is moved from the facility to the police station; in
addition, while any reward choice is outstanding, every `YieldTurn`
attempt is rejected. -/
theorem family_capture_spec :
    (∀ (s : GameState) (t : Tile),
      s.familyMemberActing = false →
      s.locMap (currentPS s).location = some t →
      t ≠ Tile.policeStation →
      ∀ (policeLoc : Location), s.locInv Tile.policeStation = some policeLoc →
      ∀ s2, encounterFamilyMembers s = some s2 →
      (s2.outstandingRewardChoices = s.outstandingRewardChoices +
         ((s.tileStates t).familyMembers.filter (fun q => q ≠ currentPlayer s)).length ∧
       ∀ q : Player, q ≠ currentPlayer s → q ∈ (s.tileStates t).familyMembers →
         (q ∉ (s2.tileStates t).familyMembers ∧
          q ∈ (s2.tileStates Tile.policeStation).familyMembers ∧
          (s2.playerStates q).familyLocation = policeLoc))) ∧
    (∀ s : GameState, s.outstandingRewardChoices ≠ 0 →
      takeAction s PAction.yieldTurn = none) := by
  constructor
  · intro s t hFMA hLoc hT policeLoc hInv s2 hEnc
    unfold encounterFamilyMembers at hEnc
    rw [hFMA] at hEnc
    simp only [Bool.false_eq_true, if_false] at hEnc
    rw [hLoc] at hEnc
    simp only [] at hEnc
    rw [if_neg hT, hInv] at hEnc
    simp only [Option.some.injEq] at hEnc
    subst hEnc
    set p := currentPlayer s with hp
    set captured := (s.tileStates t).familyMembers.filter (fun q => q ≠ p) with hcap
    constructor
    · rw [(foldl_updFam_frame _ _ _).1]
      simp [updTile]
    · intro q hqne hqmem
      have hqcap : q ∈ captured := by
        rw [hcap]
        exact List.mem_filter.mpr ⟨hqmem, by simpa using hqne⟩
      refine ⟨?_, ?_, ?_⟩
      · rw [(foldl_updFam_frame _ _ _).2]
        simp only [updTile]
        rw [if_neg hT, if_pos trivial]
        intro hmem
        have hnot := (List.mem_filter.mp hmem).2
        rw [decide_eq_true_eq] at hnot
        exact hnot hqcap
      · rw [(foldl_updFam_frame _ _ _).2]
        simp only [updTile]
        rw [if_pos trivial, if_neg (fun h => hT h.symm)]
        exact foldl_setAdd_mem _ _ _ (Or.inr hqcap)
      · exact foldl_updFam_mem _ _ _ _ hqcap
  · intro s h
    unfold takeAction
    split
    · rfl
    · rw [if_pos ⟨h, rfl⟩]

/-- A three-player variant of the example setup. -/
def threeSetup : Setup :=
  { exSetup with players := [Player.red, Player.green, Player.blue] }

/-- Its initial state. -/
def initEx3 : GameState := (mkInitial threeSetup).getD emptyGame

/-- Red standing at the tea house while both green's and blue's family
members are there. -/
def wCap : GameState :=
  updTile (updPlayer initEx3 Player.red (fun ps => { ps with location := 2 }))
    Tile.teaHouse (fun ts => { ts with familyMembers := [Player.green, Player.blue] })

/-- The state after running the capture post-condition there. -/
def wCap2 : GameState := (encounterFamilyMembers wCap).getD emptyGame

/-- C6 witness: capturing green's and blue's family members queues 2
pending reward choices (green's family member lands at the police
station), and a yield from the resulting state is rejected. -/
theorem family_capture_witness :
    (wCap2.outstandingRewardChoices = wCap.outstandingRewardChoices +
       ((wCap.tileStates Tile.teaHouse).familyMembers.filter
         (fun q => q ≠ currentPlayer wCap)).length ∧
     (Player.green ∉ (wCap2.tileStates Tile.teaHouse).familyMembers ∧
      Player.green ∈ (wCap2.tileStates Tile.policeStation).familyMembers ∧
      (wCap2.playerStates Player.green).familyLocation = 7)) ∧
    takeAction wCap2 PAction.yieldTurn = none :=
  ⟨⟨(family_capture_spec.1 wCap Tile.teaHouse (by decide) (by decide) (by decide) 7
       (by decide) wCap2 (eq_some_getD _ emptyGame (by decide))).1,
    (family_capture_spec.1 wCap Tile.teaHouse (by decide) (by decide) (by decide) 7
       (by decide) wCap2 (eq_some_getD _ emptyGame (by decide))).2 Player.green
      (by decide) (by decide)⟩,
   family_capture_spec.2 wCap2 (by decide)⟩

/-- C5 witness: red's first yield (from phase 4, red is not the last
player, nobody has rubies) does not complete the example game, and the
example game's threshold instantiates the 2-player rule. -/
theorem yield_victory_witness :
    ((blueStep3.completed = true ↔
      (currentPlayer blueStep2 = blueStep2.players.getLastD Player.red ∧
       ∃ p ∈ blueStep2.players,
         blueStep2.victoryThreshold ≤ (blueStep2.playerStates p).rubies)) ∧
     blueStep3.turnIdx = (blueStep2.turnIdx + 1) % blueStep2.players.length ∧
     blueStep3.phase = 1) ∧
    initEx.victoryThreshold = if exSetup.players.length = 2 then 6 else 5 :=
  ⟨yield_victory_spec.1 blueStep2 blueStep3 takeAction_blueStep3,
   yield_victory_spec.2 exSetup initEx mkInitial_exSetup⟩

/-- C2 witness: every player of the example game starts with cart
capacity 2. -/
theorem wainwright_cart_max_witness :
    (initEx.playerStates Player.red).cartMax = 2 :=
  wainwright_cart_max_exceeds_five.1 exSetup initEx mkInitial_exSetup Player.red

/-! ### C1: the assistant flow invariant, proved over all reachable states -/

/-- The per-player assistant bookkeeping invariant: placed locations are
duplicate-free and backed by an assistant entry on the mapped tile, and
the stack plus the placed assistants account for 4 assistants, plus one
for the blue mosque tile. -/
def InvP (s : GameState) : Prop :=
  ∀ p : Player,
    (s.playerStates p).assistantLocations.Nodup ∧
    (∀ loc ∈ (s.playerStates p).assistantLocations,
       ∃ t, s.locMap loc = some t ∧ p ∈ (s.tileStates t).assistants) ∧
    (s.playerStates p).stackSize + (s.playerStates p).assistantLocations.length =
      4 + (if Good.blue ∈ (s.playerStates p).tiles then 1 else 0)

/-- The full invariant: an injective location map plus the per-player
bookkeeping. -/
def Inv (s : GameState) : Prop :=
  (∀ l1 l2 t, s.locMap l1 = some t → s.locMap l2 = some t → l1 = l2) ∧ InvP s

/-- `CoreEq s s2`: the invariant-relevant components of `s2` agree with
those of `s`. -/
def CoreEq (s s2 : GameState) : Prop :=
  s2.locMap = s.locMap ∧
  (∀ p, (s2.playerStates p).stackSize = (s.playerStates p).stackSize ∧
        (s2.playerStates p).assistantLocations = (s.playerStates p).assistantLocations ∧
        (s2.playerStates p).tiles = (s.playerStates p).tiles) ∧
  (∀ t, (s2.tileStates t).assistants = (s.tileStates t).assistants)

theorem coreEq_of_fields {s s2 : GameState} (h1 : s2.locMap = s.locMap)
    (h2 : s2.playerStates = s.playerStates) (h3 : s2.tileStates = s.tileStates) :
    CoreEq s s2 := by
  refine ⟨h1, fun p => ?_, fun t => ?_⟩
  · rw [h2]
    exact ⟨rfl, rfl, rfl⟩
  · rw [h3]

theorem coreEq_refl (s : GameState) : CoreEq s s :=
  coreEq_of_fields rfl rfl rfl

theorem coreEq_trans {s1 s2 s3 : GameState} (h12 : CoreEq s1 s2) (h23 : CoreEq s2 s3) :
    CoreEq s1 s3 := by
  obtain ⟨a1, a2, a3⟩ := h12
  obtain ⟨b1, b2, b3⟩ := h23
  refine ⟨b1.trans a1, fun p => ?_, fun t => (b3 t).trans (a3 t)⟩
  obtain ⟨x1, x2, x3⟩ := a2 p
  obtain ⟨y1, y2, y3⟩ := b2 p
  exact ⟨y1.trans x1, y2.trans x2, y3.trans x3⟩

theorem inv_of_coreEq {s s2 : GameState} (hc : CoreEq s s2) (h : Inv s) : Inv s2 := by
  obtain ⟨c1, c2, c3⟩ := hc
  obtain ⟨hinj, hP⟩ := h
  refine ⟨fun l1 l2 t h1 h2 => hinj l1 l2 t (c1 ▸ h1) (c1 ▸ h2), fun p => ?_⟩
  obtain ⟨p1, p2, p3⟩ := c2 p
  obtain ⟨n, corr, sum⟩ := hP p
  refine ⟨p2 ▸ n, fun loc hloc => ?_, ?_⟩
  · obtain ⟨t, hmt, hmem⟩ := corr loc (p2 ▸ hloc)
    exact ⟨t, c1 ▸ hmt, (c3 t) ▸ hmem⟩
  · rw [p1, p2, p3]
    exact sum

theorem coreEq_updPlayer (s : GameState) (p : Player) (f : PlayerState → PlayerState)
    (hf : ∀ ps, (f ps).stackSize = ps.stackSize ∧
      (f ps).assistantLocations = ps.assistantLocations ∧ (f ps).tiles = ps.tiles) :
    CoreEq s (updPlayer s p f) := by
  refine ⟨rfl, fun q => ?_, fun t => rfl⟩
  simp only [updPlayer]
  split
  · exact hf _
  · exact ⟨rfl, rfl, rfl⟩

theorem coreEq_updTile (s : GameState) (t : Tile) (f : TileState → TileState)
    (hf : ∀ ts, (f ts).assistants = ts.assistants) :
    CoreEq s (updTile s t f) := by
  refine ⟨rfl, fun q => ⟨rfl, rfl, rfl⟩, fun t2 => ?_⟩
  simp only [updTile]
  split
  · exact hf _
  · rfl

theorem gsDiscard_coreEq (s : GameState) (c : Card) (s2 : GameState)
    (h : gsDiscard s c = some s2) : CoreEq s s2 := by
  simp only [gsDiscard] at h
  split at h
  · split at h
    · rw [Option.some.injEq] at h
      subst h
      refine ⟨rfl, fun q => ?_, fun t => ?_⟩
      · simp only [updTile, updPlayer]
        split <;> exact ⟨rfl, rfl, rfl⟩
      · simp only [updTile, updPlayer]
        split <;> rfl
    · exact Option.noConfusion h
  · exact Option.noConfusion h

theorem gsSpend_coreEq (s : GameState) (n : Int) (s2 : GameState)
    (h : gsSpend s n = some s2) : CoreEq s s2 := by
  simp only [gsSpend] at h
  split at h
  · rw [Option.some.injEq] at h
    subst h
    exact coreEq_updPlayer _ _ _ (fun ps => ⟨rfl, rfl, rfl⟩)
  · exact Option.noConfusion h

theorem gsAcquire_coreEq (s : GameState) (g : Good) : CoreEq s (gsAcquire s g) := by
  simp only [gsAcquire]
  split
  · exact coreEq_refl s
  · exact coreEq_updPlayer _ _ _ (fun ps => ⟨rfl, rfl, rfl⟩)

theorem gsMaxCart_coreEq (s : GameState) (g : Good) (s2 : GameState)
    (h : gsMaxCart s g = some s2) : CoreEq s s2 := by
  simp only [gsMaxCart] at h
  split at h
  · exact Option.noConfusion h
  · rw [Option.some.injEq] at h
    subst h
    exact coreEq_updPlayer _ _ _ (fun ps => ⟨rfl, rfl, rfl⟩)

theorem gsTrade_coreEq (s : GameState) (goods : List (Good × Nat)) (s2 : GameState)
    (h : gsTrade s goods = some s2) : CoreEq s s2 := by
  simp only [gsTrade] at h
  split at h
  · rw [Option.some.injEq] at h
    subst h
    exact coreEq_updPlayer _ _ _ (fun ps => ⟨rfl, rfl, rfl⟩)
  · exact Option.noConfusion h

theorem gsChooseReward_coreEq (s : GameState) (choice : RewardChoice) :
    CoreEq s (gsChooseReward s choice) := by
  simp only [gsChooseReward]
  cases choice <;>
    exact ⟨rfl,
      fun q => by simp only [updPlayer]; split <;> exact ⟨rfl, rfl, rfl⟩,
      fun t => rfl⟩

theorem gsMoveTo_coreEq (s : GameState) (dest : Location) (s2 : GameState)
    (h : gsMoveTo s dest = some s2) : CoreEq s s2 := by
  simp only [gsMoveTo] at h
  split at h
  · exact Option.noConfusion h
  · split at h
    · exact Option.noConfusion h
    · split at h
      · exact Option.noConfusion h
      · rw [Option.some.injEq] at h
        subst h
        refine ⟨rfl, fun q => ?_, fun t => ?_⟩
        · simp only [updTile, updPlayer]
          split <;> exact ⟨rfl, rfl, rfl⟩
        · simp only [updTile, updPlayer]
          repeat' split
          all_goals rfl

theorem checkCompleted_coreEq (s : GameState) : CoreEq s (checkCompleted s) := by
  unfold checkCompleted
  split
  · exact coreEq_refl s
  · split
    · exact coreEq_of_fields rfl rfl rfl
    · exact coreEq_refl s

theorem skipPhase2_coreEq (s : GameState) (s2 : GameState)
    (h : skipPhase2 s = some s2) : CoreEq s s2 := by
  simp only [skipPhase2] at h
  split at h
  · rw [Option.some.injEq] at h
    subst h
    exact coreEq_of_fields rfl rfl rfl
  · exact Option.noConfusion h

theorem turnTakeAction_coreEq (s : GameState) (a : PAction) (s2 : GameState)
    (h : turnTakeAction s a = some s2) : CoreEq s s2 := by
  unfold turnTakeAction at h
  split at h
  · rw [Option.some.injEq] at h
    subst h
    cases a <;> exact coreEq_of_fields rfl rfl rfl
  · exact Option.noConfusion h

theorem payLoop_coreEq (p : Player) (l : List Player) (s : GameState) :
    CoreEq s (payLoop p s l) := by
  induction l generalizing s with
  | nil => exact coreEq_refl s
  | cons q rest ih =>
    unfold payLoop
    split
    · exact ih s
    · refine coreEq_trans ?_ (ih _)
      refine ⟨rfl, fun r => ?_, fun t => rfl⟩
      simp only [updPlayer]
      repeat' split
      all_goals exact ⟨rfl, rfl, rfl⟩

/-- A fold whose step never touches the invariant core keeps `CoreEq`. -/
theorem foldl_coreEq {α : Type} (f : GameState → α → GameState)
    (hf : ∀ s a, CoreEq s (f s a)) (l : List α) :
    ∀ s, CoreEq s (l.foldl f s) := by
  induction l with
  | nil => exact fun s => coreEq_refl s
  | cons a rest ih =>
    intro s
    rw [List.foldl_cons]
    exact coreEq_trans (hf s a) (ih _)

theorem encounterFamilyMembers_coreEq (s s2 : GameState)
    (h : encounterFamilyMembers s = some s2) : CoreEq s s2 := by
  unfold encounterFamilyMembers at h
  split at h
  · rw [Option.some.injEq] at h
    subst h
    exact coreEq_refl s
  · split at h
    · exact Option.noConfusion h
    · split at h
      · rw [Option.some.injEq] at h
        subst h
        exact coreEq_refl s
      · split at h
        · exact Option.noConfusion h
        · rw [Option.some.injEq] at h
          subst h
          refine coreEq_trans ?_ (foldl_coreEq _ ?_ _ _)
          · refine ⟨rfl, fun q => ⟨rfl, rfl, rfl⟩, fun tt => ?_⟩
            simp only [updTile]
            repeat' split
            all_goals rfl
          · intro st q
            exact coreEq_updPlayer st q _ (fun ps => ⟨rfl, rfl, rfl⟩)

theorem handlePostOffice_coreEq (s s2 : GameState)
    (h : handlePostOffice s = some s2) : CoreEq s s2 := by
  simp only [handlePostOffice] at h
  repeat' split at h
  any_goals exact Option.noConfusion h
  all_goals
    rw [Option.some.injEq] at h
    subst h
    refine coreEq_trans ?_ (coreEq_updPlayer _ _ _ (fun ps => ⟨rfl, rfl, rfl⟩))
    refine coreEq_trans ?_ (foldl_coreEq _ (fun st g => gsAcquire_coreEq st g) _ _)
    exact coreEq_updTile _ _ _ (fun ts => rfl)

theorem handleBlackMarket_coreEq (s : GameState) (good : Good) (roll : RollArg)
    (s2 : GameState) (h : handleBlackMarket s good roll = some s2) : CoreEq s s2 := by
  simp only [handleBlackMarket] at h
  repeat' split at h
  any_goals exact Option.noConfusion h
  all_goals
    rw [Option.some.injEq] at h
    subst h
    exact coreEq_trans (gsAcquire_coreEq s good)
      (foldl_coreEq _ (fun st x => gsAcquire_coreEq st Good.blue) _ _)

theorem handleMarket_coreEq (s : GameState) (goods newDemand : List (Good × Nat))
    (s2 : GameState) (h : handleMarket s goods newDemand = some s2) : CoreEq s s2 := by
  simp only [handleMarket] at h
  repeat' split at h
  any_goals exact Option.noConfusion h
  all_goals
    rw [Option.some.injEq] at h
    subst h
    refine coreEq_trans ?_ (coreEq_updTile _ _ _ (fun ts => rfl))
    refine coreEq_trans ?_ (coreEq_updPlayer _ _ _ (fun ps => ⟨rfl, rfl, rfl⟩))
    refine coreEq_trans ?_ (coreEq_updTile _ _ _ (fun ts => rfl))
    exact gsTrade_coreEq _ _ _ (by assumption)

theorem handleTeaHouse_coreEq (s : GameState) (call : Int) (roll : RollArg)
    (s2 : GameState) (h : handleTeaHouse s call roll = some s2) : CoreEq s s2 := by
  simp only [handleTeaHouse] at h
  repeat' split at h
  any_goals exact Option.noConfusion h
  all_goals
    rw [Option.some.injEq] at h
    subst h
    exact coreEq_updPlayer _ _ _ (fun ps => ⟨rfl, rfl, rfl⟩)

theorem handleSultansPalace_coreEq (s : GameState) (goods : List (Good × Nat))
    (s2 : GameState) (h : handleSultansPalace s goods = some s2) : CoreEq s s2 := by
  simp only [handleSultansPalace] at h
  repeat' split at h
  any_goals exact Option.noConfusion h
  all_goals
    rw [Option.some.injEq] at h
    subst h
    refine coreEq_trans ?_ (coreEq_updPlayer _ _ _ (fun ps => ⟨rfl, rfl, rfl⟩))
    refine coreEq_trans ?_ (coreEq_updTile _ _ _ (fun ts => rfl))
    exact gsTrade_coreEq _ _ _ (by assumption)

theorem handleWainwright_coreEq (s s2 : GameState)
    (h : handleWainwright s = some s2) : CoreEq s s2 := by
  simp only [handleWainwright] at h
  repeat' split at h
  any_goals exact Option.noConfusion h
  all_goals
    rw [Option.some.injEq] at h
    subst h
    repeat' refine coreEq_trans ?_ (coreEq_updPlayer _ _ _ (fun ps => ⟨rfl, rfl, rfl⟩))
    refine coreEq_trans ?_ (coreEq_updTile _ _ _ (fun ts => rfl))
    exact gsSpend_coreEq _ _ _ (by assumption)

theorem handleGemstoneDealer_coreEq (s s2 : GameState)
    (h : handleGemstoneDealer s = some s2) : CoreEq s s2 := by
  simp only [handleGemstoneDealer] at h
  repeat' split at h
  any_goals exact Option.noConfusion h
  all_goals
    rw [Option.some.injEq] at h
    subst h
    refine coreEq_trans ?_ (coreEq_updPlayer _ _ _ (fun ps => ⟨rfl, rfl, rfl⟩))
    refine coreEq_trans ?_ (coreEq_updTile _ _ _ (fun ts => rfl))
    exact gsSpend_coreEq _ _ _ (by assumption)

theorem handleCaravansary_coreEq (s : GameState) (gain1 gain2 : CarGain) (cost : Card)
    (s2 : GameState) (h : handleCaravansary s gain1 gain2 cost = some s2) : CoreEq s s2 := by
  simp only [handleCaravansary] at h
  repeat' split at h
  any_goals exact Option.noConfusion h
  all_goals
    refine coreEq_trans ?_ (gsDiscard_coreEq _ _ _ h)
    refine coreEq_trans ?_
      (foldl_coreEq (fun st c => updPlayer st (currentPlayer s) (fun x =>
          { x with hand := fun c2 => if c2 = c then x.hand c2 + 1 else x.hand c2 }))
        (fun st c => coreEq_updPlayer st (currentPlayer s) _ (fun ps => ⟨rfl, rfl, rfl⟩)) _ _)
    refine coreEq_trans ?_ (coreEq_updTile _ _ _ (fun ts => rfl))
    repeat' refine coreEq_trans ?_ (coreEq_updPlayer _ _ _ (fun ps => ⟨rfl, rfl, rfl⟩))
    exact coreEq_refl _

theorem setRemove_some [DecidableEq α] {xs ys : List α} {a : α}
    (h : setRemove xs a = some ys) : a ∈ xs ∧ ys = xs.erase a := by
  unfold setRemove at h
  split at h
  · rw [Option.some.injEq] at h
    exact ⟨by assumption, h.symm⟩
  · exact Option.noConfusion h

theorem setAdd_nodup [DecidableEq α] {xs : List α} {a : α} (hnd : xs.Nodup)
    (hna : a ∉ xs) : (setAdd xs a).Nodup := by
  rw [setAdd, if_neg hna]
  simp [List.nodup_append, hnd, hna]

theorem setAdd_length_of_notmem [DecidableEq α] {xs : List α} {a : α} (hna : a ∉ xs) :
    (setAdd xs a).length = xs.length + 1 := by
  rw [setAdd, if_neg hna, List.length_append]
  rfl

/-- Retrieving one placed assistant (tile entry erased, location erased,
stack incremented) preserves the invariant. -/
theorem inv_of_retrieval_shape (s w : GameState) (p : Player) (loc : Location) (t : Tile)
    (hI : Inv s)
    (hmap : s.locMap loc = some t)
    (hmem_loc : loc ∈ (s.playerStates p).assistantLocations)
    (hw_loc : w.locMap = s.locMap)
    (hw_stack : (w.playerStates p).stackSize = (s.playerStates p).stackSize + 1)
    (hw_locs : (w.playerStates p).assistantLocations =
      (s.playerStates p).assistantLocations.erase loc)
    (hw_tiles : (w.playerStates p).tiles = (s.playerStates p).tiles)
    (hw_ps_q : ∀ q, q ≠ p → w.playerStates q = s.playerStates q)
    (hw_ts_t : (w.tileStates t).assistants = (s.tileStates t).assistants.erase p)
    (hw_ts : ∀ t2, t2 ≠ t → (w.tileStates t2).assistants = (s.tileStates t2).assistants) :
    Inv w := by
  obtain ⟨hinj, hP⟩ := hI
  constructor
  · intro l1 l2 tt h1 h2
    rw [hw_loc] at h1 h2
    exact hinj _ _ _ h1 h2
  · intro q
    by_cases hq : q = p
    · subst hq
      obtain ⟨hnd, hcorr, hsum⟩ := hP q
      refine ⟨?_, ?_, ?_⟩
      · rw [hw_locs]
        exact hnd.erase _
      · intro loc2 hloc2
        rw [hw_locs] at hloc2
        have hne : loc2 ≠ loc := ((List.Nodup.mem_erase_iff hnd).mp hloc2).1
        have hmem2 := ((List.Nodup.mem_erase_iff hnd).mp hloc2).2
        obtain ⟨t3, hm3, ha3⟩ := hcorr loc2 hmem2
        refine ⟨t3, by rw [hw_loc]; exact hm3, ?_⟩
        by_cases ht3 : t3 = t
        · subst ht3
          exact absurd (hinj loc2 loc t3 hm3 hmap) hne
        · rw [hw_ts t3 ht3]
          exact ha3
      · rw [hw_stack, hw_locs, hw_tiles, List.length_erase_of_mem hmem_loc]
        have hlen := List.length_pos_of_mem hmem_loc
        omega
    · obtain ⟨hnd, hcorr, hsum⟩ := hP q
      rw [hw_ps_q q hq]
      refine ⟨hnd, ?_, hsum⟩
      intro loc2 hloc2
      obtain ⟨t3, hm3, ha3⟩ := hcorr loc2 hloc2
      refine ⟨t3, by rw [hw_loc]; exact hm3, ?_⟩
      by_cases ht3 : t3 = t
      · subst ht3
        rw [hw_ts_t]
        exact (List.mem_erase_of_ne hq).mpr ha3
      · rw [hw_ts t3 ht3]
        exact ha3

/-- Placing one stack assistant (tile entry added, location added, stack
decremented) preserves the invariant. -/
theorem inv_of_placement_shape (s w : GameState) (p : Player) (loc : Location) (t : Tile)
    (hI : Inv s)
    (hmap : s.locMap loc = some t)
    (hnotmem : p ∉ (s.tileStates t).assistants)
    (hstack : 0 < (s.playerStates p).stackSize)
    (hw_loc : w.locMap = s.locMap)
    (hw_stack : (w.playerStates p).stackSize = (s.playerStates p).stackSize - 1)
    (hw_locs : (w.playerStates p).assistantLocations =
      setAdd (s.playerStates p).assistantLocations loc)
    (hw_tiles : (w.playerStates p).tiles = (s.playerStates p).tiles)
    (hw_ps_q : ∀ q, q ≠ p → w.playerStates q = s.playerStates q)
    (hw_ts_t : (w.tileStates t).assistants = setAdd (s.tileStates t).assistants p)
    (hw_ts : ∀ t2, t2 ≠ t → (w.tileStates t2).assistants = (s.tileStates t2).assistants) :
    Inv w := by
  obtain ⟨hinj, hP⟩ := hI
  have hnotin : loc ∉ (s.playerStates p).assistantLocations := by
    intro hmem
    obtain ⟨t3, hm3, ha3⟩ := (hP p).2.1 loc hmem
    rw [hmap] at hm3
    rw [Option.some.injEq] at hm3
    exact hnotmem (hm3 ▸ ha3)
  constructor
  · intro l1 l2 tt h1 h2
    rw [hw_loc] at h1 h2
    exact hinj _ _ _ h1 h2
  · intro q
    by_cases hq : q = p
    · subst hq
      obtain ⟨hnd, hcorr, hsum⟩ := hP q
      refine ⟨?_, ?_, ?_⟩
      · rw [hw_locs]
        exact setAdd_nodup hnd hnotin
      · intro loc2 hloc2
        rw [hw_locs] at hloc2
        rcases (mem_setAdd _ _ _).mp hloc2 with hold | rfl
        · obtain ⟨t3, hm3, ha3⟩ := hcorr loc2 hold
          refine ⟨t3, by rw [hw_loc]; exact hm3, ?_⟩
          by_cases ht3 : t3 = t
          · subst ht3
            rw [hw_ts_t]
            exact (mem_setAdd _ _ _).mpr (Or.inr rfl)
          · rw [hw_ts t3 ht3]
            exact ha3
        · refine ⟨t, by rw [hw_loc]; exact hmap, ?_⟩
          rw [hw_ts_t]
          exact (mem_setAdd _ _ _).mpr (Or.inr rfl)
      · rw [hw_stack, hw_locs, hw_tiles, setAdd_length_of_notmem hnotin]
        omega
    · obtain ⟨hnd, hcorr, hsum⟩ := hP q
      rw [hw_ps_q q hq]
      refine ⟨hnd, ?_, hsum⟩
      intro loc2 hloc2
      obtain ⟨t3, hm3, ha3⟩ := hcorr loc2 hloc2
      refine ⟨t3, by rw [hw_loc]; exact hm3, ?_⟩
      by_cases ht3 : t3 = t
      · subst ht3
        rw [hw_ts_t]
        exact (mem_setAdd _ _ _).mpr (Or.inl ha3)
      · rw [hw_ts t3 ht3]
        exact ha3

/-- The mosque purchase: one extra stack assistant exactly when the blue
tile joins the owned set. -/
theorem inv_of_mosque_shape (s w : GameState) (p : Player) (g : Good)
    (hI : Inv s)
    (hnot : g ∉ (s.playerStates p).tiles)
    (hw_loc : w.locMap = s.locMap)
    (hw_stack : (w.playerStates p).stackSize =
      (s.playerStates p).stackSize + (if g = Good.blue then 1 else 0))
    (hw_locs : (w.playerStates p).assistantLocations =
      (s.playerStates p).assistantLocations)
    (hw_tiles : (w.playerStates p).tiles = setAdd (setAdd (s.playerStates p).tiles g) g)
    (hw_ps_q : ∀ q, q ≠ p →
      (w.playerStates q).stackSize = (s.playerStates q).stackSize ∧
      (w.playerStates q).assistantLocations = (s.playerStates q).assistantLocations ∧
      (w.playerStates q).tiles = (s.playerStates q).tiles)
    (hw_ts : ∀ t2, (w.tileStates t2).assistants = (s.tileStates t2).assistants) :
    Inv w := by
  obtain ⟨hinj, hP⟩ := hI
  constructor
  · intro l1 l2 tt h1 h2
    rw [hw_loc] at h1 h2
    exact hinj _ _ _ h1 h2
  · intro q
    by_cases hq : q = p
    · subst hq
      obtain ⟨hnd, hcorr, hsum⟩ := hP q
      refine ⟨hw_locs ▸ hnd, ?_, ?_⟩
      · intro loc2 hloc2
        rw [hw_locs] at hloc2
        obtain ⟨t3, hm3, ha3⟩ := hcorr loc2 hloc2
        exact ⟨t3, by rw [hw_loc]; exact hm3, by rw [hw_ts t3]; exact ha3⟩
      · rw [hw_stack, hw_locs, hw_tiles]
        have hblue : Good.blue ∈ setAdd (setAdd (s.playerStates q).tiles g) g ↔
            Good.blue ∈ (s.playerStates q).tiles ∨ Good.blue = g := by
          rw [mem_setAdd, mem_setAdd]
          constructor
          · rintro ((h | h) | h) <;> [exact Or.inl h; exact Or.inr h; exact Or.inr h]
          · rintro (h | h) <;> [exact Or.inl (Or.inl h); exact Or.inl (Or.inr h)]
        by_cases hg : g = Good.blue
        · subst hg
          rw [if_pos rfl]
          rw [if_neg (fun hmem => hnot hmem)] at hsum
          rw [if_pos (hblue.mpr (Or.inr rfl))]
          omega
        · rw [if_neg hg]
          have hiff : (Good.blue ∈ setAdd (setAdd (s.playerStates q).tiles g) g) ↔
              (Good.blue ∈ (s.playerStates q).tiles) := by
            rw [hblue]
            constructor
            · rintro (h | h)
              · exact h
              · exact absurd h.symm hg
            · exact Or.inl
          rw [if_congr hiff rfl rfl]
          omega
    · obtain ⟨hnd, hcorr, hsum⟩ := hP q
      obtain ⟨e1, e2, e3⟩ := hw_ps_q q hq
      refine ⟨e2 ▸ hnd, ?_, ?_⟩
      · intro loc2 hloc2
        rw [e2] at hloc2
        obtain ⟨t3, hm3, ha3⟩ := hcorr loc2 hloc2
        exact ⟨t3, by rw [hw_loc]; exact hm3, by rw [hw_ts t3]; exact ha3⟩
      · rw [e1, e2, e3]
        exact hsum

theorem updPlayer_self (s : GameState) (p : Player) (f : PlayerState → PlayerState) :
    (updPlayer s p f).playerStates p = f (s.playerStates p) := by
  simp [updPlayer]

theorem updPlayer_other (s : GameState) (p : Player) (f : PlayerState → PlayerState)
    (q : Player) (h : q ≠ p) : (updPlayer s p f).playerStates q = s.playerStates q := by
  simp [updPlayer, h]

theorem updTile_self (s : GameState) (t : Tile) (f : TileState → TileState) :
    (updTile s t f).tileStates t = f (s.tileStates t) := by
  simp [updTile]

theorem updTile_other (s : GameState) (t : Tile) (f : TileState → TileState)
    (t2 : Tile) (h : t2 ≠ t) : (updTile s t f).tileStates t2 = s.tileStates t2 := by
  simp [updTile, h]

theorem updTile_playerStates (s : GameState) (t : Tile) (f : TileState → TileState) :
    (updTile s t f).playerStates = s.playerStates := rfl

theorem updPlayer_tileStates (s : GameState) (p : Player) (f : PlayerState → PlayerState) :
    (updPlayer s p f).tileStates = s.tileStates := rfl

/-- The shared yellow-tile / return-assistant retrieval step preserves the
assistant-conservation invariant. -/
theorem retrieveAssistant_inv (s1 : GameState) (fromTile : Location) (s2 : GameState)
    (hI : Inv s1) (h : retrieveAssistant s1 fromTile = some s2) : Inv s2 := by
  simp only [retrieveAssistant] at h
  split at h
  · exact Option.noConfusion h
  · rename_i t2 hmap
    split at h
    · exact Option.noConfusion h
    · rename_i asst2 hremA
      split at h
      · exact Option.noConfusion h
      · rename_i locs2 hremL
        rw [Option.some.injEq] at h
        subst h
        obtain ⟨hmemA, hA⟩ := setRemove_some hremA
        have hremL2 : setRemove (s1.playerStates (currentPlayer s1)).assistantLocations
            fromTile = some locs2 := by
          rw [updPlayer_self] at hremL
          exact hremL
        obtain ⟨hmemL, hL⟩ := setRemove_some hremL2
        apply inv_of_retrieval_shape s1 _ (currentPlayer s1) fromTile t2 hI hmap hmemL
        · rfl
        · rw [updPlayer_self, updPlayer_self]
          rfl
        · rw [updPlayer_self, updPlayer_self]
          exact hL
        · rw [updPlayer_self, updPlayer_self]
          rfl
        · intro q hq
          rw [updPlayer_other _ _ _ _ hq, updPlayer_other _ _ _ _ hq]
          rfl
        · have : ((updPlayer (updPlayer (updTile s1 t2
              (fun x => { x with assistants := asst2 })) (currentPlayer s1)
              (fun x => { x with stackSize := x.stackSize + 1 })) (currentPlayer s1)
              (fun x => { x with assistantLocations := locs2 })).tileStates t2) =
              (updTile s1 t2 (fun x => { x with assistants := asst2 })).tileStates t2 := rfl
          rw [this, updTile_self]
          exact hA
        · intro t3 ht3
          have : ((updPlayer (updPlayer (updTile s1 t2
              (fun x => { x with assistants := asst2 })) (currentPlayer s1)
              (fun x => { x with stackSize := x.stackSize + 1 })) (currentPlayer s1)
              (fun x => { x with assistantLocations := locs2 })).tileStates t3) =
              (updTile s1 t2 (fun x => { x with assistants := asst2 })).tileStates t3 := rfl
          rw [this, updTile_other _ _ _ _ ht3]

/-- Each iteration of the fountain retrieval loop preserves the
assistant-conservation invariant. -/
theorem fountainLoop_inv (p : Player) (locs : List Location) (s2 : GameState) :
    ∀ s : GameState, Inv s → fountainLoop p s locs = some s2 → Inv s2 := by
  induction locs with
  | nil =>
    intro s hI h
    simp only [fountainLoop] at h
    rw [Option.some.injEq] at h
    subst h
    exact hI
  | cons loc rest ih =>
    intro s hI h
    simp only [fountainLoop] at h
    split at h
    · exact Option.noConfusion h
    · rename_i locs2 hremL
      split at h
      · exact Option.noConfusion h
      · rename_i t hmap
        split at h
        · exact Option.noConfusion h
        · rename_i asst2 hremA
          refine ih _ ?_ h
          rw [updPlayer_self] at hremL
          obtain ⟨hmemL, hL⟩ := setRemove_some hremL
          obtain ⟨hmemA, hA⟩ := setRemove_some hremA
          apply inv_of_retrieval_shape s _ p loc t hI hmap hmemL
          · rfl
          · rw [updTile_playerStates, updPlayer_self, updPlayer_self]
          · rw [updTile_playerStates, updPlayer_self, updPlayer_self]
            exact hL
          · rw [updTile_playerStates, updPlayer_self, updPlayer_self]
          · intro q hq
            rw [updTile_playerStates, updPlayer_other _ _ _ _ hq,
              updPlayer_other _ _ _ _ hq]
          · rw [updTile_self]
            exact hA
          · intro t3 ht3
            rw [updTile_other _ _ _ _ ht3]
            rfl

/-- `GameState._handle_fountain_action` preserves the
assistant-conservation invariant. -/
theorem handleFountain_inv (s : GameState) (locsOpt : Option (List Location))
    (s2 : GameState) (hI : Inv s) (h : handleFountain s locsOpt = some s2) : Inv s2 := by
  simp only [handleFountain] at h
  split at h
  · split at h
    · exact fountainLoop_inv _ _ _ _ hI h
    · exact Option.noConfusion h
  · exact fountainLoop_inv _ _ _ _ hI h

/-- The shared post-move assistant step preserves the
assistant-conservation invariant. -/
theorem assistantBlock_inv (s : GameState) (skipA : Bool) (s2 : GameState)
    (hI : Inv s) (h : assistantBlock s skipA = some s2) : Inv s2 := by
  simp only [assistantBlock] at h
  split at h
  · exact Option.noConfusion h
  · rename_i t hmap
    split at h
    · exact Option.noConfusion h
    · rename_i s3 hA
      have hs3 : Inv s3 := by
        split at hA
        · rw [Option.some.injEq] at hA
          subst hA
          exact hI
        · split at hA
          · rename_i hmem
            split at hA
            · exact Option.noConfusion hA
            · rename_i locs2 hremL
              rw [Option.some.injEq] at hA
              subst hA
              rw [updPlayer_self] at hremL
              obtain ⟨hmemL, hL⟩ := setRemove_some hremL
              apply inv_of_retrieval_shape s _ (currentPlayer s)
                (s.playerStates (currentPlayer s)).location t hI hmap hmemL
              · rfl
              · rw [updPlayer_self, updPlayer_self]
                rfl
              · rw [updPlayer_self, updPlayer_self]
                exact hL
              · rw [updPlayer_self, updPlayer_self]
                rfl
              · intro q hq
                rw [updPlayer_other _ _ _ _ hq, updPlayer_other _ _ _ _ hq]
                rfl
              · have : ((updPlayer (updPlayer (updTile s t
                    (fun x => { x with assistants := x.assistants.erase (currentPlayer s) }))
                    (currentPlayer s)
                    (fun x => { x with stackSize := x.stackSize + 1 })) (currentPlayer s)
                    (fun x => { x with assistantLocations := locs2 })).tileStates t) =
                    (updTile s t (fun x =>
                      { x with assistants := x.assistants.erase (currentPlayer s) })).tileStates
                      t := rfl
                rw [this, updTile_self]
              · intro t3 ht3
                have : ((updPlayer (updPlayer (updTile s t
                    (fun x => { x with assistants := x.assistants.erase (currentPlayer s) }))
                    (currentPlayer s)
                    (fun x => { x with stackSize := x.stackSize + 1 })) (currentPlayer s)
                    (fun x => { x with assistantLocations := locs2 })).tileStates t3) =
                    (updTile s t (fun x =>
                      { x with assistants := x.assistants.erase (currentPlayer s) })).tileStates
                      t3 := rfl
                rw [this, updTile_other _ _ _ _ ht3]
          · rename_i hnotmem
            split at hA
            · rename_i hstack
              rw [Option.some.injEq] at hA
              subst hA
              apply inv_of_placement_shape s _ (currentPlayer s)
                (s.playerStates (currentPlayer s)).location t hI hmap hnotmem hstack
              · rfl
              · rw [updTile_playerStates, updPlayer_self]
              · rw [updTile_playerStates, updPlayer_self]
              · rw [updTile_playerStates, updPlayer_self]
              · intro q hq
                rw [updTile_playerStates, updPlayer_other _ _ _ _ hq]
              · rw [updTile_self]
                rfl
              · intro t3 ht3
                rw [updTile_other _ _ _ _ ht3]
                rfl
            · split at hA
              · rw [Option.some.injEq] at hA
                subst hA
                exact hI
              · exact Option.noConfusion hA
      split at h
      · exact inv_of_coreEq (skipPhase2_coreEq _ _ h) hs3
      · rw [Option.some.injEq] at h
        subst h
        exact hs3

/-- The move-and-assistant flow preserves the assistant-conservation
invariant. -/
theorem moveFlow_inv (s0 : GameState) (dest : Location) (skip : Bool) (lo hi : Nat)
    (s2 : GameState) (hI : Inv s0) (h : moveFlow s0 dest skip lo hi = some s2) : Inv s2 := by
  simp only [moveFlow] at h
  split at h
  · split at h
    · exact Option.noConfusion h
    · rename_i s1 hmv
      exact assistantBlock_inv s1 skip s2 (inv_of_coreEq (gsMoveTo_coreEq s0 dest s1 hmv) hI) h
  · exact Option.noConfusion h

theorem pairStep_self (s : GameState) (p : Player) (g : Good) (pair : Good × Good) :
    ((pairStep s p g pair).playerStates p).stackSize = (s.playerStates p).stackSize ∧
    ((pairStep s p g pair).playerStates p).assistantLocations =
      (s.playerStates p).assistantLocations ∧
    ((pairStep s p g pair).playerStates p).tiles = setAdd (s.playerStates p).tiles g := by
  simp only [pairStep]
  split
  · rw [updPlayer_self, updPlayer_self]
    exact ⟨rfl, rfl, rfl⟩
  · rw [updPlayer_self]
    exact ⟨rfl, rfl, rfl⟩

theorem pairStep_other (s : GameState) (p : Player) (g : Good) (pair : Good × Good)
    (q : Player) (hq : q ≠ p) : (pairStep s p g pair).playerStates q = s.playerStates q := by
  simp only [pairStep]
  split
  · rw [updPlayer_other _ _ _ _ hq, updPlayer_other _ _ _ _ hq]
  · rw [updPlayer_other _ _ _ _ hq]

theorem pairStep_tileStates (s : GameState) (p : Player) (g : Good) (pair : Good × Good) :
    (pairStep s p g pair).tileStates = s.tileStates := by
  simp only [pairStep]
  split <;> rfl

theorem pairStep_locMap (s : GameState) (p : Player) (g : Good) (pair : Good × Good) :
    (pairStep s p g pair).locMap = s.locMap := by
  simp only [pairStep]
  split <;> rfl

/-- The mosque purchase preserves the amended assistant-conservation
invariant: the blue tile adds exactly one stack assistant. -/
theorem handleMosque_inv (s : GameState) (goodColor : Good) (s2 : GameState)
    (hI : Inv s) (h : handleMosque s goodColor = some s2) : Inv s2 := by
  simp only [handleMosque] at h
  split at h
  · exact Option.noConfusion h
  · rename_i t htloc
    split at h
    case _ avail _ =>
      split at h
      · exact Option.noConfusion h
      · rename_i hnot
        split at h
        · exact Option.noConfusion h
        · rename_i e hfind
          split at h
          · exact Option.noConfusion h
          · rename_i s1 htrade
            split at h
            · exact Option.noConfusion h
            · rename_i avail2 hmta
              rw [Option.some.injEq] at h
              subst h
              have hcs1 : CoreEq s s1 := gsTrade_coreEq s _ s1 htrade
              have hcu : CoreEq s (updTile s1 t
                  (fun x => { x with extra := TileExtra.mosque avail2 })) :=
                coreEq_trans hcs1 (coreEq_updTile s1 t _ (fun ts => rfl))
              have hIu : Inv (updTile s1 t
                  (fun x => { x with extra := TileExtra.mosque avail2 })) :=
                inv_of_coreEq hcu hI
              apply inv_of_mosque_shape
                (updTile s1 t (fun x => { x with extra := TileExtra.mosque avail2 })) _
                (currentPlayer s) goodColor hIu
              · rw [updTile_playerStates]
                rw [(hcs1.2.1 (currentPlayer s)).2.2]
                exact hnot
              · rw [pairStep_locMap, pairStep_locMap]
                by_cases hg : goodColor = Good.blue
                · rw [if_pos hg]
                  rfl
                · rw [if_neg hg]
              · rw [(pairStep_self _ _ _ _).1, (pairStep_self _ _ _ _).1]
                by_cases hg : goodColor = Good.blue
                · rw [if_pos hg, if_pos hg, updPlayer_self]
                · rw [if_neg hg, if_neg hg]
                  rfl
              · rw [(pairStep_self _ _ _ _).2.1, (pairStep_self _ _ _ _).2.1]
                by_cases hg : goodColor = Good.blue
                · rw [if_pos hg, updPlayer_self]
                · rw [if_neg hg]
              · rw [(pairStep_self _ _ _ _).2.2, (pairStep_self _ _ _ _).2.2]
                by_cases hg : goodColor = Good.blue
                · rw [if_pos hg, updPlayer_self]
                · rw [if_neg hg]
              · intro q hq
                rw [pairStep_other _ _ _ _ _ hq, pairStep_other _ _ _ _ _ hq]
                by_cases hg : goodColor = Good.blue
                · rw [if_pos hg, updPlayer_other _ _ _ _ hq]
                  exact ⟨rfl, rfl, rfl⟩
                · rw [if_neg hg]
                  exact ⟨rfl, rfl, rfl⟩
              · intro t2
                rw [pairStep_tileStates, pairStep_tileStates]
                by_cases hg : goodColor = Good.blue
                · rw [if_pos hg]
                  rfl
                · rw [if_neg hg]
    case _ =>
      exact Option.noConfusion h

theorem coreEq_orc {s X : GameState} {n : Nat} (h : CoreEq s X) :
    CoreEq s { X with outstandingRewardChoices := n } := h

theorem coreEq_fma {s X : GameState} {b : Bool} (h : CoreEq s X) :
    CoreEq s { X with familyMemberActing := b } := h

set_option maxHeartbeats 3200000 in
/-- Every dispatcher step preserves the amended assistant-conservation
invariant. -/
theorem takeAction_inv (a : PAction) :
    ∀ s s2 : GameState, Inv s → takeAction s a = some s2 → Inv s2 := by
  induction a with
  | yieldTurn =>
    intro s s2 hI h
    unfold takeAction at h
    split at h
    · exact Option.noConfusion h
    · split at h
      · exact Option.noConfusion h
      · simp only [] at h
        exact inv_of_coreEq
          (coreEq_trans (checkCompleted_coreEq s) (turnTakeAction_coreEq _ _ _ h)) hI
  | move dest skip =>
    intro s s2 hI h
    unfold takeAction at h
    split at h
    · exact Option.noConfusion h
    · split at h
      · exact Option.noConfusion h
      · simp only [] at h
        split at h
        · exact Option.noConfusion h
        · rename_i s0 hturn
          exact moveFlow_inv s0 dest skip 1 2 s2
            (inv_of_coreEq (turnTakeAction_coreEq _ _ _ hturn) hI) h
  | pay =>
    intro s s2 hI h
    unfold takeAction at h
    split at h
    · exact Option.noConfusion h
    · split at h
      · exact Option.noConfusion h
      · simp only [] at h
        split at h
        · exact Option.noConfusion h
        · rename_i s0 hturn
          split at h
          · exact Option.noConfusion h
          · split at h
            · rw [Option.some.injEq] at h
              subst h
              exact inv_of_coreEq
                (coreEq_trans (turnTakeAction_coreEq _ _ _ hturn) (payLoop_coreEq _ _ _)) hI
            · exact Option.noConfusion h
  | chooseReward choice =>
    intro s s2 hI h
    unfold takeAction at h
    split at h
    · exact Option.noConfusion h
    · split at h
      · exact Option.noConfusion h
      · simp only [] at h
        split at h
        · rw [Option.some.injEq] at h
          subst h
          exact inv_of_coreEq (gsChooseReward_coreEq s choice) hI
        · exact Option.noConfusion h
  | encounterSmuggler gain cost roll =>
    intro s s2 hI h
    unfold takeAction at h
    split at h
    · exact Option.noConfusion h
    · split at h
      · exact Option.noConfusion h
      · simp only [] at h
        split at h
        · exact Option.noConfusion h
        · rename_i s0 hturn
          split at h
          · exact Option.noConfusion h
          · rename_i t hloc
            split at h
            · split at h
              · exact Option.noConfusion h
              · rename_i s2x heq
                split at h
                · exact Option.noConfusion h
                · rename_i loc2 hroll
                  split at h
                  · exact Option.noConfusion h
                  · rename_i t2 hm2
                    rw [Option.some.injEq] at h
                    subst h
                    cases cost with
                    | pay =>
                      refine inv_of_coreEq ?_ hI
                      refine coreEq_trans ?_ (coreEq_updTile _ _ _ (fun ts => rfl))
                      refine coreEq_trans ?_ (coreEq_updTile _ _ _ (fun ts => rfl))
                      refine coreEq_trans ?_ (gsSpend_coreEq _ _ _ heq)
                      refine coreEq_trans (turnTakeAction_coreEq _ _ _ hturn) ?_
                      exact coreEq_updPlayer _ _ _ (fun ps => ⟨rfl, rfl, rfl⟩)
                    | good g =>
                      refine inv_of_coreEq ?_ hI
                      refine coreEq_trans ?_ (coreEq_updTile _ _ _ (fun ts => rfl))
                      refine coreEq_trans ?_ (coreEq_updTile _ _ _ (fun ts => rfl))
                      refine coreEq_trans ?_ (gsTrade_coreEq _ _ _ heq)
                      refine coreEq_trans (turnTakeAction_coreEq _ _ _ hturn) ?_
                      exact coreEq_updPlayer _ _ _ (fun ps => ⟨rfl, rfl, rfl⟩)
            · exact Option.noConfusion h
  | encounterGovernor gain cost roll =>
    intro s s2 hI h
    unfold takeAction at h
    split at h
    · exact Option.noConfusion h
    · split at h
      · exact Option.noConfusion h
      · simp only [] at h
        split at h
        · exact Option.noConfusion h
        · rename_i s0 hturn
          split at h
          · exact Option.noConfusion h
          · rename_i t hloc
            split at h
            · split at h
              · exact Option.noConfusion h
              · rename_i s2x heq
                split at h
                · exact Option.noConfusion h
                · rename_i loc2 hroll
                  split at h
                  · exact Option.noConfusion h
                  · rename_i t2 hm2
                    rw [Option.some.injEq] at h
                    subst h
                    cases cost with
                    | pay =>
                      refine inv_of_coreEq ?_ hI
                      refine coreEq_trans ?_ (coreEq_updTile _ _ _ (fun ts => rfl))
                      refine coreEq_trans ?_ (coreEq_updTile _ _ _ (fun ts => rfl))
                      refine coreEq_trans ?_ (gsSpend_coreEq _ _ _ heq)
                      refine coreEq_trans (turnTakeAction_coreEq _ _ _ hturn) ?_
                      exact coreEq_updPlayer _ _ _ (fun ps => ⟨rfl, rfl, rfl⟩)
                    | card c =>
                      refine inv_of_coreEq ?_ hI
                      refine coreEq_trans ?_ (coreEq_updTile _ _ _ (fun ts => rfl))
                      refine coreEq_trans ?_ (coreEq_updTile _ _ _ (fun ts => rfl))
                      refine coreEq_trans ?_ (gsDiscard_coreEq _ _ _ heq)
                      refine coreEq_trans (turnTakeAction_coreEq _ _ _ hturn) ?_
                      exact coreEq_updPlayer _ _ _ (fun ps => ⟨rfl, rfl, rfl⟩)
            · exact Option.noConfusion h
  | skipTile =>
    intro s s2 hI h
    unfold takeAction at h
    split at h
    · exact Option.noConfusion h
    · split at h
      · exact Option.noConfusion h
      · simp only [] at h
        split at h
        · exact Option.noConfusion h
        · rename_i s0 hturn
          split at h
          · exact Option.noConfusion h
          · exact inv_of_coreEq (coreEq_trans (turnTakeAction_coreEq _ _ _ hturn)
              (encounterFamilyMembers_coreEq _ _ h)) hI
  | genericTile =>
    intro s s2 hI h
    unfold takeAction at h
    split at h
    · exact Option.noConfusion h
    · split at h
      · exact Option.noConfusion h
      · simp only [] at h
        split at h
        · exact Option.noConfusion h
        · rename_i s0 hturn
          split at h
          · exact Option.noConfusion h
          · rename_i t hloc
            split at h
            · exact Option.noConfusion h
            · rename_i s1x heff
              split at heff
              · exact inv_of_coreEq (coreEq_trans (turnTakeAction_coreEq _ _ _ hturn)
                  (coreEq_trans (handlePostOffice_coreEq _ _ heff)
                    (encounterFamilyMembers_coreEq _ _ h))) hI
              · exact inv_of_coreEq (coreEq_trans (turnTakeAction_coreEq _ _ _ hturn)
                  (coreEq_trans (gsMaxCart_coreEq _ _ _ heff)
                    (encounterFamilyMembers_coreEq _ _ h))) hI
              · exact inv_of_coreEq (coreEq_trans (turnTakeAction_coreEq _ _ _ hturn)
                  (coreEq_trans (gsMaxCart_coreEq _ _ _ heff)
                    (encounterFamilyMembers_coreEq _ _ h))) hI
              · exact inv_of_coreEq (encounterFamilyMembers_coreEq _ _ h)
                  (handleFountain_inv _ _ _
                    (inv_of_coreEq (turnTakeAction_coreEq _ _ _ hturn) hI) heff)
              · exact inv_of_coreEq (coreEq_trans (turnTakeAction_coreEq _ _ _ hturn)
                  (coreEq_trans (gsMaxCart_coreEq _ _ _ heff)
                    (encounterFamilyMembers_coreEq _ _ h))) hI
              · exact inv_of_coreEq (coreEq_trans (turnTakeAction_coreEq _ _ _ hturn)
                  (coreEq_trans (handleWainwright_coreEq _ _ heff)
                    (encounterFamilyMembers_coreEq _ _ h))) hI
              · exact inv_of_coreEq (coreEq_trans (turnTakeAction_coreEq _ _ _ hturn)
                  (coreEq_trans (handleGemstoneDealer_coreEq _ _ heff)
                    (encounterFamilyMembers_coreEq _ _ h))) hI
              · exact Option.noConfusion heff
  | greenTile good =>
    intro s s2 hI h
    unfold takeAction at h
    split at h
    · exact Option.noConfusion h
    · split at h
      · exact Option.noConfusion h
      · simp only [] at h
        split at h
        · exact Option.noConfusion h
        · rename_i s0 hturn
          split at h
          · exact Option.noConfusion h
          · rename_i t hloc
            split at h
            · split at h
              · exact Option.noConfusion h
              · rename_i wgood hwg
                split at h
                · exact Option.noConfusion h
                · rename_i s1 hmc
                  split at h
                  · exact Option.noConfusion h
                  · rename_i s2x hsp
                    refine inv_of_coreEq ?_ hI
                    refine coreEq_trans ?_ (encounterFamilyMembers_coreEq _ _ h)
                    refine coreEq_trans ?_ (gsAcquire_coreEq _ _)
                    refine coreEq_trans ?_ (gsSpend_coreEq _ _ _ hsp)
                    exact coreEq_trans (turnTakeAction_coreEq _ _ _ hturn)
                      (gsMaxCart_coreEq _ _ _ hmc)
            · exact Option.noConfusion h
  | redTileAct ir fr m =>
    intro s s2 hI h
    unfold takeAction at h
    split at h
    · exact Option.noConfusion h
    · split at h
      · exact Option.noConfusion h
      · simp only [] at h
        split at h
        · exact Option.noConfusion h
        · exact Option.noConfusion h
  | yellowTile fromTile =>
    intro s s2 hI h
    unfold takeAction at h
    split at h
    · exact Option.noConfusion h
    · split at h
      · exact Option.noConfusion h
      · simp only [] at h
        split at h
        · exact Option.noConfusion h
        · rename_i s0 hturn
          split at h
          · exact Option.noConfusion h
          · split at h
            · split at h
              · exact Option.noConfusion h
              · rename_i s1 hsp
                exact retrieveAssistant_inv s1 fromTile s2
                  (inv_of_coreEq (coreEq_trans (turnTakeAction_coreEq _ _ _ hturn)
                    (gsSpend_coreEq _ _ _ hsp)) hI) h
            · exact Option.noConfusion h
  | caravansary gain1 gain2 cost =>
    intro s s2 hI h
    unfold takeAction at h
    split at h
    · exact Option.noConfusion h
    · split at h
      · exact Option.noConfusion h
      · simp only [] at h
        split at h
        · exact Option.noConfusion h
        · rename_i s0 hturn
          split at h
          · exact Option.noConfusion h
          · rename_i s1x hc
            exact inv_of_coreEq (coreEq_trans (turnTakeAction_coreEq _ _ _ hturn)
              (coreEq_trans (handleCaravansary_coreEq _ _ _ _ _ hc)
                (encounterFamilyMembers_coreEq _ _ h))) hI
  | blackMarket good roll =>
    intro s s2 hI h
    unfold takeAction at h
    split at h
    · exact Option.noConfusion h
    · split at h
      · exact Option.noConfusion h
      · simp only [] at h
        split at h
        · exact Option.noConfusion h
        · rename_i s0 hturn
          split at h
          · exact Option.noConfusion h
          · rename_i s1x hb
            exact inv_of_coreEq (coreEq_trans (turnTakeAction_coreEq _ _ _ hturn)
              (coreEq_trans (handleBlackMarket_coreEq _ _ _ _ hb)
                (encounterFamilyMembers_coreEq _ _ h))) hI
  | teaHouse call roll =>
    intro s s2 hI h
    unfold takeAction at h
    split at h
    · exact Option.noConfusion h
    · split at h
      · exact Option.noConfusion h
      · simp only [] at h
        split at h
        · exact Option.noConfusion h
        · rename_i s0 hturn
          split at h
          · exact Option.noConfusion h
          · rename_i s1x ht
            exact inv_of_coreEq (coreEq_trans (turnTakeAction_coreEq _ _ _ hturn)
              (coreEq_trans (handleTeaHouse_coreEq _ _ _ _ ht)
                (encounterFamilyMembers_coreEq _ _ h))) hI
  | market goods newDemand =>
    intro s s2 hI h
    unfold takeAction at h
    split at h
    · exact Option.noConfusion h
    · split at h
      · exact Option.noConfusion h
      · simp only [] at h
        split at h
        · exact Option.noConfusion h
        · rename_i s0 hturn
          split at h
          · exact Option.noConfusion h
          · rename_i s1x hm
            exact inv_of_coreEq (coreEq_trans (turnTakeAction_coreEq _ _ _ hturn)
              (coreEq_trans (handleMarket_coreEq _ _ _ _ hm)
                (encounterFamilyMembers_coreEq _ _ h))) hI
  | sultansPalace goods =>
    intro s s2 hI h
    unfold takeAction at h
    split at h
    · exact Option.noConfusion h
    · split at h
      · exact Option.noConfusion h
      · simp only [] at h
        split at h
        · exact Option.noConfusion h
        · rename_i s0 hturn
          split at h
          · exact Option.noConfusion h
          · rename_i s1x hsp
            exact inv_of_coreEq (coreEq_trans (turnTakeAction_coreEq _ _ _ hturn)
              (coreEq_trans (handleSultansPalace_coreEq _ _ _ hsp)
                (encounterFamilyMembers_coreEq _ _ h))) hI
  | mosque goodColor =>
    intro s s2 hI h
    unfold takeAction at h
    split at h
    · exact Option.noConfusion h
    · split at h
      · exact Option.noConfusion h
      · simp only [] at h
        split at h
        · exact Option.noConfusion h
        · rename_i s0 hturn
          split at h
          · exact Option.noConfusion h
          · split at h
            · exact Option.noConfusion h
            · rename_i s1x hm
              exact inv_of_coreEq (encounterFamilyMembers_coreEq _ _ h)
                (handleMosque_inv _ _ _
                  (inv_of_coreEq (turnTakeAction_coreEq _ _ _ hturn) hI) hm)
  | fountain locs =>
    intro s s2 hI h
    unfold takeAction at h
    split at h
    · exact Option.noConfusion h
    · split at h
      · exact Option.noConfusion h
      · simp only [] at h
        split at h
        · exact Option.noConfusion h
        · rename_i s0 hturn
          split at h
          · exact Option.noConfusion h
          · split at h
            · exact Option.noConfusion h
            · rename_i s1x hf
              exact inv_of_coreEq (encounterFamilyMembers_coreEq _ _ h)
                (handleFountain_inv _ _ _
                  (inv_of_coreEq (turnTakeAction_coreEq _ _ _ hturn) hI) hf)
  | oneGoodCard good =>
    intro s s2 hI h
    unfold takeAction at h
    split at h
    · exact Option.noConfusion h
    · split at h
      · exact Option.noConfusion h
      · simp only [] at h
        split at h
        · exact Option.noConfusion h
        · rename_i s0 hturn
          split at h
          · exact Option.noConfusion h
          · split at h
            · exact Option.noConfusion h
            · rename_i s1 hd
              rw [Option.some.injEq] at h
              subst h
              exact inv_of_coreEq (coreEq_trans (turnTakeAction_coreEq _ _ _ hturn)
                (coreEq_trans (gsDiscard_coreEq _ _ _ hd) (gsAcquire_coreEq _ _))) hI
  | extraMoveCard dest skip =>
    intro s s2 hI h
    unfold takeAction at h
    split at h
    · exact Option.noConfusion h
    · split at h
      · exact Option.noConfusion h
      · simp only [] at h
        split at h
        · exact Option.noConfusion h
        · rename_i s0 hturn
          split at h
          · exact Option.noConfusion h
          · rename_i sd hd
            exact moveFlow_inv sd dest skip 3 4 s2
              (inv_of_coreEq (coreEq_trans (turnTakeAction_coreEq _ _ _ hturn)
                (gsDiscard_coreEq _ _ _ hd)) hI) h
  | noMoveCard skip =>
    intro s s2 hI h
    unfold takeAction at h
    split at h
    · exact Option.noConfusion h
    · split at h
      · exact Option.noConfusion h
      · simp only [] at h
        split at h
        · exact Option.noConfusion h
        · rename_i s0 hturn
          split at h
          · exact Option.noConfusion h
          · rename_i sd hd
            exact assistantBlock_inv sd skip s2
              (inv_of_coreEq (coreEq_trans (turnTakeAction_coreEq _ _ _ hturn)
                (gsDiscard_coreEq _ _ _ hd)) hI) h
  | fiveLiraCard =>
    intro s s2 hI h
    unfold takeAction at h
    split at h
    · exact Option.noConfusion h
    · split at h
      · exact Option.noConfusion h
      · simp only [] at h
        split at h
        · exact Option.noConfusion h
        · rename_i s0 hturn
          split at h
          · exact Option.noConfusion h
          · split at h
            · exact Option.noConfusion h
            · rename_i s1 hd
              rw [Option.some.injEq] at h
              subst h
              exact inv_of_coreEq (coreEq_trans (turnTakeAction_coreEq _ _ _ hturn)
                (coreEq_trans (gsDiscard_coreEq _ _ _ hd)
                  (coreEq_updPlayer _ _ _ (fun ps => ⟨rfl, rfl, rfl⟩)))) hI
  | returnAssistantCard fromTile =>
    intro s s2 hI h
    unfold takeAction at h
    split at h
    · exact Option.noConfusion h
    · split at h
      · exact Option.noConfusion h
      · simp only [] at h
        split at h
        · exact Option.noConfusion h
        · rename_i s0 hturn
          split at h
          · exact Option.noConfusion h
          · split at h
            · exact Option.noConfusion h
            · rename_i s1 hd
              exact retrieveAssistant_inv s1 fromTile s2
                (inv_of_coreEq (coreEq_trans (turnTakeAction_coreEq _ _ _ hturn)
                  (gsDiscard_coreEq _ _ _ hd)) hI) h
  | arrestFamilyCard reward =>
    intro s s2 hI h
    unfold takeAction at h
    split at h
    · exact Option.noConfusion h
    · split at h
      · exact Option.noConfusion h
      · simp only [] at h
        split at h
        · exact Option.noConfusion h
        · rename_i s0 hturn
          split at h
          · exact Option.noConfusion h
          · split at h
            · exact Option.noConfusion h
            · rename_i policeLoc hpl
              split at h
              · exact Option.noConfusion h
              · split at h
                · exact Option.noConfusion h
                · rename_i s1 hd
                  split at h
                  · exact Option.noConfusion h
                  · rename_i tFam hfam
                    split at h
                    · exact Option.noConfusion h
                    · rename_i fm2 hrem
                      rw [Option.some.injEq] at h
                      subst h
                      refine inv_of_coreEq ?_ hI
                      refine coreEq_trans ?_ (gsChooseReward_coreEq _ _)
                      apply coreEq_orc
                      refine coreEq_trans ?_ (coreEq_updPlayer _ _ _ (fun ps => ⟨rfl, rfl, rfl⟩))
                      refine coreEq_trans ?_ (coreEq_updTile _ _ _ (fun ts => rfl))
                      refine coreEq_trans ?_ (coreEq_updTile _ _ _ (fun ts => rfl))
                      exact coreEq_trans (turnTakeAction_coreEq _ _ _ hturn)
                        (gsDiscard_coreEq _ _ _ hd)
  | sellAny goods newDemand =>
    intro s s2 hI h
    unfold takeAction at h
    split at h
    · exact Option.noConfusion h
    · split at h
      · exact Option.noConfusion h
      · simp only [] at h
        split at h
        · exact Option.noConfusion h
        · rename_i s0 hturn
          split at h
          · exact Option.noConfusion h
          · rename_i t hloc
            split at h
            · exact Option.noConfusion h
            · rename_i s1 hd
              split at h
              · split at h
                · exact Option.noConfusion h
                · rename_i s2x htr
                  split at h
                  case _ oneCost dmd exp _ =>
                    split at h
                    · exact Option.noConfusion h
                    · rename_i d2 hsd
                      refine inv_of_coreEq ?_ hI
                      refine coreEq_trans ?_ (encounterFamilyMembers_coreEq _ _ h)
                      refine coreEq_trans ?_ (coreEq_updTile _ _ _ (fun ts => rfl))
                      refine coreEq_trans ?_ (coreEq_updPlayer _ _ _ (fun ps => ⟨rfl, rfl, rfl⟩))
                      refine coreEq_trans ?_ (gsTrade_coreEq _ _ _ htr)
                      exact coreEq_trans (turnTakeAction_coreEq _ _ _ hturn)
                        (gsDiscard_coreEq _ _ _ hd)
                  case _ =>
                    exact Option.noConfusion h
              · exact Option.noConfusion h
  | doubleCard card a1 a2 ih1 ih2 =>
    intro s s2 hI h
    unfold takeAction at h
    split at h
    · exact Option.noConfusion h
    · split at h
      · exact Option.noConfusion h
      · simp only [] at h
        split at h
        · exact Option.noConfusion h
        · rename_i s0 hturn
          split at h
          · exact Option.noConfusion h
          · split at h
            · exact Option.noConfusion h
            · rename_i s1 hd
              split at h
              · split at h
                case _ goods1 =>
                  split at h
                  · exact Option.noConfusion h
                  · rename_i s2x hp1
                    split at h
                    case _ goods2 =>
                      split at h
                      · exact Option.noConfusion h
                      · rename_i s3x hp2
                        exact inv_of_coreEq (coreEq_trans (turnTakeAction_coreEq _ _ _ hturn)
                          (coreEq_trans (gsDiscard_coreEq _ _ _ hd)
                            (coreEq_trans (handleSultansPalace_coreEq _ _ _ hp1)
                              (coreEq_trans (handleSultansPalace_coreEq _ _ _ hp2)
                                (encounterFamilyMembers_coreEq _ _ h))))) hI
                    case _ =>
                      exact Option.noConfusion h
                case _ =>
                  exact Option.noConfusion h
              · split at h
                case _ =>
                  split at h
                  · split at h
                    · exact Option.noConfusion h
                    · rename_i s2x hp1
                      split at h
                      · exact Option.noConfusion h
                      · rename_i s3x hp2
                        exact inv_of_coreEq (coreEq_trans (turnTakeAction_coreEq _ _ _ hturn)
                          (coreEq_trans (gsDiscard_coreEq _ _ _ hd)
                            (coreEq_trans (handlePostOffice_coreEq _ _ hp1)
                              (coreEq_trans (handlePostOffice_coreEq _ _ hp2)
                                (encounterFamilyMembers_coreEq _ _ h))))) hI
                  · split at h
                    · exact Option.noConfusion h
                    · rename_i s2x hp1
                      split at h
                      · exact Option.noConfusion h
                      · rename_i s3x hp2
                        exact inv_of_coreEq (coreEq_trans (turnTakeAction_coreEq _ _ _ hturn)
                          (coreEq_trans (gsDiscard_coreEq _ _ _ hd)
                            (coreEq_trans (handleGemstoneDealer_coreEq _ _ hp1)
                              (coreEq_trans (handleGemstoneDealer_coreEq _ _ hp2)
                                (encounterFamilyMembers_coreEq _ _ h))))) hI
                  · exact Option.noConfusion h
                case _ =>
                  exact Option.noConfusion h
  | policeStation dest act ih =>
    intro s s2 hI h
    unfold takeAction at h
    split at h
    · exact Option.noConfusion h
    · split at h
      · exact Option.noConfusion h
      · simp only [] at h
        split at h
        · exact Option.noConfusion h
        · rename_i s0 hturn
          split at h
          · exact Option.noConfusion h
          · rename_i t hloc
            split at h
            · split at h
              · split at h
                · exact Option.noConfusion h
                · split at h
                  · exact Option.noConfusion h
                  · rename_i tDest hdest
                    split at h
                    · exact Option.noConfusion h
                    · rename_i occ2 hocc
                      split at h
                      · exact Option.noConfusion h
                      · rename_i s8 hact
                        split at h
                        · exact Option.noConfusion h
                        · rename_i occ3 hocc3
                          split at h
                          · exact Option.noConfusion h
                          · rename_i psLoc hinv
                            have hI8 : Inv s8 := by
                              refine ih _ _ ?_ hact
                              refine inv_of_coreEq ?_
                                (inv_of_coreEq (turnTakeAction_coreEq _ _ _ hturn) hI)
                              apply coreEq_fma
                              refine coreEq_trans ?_
                                (coreEq_updPlayer _ _ _ (fun ps => ⟨rfl, rfl, rfl⟩))
                              refine coreEq_trans ?_ (coreEq_updTile _ _ _ (fun ts => rfl))
                              refine coreEq_trans ?_ (coreEq_updTile _ _ _ (fun ts => rfl))
                              refine coreEq_trans ?_
                                (coreEq_updPlayer _ _ _ (fun ps => ⟨rfl, rfl, rfl⟩))
                              refine coreEq_trans ?_ (coreEq_updTile _ _ _ (fun ts => rfl))
                              refine coreEq_trans ?_ (coreEq_updTile _ _ _ (fun ts => rfl))
                              exact coreEq_refl _
                            refine inv_of_coreEq ?_ hI8
                            refine coreEq_trans ?_ (encounterFamilyMembers_coreEq _ _ h)
                            refine coreEq_trans ?_
                              (coreEq_updPlayer _ _ _ (fun ps => ⟨rfl, rfl, rfl⟩))
                            refine coreEq_trans ?_ (coreEq_updTile _ _ _ (fun ts => rfl))
                            refine coreEq_trans ?_ (coreEq_updTile _ _ _ (fun ts => rfl))
                            apply coreEq_fma
                            exact coreEq_refl _
              · exact Option.noConfusion h
            · exact Option.noConfusion h

theorem mkLocMap_inj (pairs : List (Location × Tile))
    (hnd : (pairs.map (fun e => e.2)).Nodup) (l1 l2 : Location) (t : Tile)
    (h1 : mkLocMap pairs l1 = some t) (h2 : mkLocMap pairs l2 = some t) : l1 = l2 := by
  simp only [mkLocMap, Option.map_eq_some'] at h1 h2
  obtain ⟨e1, hf1, he1⟩ := h1
  obtain ⟨e2, hf2, he2⟩ := h2
  have hm1 := List.mem_of_find?_eq_some hf1
  have hm2 := List.mem_of_find?_eq_some hf2
  have hl1 : e1.1 = l1 := by simpa using List.find?_some hf1
  have hl2 : e2.1 = l2 := by simpa using List.find?_some hf2
  have he : e1 = e2 :=
    List.inj_on_of_nodup_map hnd hm1 hm2 (by rw [he1, he2])
  rw [← hl1, ← hl2, he]

theorem enumFold_initPS (hands : Player → Card) (fl pl : Location)
    (l : List (Nat × Player)) :
    ∀ f0 : Player → PlayerState,
    (∀ p, (f0 p).stackSize = 4 ∧ (f0 p).assistantLocations = ([] : List Location) ∧
        (f0 p).tiles = ([] : List Good)) →
    ∀ p, ((l.foldl (fun f e => fun p =>
          if p = e.2 then initialPlayerState (hands e.2) (2 + (e.1 : Int)) fl pl
          else f p) f0) p).stackSize = 4 ∧
      ((l.foldl (fun f e => fun p =>
          if p = e.2 then initialPlayerState (hands e.2) (2 + (e.1 : Int)) fl pl
          else f p) f0) p).assistantLocations = ([] : List Location) ∧
      ((l.foldl (fun f e => fun p =>
          if p = e.2 then initialPlayerState (hands e.2) (2 + (e.1 : Int)) fl pl
          else f p) f0) p).tiles = ([] : List Good) := by
  induction l with
  | nil => exact fun f0 h0 => h0
  | cons e rest ih =>
    intro f0 h0 p
    rw [List.foldl_cons]
    refine ih _ ?_ p
    intro q
    dsimp only
    by_cases hq : q = e.2
    · rw [if_pos hq]
      exact ⟨rfl, rfl, rfl⟩
    · rw [if_neg hq]
      exact h0 q

/-- A freshly constructed game satisfies the assistant-conservation
invariant: injective board mapping, four stack assistants, no placed
assistants, no owned tiles. -/
theorem mkInitial_inv (su : Setup) (s0 : GameState) (h : mkInitial su = some s0) :
    Inv s0 := by
  simp only [mkInitial] at h
  split at h
  · split at h
    · rename_i hn hnd
      split at h
      case _ govTile smugTile fountainLoc policeLoc hg hsm hfo hpo =>
        split at h
        case _ smTS lgTS x1 x2 hsm2 hlg2 hx1 hx2 =>
          rw [Option.some.injEq] at h
          subst h
          refine ⟨fun l1 l2 t h1 h2 =>
            mkLocMap_inj su.locPairs hnd.2 l1 l2 t h1 h2, fun p => ?_⟩
          obtain ⟨e1, e2, e3⟩ := enumFold_initPS su.playerHands fountainLoc policeLoc
            su.players.enum
            (fun p => initialPlayerState (su.playerHands p) 2 fountainLoc policeLoc)
            (fun q => ⟨rfl, rfl, rfl⟩) p
          simp only []
          rw [e1, e2, e3]
          simp
        case _ =>
          exact Option.noConfusion h
      case _ =>
        exact Option.noConfusion h
    · exact Option.noConfusion h
  · exact Option.noConfusion h

/-- Every reachable state satisfies the full invariant. -/
theorem reachable_inv (s : GameState) (h : Reachable s) : Inv s := by
  induction h with
  | init su s0 hmk => exact mkInitial_inv su s0 hmk
  | step s1 a s2 hr hstep ih => exact takeAction_inv a s1 s2 ih hstep

/-- **C1** (amended): in every reachable game state, each player's
`stack_size` plus the number of entries of `assistant_locations` equals
4, plus 1 exactly when the blue mosque tile is owned — the dispatcher
only moves assistants between the stack and the board, except that
buying the blue mosque tile adds the game's fifth assistant to the
stack (`game.py` lines 498-499). -/
theorem assistant_invariant (s : GameState) (h : Reachable s) (p : Player) :
    (s.playerStates p).stackSize + (s.playerStates p).assistantLocations.length =
      4 + (if Good.blue ∈ (s.playerStates p).tiles then 1 else 0) :=
  ((reachable_inv s h).2 p).2.2

/-- Witness for the amended C1 statement at the concretely constructed
two-player game. -/
theorem assistant_invariant_witness :
    (initEx.playerStates Player.red).stackSize +
      (initEx.playerStates Player.red).assistantLocations.length =
      4 + (if Good.blue ∈ (initEx.playerStates Player.red).tiles then 1 else 0) :=
  assistant_invariant initEx (Reachable.init exSetup initEx mkInitial_exSetup) Player.red
